import Mathlib

/-!
BMI090L gyroscope driver (bmi090lg.c): shallow embedding and verified properties.

The driver talks to the sensor through the three callbacks `read`, `write` and
`delay_us` of the device record.  The embedding threads an explicit `World`:
the state of the transport together with the log of every callback invocation,
in program order.  Status codes are `Int` (C `int8_t`), bytes are `Nat` reduced
modulo 256 wherever C stores into a `uint8_t`.

A result `none` stands for an execution without defined behaviour (a call
through a null callback, a dereference of a null context) or, for the self-test
poll loop, for exhausted fuel.
-/

namespace BMI090LG

/-! ## Constants of the header -/

/-- Constants of `bmi090l_defs.h` that `bmi090lg.c` refers to.  The header is not
part of the translated sources, so the embedding is parametric in them; each
field carries the name of the C identifier. -/
structure Defs where
  BMI090L_OK : Int
  BMI090L_E_NULL_PTR : Int
  BMI090L_E_COM_FAIL : Int
  BMI090L_E_DEV_NOT_FOUND : Int
  BMI090L_E_INVALID_INPUT : Int
  BMI090L_E_RD_WR_LENGTH_INVALID : Int
  BMI090L_E_INVALID_CONFIG : Int
  BMI090L_SPI_INTF : Nat
  BMI090L_SPI_RD_MASK : Nat
  BMI090L_SPI_WR_MASK : Nat
  BMI090L_GYRO_CHIP_ID_REG : Nat
  BMI090L_GYRO_X_LSB_REG : Nat
  BMI090L_GYRO_RANGE_REG : Nat
  BMI090L_GYRO_BANDWIDTH_REG : Nat
  BMI090L_GYRO_LPM1_REG : Nat
  BMI090L_GYRO_SOFTRESET_REG : Nat
  BMI090L_GYRO_INT_CTRL_REG : Nat
  BMI090L_GYRO_INT3_INT4_IO_CONF_REG : Nat
  BMI090L_GYRO_INT3_INT4_IO_MAP_REG : Nat
  BMI090L_GYRO_SELF_TEST_REG : Nat
  BMI090L_GYRO_CHIP_ID : Nat
  BMI090L_SOFT_RESET_CMD : Nat
  BMI090L_GYRO_SOFTRESET_DELAY : Nat
  BMI090L_GYRO_POWER_MODE_CONFIG_DELAY : Nat
  BMI090L_GYRO_BW_32_ODR_100_HZ : Nat
  BMI090L_GYRO_RANGE_125_DPS : Nat
  BMI090L_GYRO_PM_NORMAL : Nat
  BMI090L_GYRO_PM_SUSPEND : Nat
  BMI090L_GYRO_PM_DEEP_SUSPEND : Nat
  BMI090L_GYRO_DATA_RDY_INT : Nat
  BMI090L_INT_CHANNEL_3 : Nat
  BMI090L_INT_CHANNEL_4 : Nat
  BMI090L_GYRO_MAP_DRDY_TO_BOTH_INT3_INT4 : Nat
  BMI090L_GYRO_DRDY_INT_ENABLE_VAL : Nat
  BMI090L_GYRO_DRDY_INT_DISABLE_VAL : Nat
  BMI090L_ENABLE : Nat
  BMI090L_DISABLE : Nat
  BMI090L_GYRO_BW_MASK : Nat
  BMI090L_GYRO_RANGE_MASK : Nat
  BMI090L_GYRO_INT3_DATA_MASK : Nat
  BMI090L_GYRO_INT4_DATA_MASK : Nat
  BMI090L_GYRO_INT4_DATA_POS : Nat
  BMI090L_GYRO_INT3_LVL_MASK : Nat
  BMI090L_GYRO_INT3_OD_MASK : Nat
  BMI090L_GYRO_INT3_OD_POS : Nat
  BMI090L_GYRO_INT4_LVL_MASK : Nat
  BMI090L_GYRO_INT4_LVL_POS : Nat
  BMI090L_GYRO_INT4_OD_MASK : Nat
  BMI090L_GYRO_INT4_OD_POS : Nat
  BMI090L_GYRO_SELF_TEST_EN_MASK : Nat
  BMI090L_GYRO_SELF_TEST_RDY_MASK : Nat
  BMI090L_GYRO_SELF_TEST_RDY_POS : Nat
  BMI090L_GYRO_SELF_TEST_RESULT_MASK : Nat
  BMI090L_GYRO_SELF_TEST_RESULT_POS : Nat

/-- One instantiation of the header constants, following the register map of the
Bosch BMI08x/BMI090L gyroscope (register addresses, field masks, enumeration
codes in declaration order).  It is the concrete header at which the theorems
below are exercised. -/
def regmap : Defs where
  BMI090L_OK := 0
  BMI090L_E_NULL_PTR := -1
  BMI090L_E_COM_FAIL := -2
  BMI090L_E_DEV_NOT_FOUND := -3
  BMI090L_E_INVALID_INPUT := -5
  BMI090L_E_RD_WR_LENGTH_INVALID := -7
  BMI090L_E_INVALID_CONFIG := -8
  BMI090L_SPI_INTF := 1
  BMI090L_SPI_RD_MASK := 0x80
  BMI090L_SPI_WR_MASK := 0x7F
  BMI090L_GYRO_CHIP_ID_REG := 0x00
  BMI090L_GYRO_X_LSB_REG := 0x02
  BMI090L_GYRO_RANGE_REG := 0x0F
  BMI090L_GYRO_BANDWIDTH_REG := 0x10
  BMI090L_GYRO_LPM1_REG := 0x11
  BMI090L_GYRO_SOFTRESET_REG := 0x14
  BMI090L_GYRO_INT_CTRL_REG := 0x15
  BMI090L_GYRO_INT3_INT4_IO_CONF_REG := 0x16
  BMI090L_GYRO_INT3_INT4_IO_MAP_REG := 0x18
  BMI090L_GYRO_SELF_TEST_REG := 0x3C
  BMI090L_GYRO_CHIP_ID := 0x0F
  BMI090L_SOFT_RESET_CMD := 0xB6
  BMI090L_GYRO_SOFTRESET_DELAY := 30
  BMI090L_GYRO_POWER_MODE_CONFIG_DELAY := 30
  BMI090L_GYRO_BW_32_ODR_100_HZ := 0x07
  BMI090L_GYRO_RANGE_125_DPS := 0x04
  BMI090L_GYRO_PM_NORMAL := 0x00
  BMI090L_GYRO_PM_SUSPEND := 0x80
  BMI090L_GYRO_PM_DEEP_SUSPEND := 0x20
  BMI090L_GYRO_DATA_RDY_INT := 0
  BMI090L_INT_CHANNEL_3 := 0
  BMI090L_INT_CHANNEL_4 := 1
  BMI090L_GYRO_MAP_DRDY_TO_BOTH_INT3_INT4 := 0x81
  BMI090L_GYRO_DRDY_INT_ENABLE_VAL := 0x80
  BMI090L_GYRO_DRDY_INT_DISABLE_VAL := 0x00
  BMI090L_ENABLE := 1
  BMI090L_DISABLE := 0
  BMI090L_GYRO_BW_MASK := 0x0F
  BMI090L_GYRO_RANGE_MASK := 0x07
  BMI090L_GYRO_INT3_DATA_MASK := 0x01
  BMI090L_GYRO_INT4_DATA_MASK := 0x80
  BMI090L_GYRO_INT4_DATA_POS := 7
  BMI090L_GYRO_INT3_LVL_MASK := 0x01
  BMI090L_GYRO_INT3_OD_MASK := 0x02
  BMI090L_GYRO_INT3_OD_POS := 1
  BMI090L_GYRO_INT4_LVL_MASK := 0x04
  BMI090L_GYRO_INT4_LVL_POS := 2
  BMI090L_GYRO_INT4_OD_MASK := 0x08
  BMI090L_GYRO_INT4_OD_POS := 3
  BMI090L_GYRO_SELF_TEST_EN_MASK := 0x01
  BMI090L_GYRO_SELF_TEST_RDY_MASK := 0x02
  BMI090L_GYRO_SELF_TEST_RDY_POS := 1
  BMI090L_GYRO_SELF_TEST_RESULT_MASK := 0x04
  BMI090L_GYRO_SELF_TEST_RESULT_POS := 2

/-! ## Machine arithmetic and the bit-field macros -/

/-- The C expression `a & ~m` for non-negative `a` and `m`: the bits of `a`
that lie outside `m`. -/
def andNot (a m : Nat) : Nat := a ^^^ (a &&& m)

/-- Modelled from the spec: the macro `BMI090L_SET_BITS` of the header that is not
among the sources ("set a named field within a byte", "parameterized by
field-mask and shift", "preserving untouched bits"):
`((reg_var & ~MASK) | ((val << POS) & MASK))`. -/
def BMI090L_SET_BITS (reg_var mask pos val : Nat) : Nat :=
  andNot reg_var mask ||| ((val <<< pos) &&& mask)

/-- Modelled from the spec: the macro `BMI090L_SET_BITS_POS_0` of the header that
is not among the sources, the field setter for a field at shift 0:
`((reg_var & ~MASK) | (val & MASK))`. -/
def BMI090L_SET_BITS_POS_0 (reg_var mask val : Nat) : Nat :=
  andNot reg_var mask ||| (val &&& mask)

/-- Modelled from the spec: the macro `BMI090L_GET_BITS` of the header that is not
among the sources ("get a named field within a byte"):
`((reg_var & MASK) >> POS)`. -/
def BMI090L_GET_BITS (reg_var mask pos : Nat) : Nat :=
  (reg_var &&& mask) >>> pos

/-- Conversion of a value to `uint8_t`. -/
def u8 (n : Nat) : Nat := n % 256

/-- Conversion of a value to `uint16_t`. -/
def u16 (n : Nat) : Nat := n % 65536

/-- Conversion of a value to `uint32_t`. -/
def u32 (n : Nat) : Nat := n % 4294967296

/-- The cast `(int8_t)` of a non-negative value (two's complement). -/
def toInt8 (n : Nat) : Int :=
  if n % 256 < 128 then ((n % 256 : Nat) : Int) else ((n % 256 : Nat) : Int) - 256

/-- The cast `(int16_t)` of a non-negative value (two's complement). -/
def toInt16 (n : Nat) : Int :=
  if n % 65536 < 32768 then ((n % 65536 : Nat) : Int) else ((n % 65536 : Nat) : Int) - 65536

/-! ## Transport, device structure and world -/

/-- One invocation of a callback of the device structure, with the arguments
it received. -/
inductive BusEvent where
  | read (reg_addr : Nat) (len : Nat)
  | write (reg_addr : Nat) (data : List Nat) (len : Nat)
  | delay (period : Nat)
  deriving DecidableEq, Repr

/-- State of the transport and the log of callback invocations so far. -/
structure World (σ : Type) where
  st : σ
  log : List BusEvent

/-- Type of `dev->read`: register address, length and transport state to status,
delivered bytes and new transport state.  The device selector argument
(`&dev->gyro_id`) is constant per device and is absorbed in the callback. -/
abbrev bmi090l_read_fptr_t (σ : Type) := Nat → Nat → σ → Int × List Nat × σ

/-- Type of `dev->write`: register address, bytes, length and transport state to
status and new transport state. -/
abbrev bmi090l_write_fptr_t (σ : Type) := Nat → List Nat → Nat → σ → Int × σ

/-- Type of `dev->delay_us`: period in microseconds. -/
abbrev bmi090l_delay_us_fptr_t (σ : Type) := Nat → σ → σ

/-- Gyro part of `struct bmi090l_cfg`. -/
structure bmi090l_cfg where
  power : Nat
  range : Nat
  bw : Nat
  odr : Nat
  deriving DecidableEq, Repr

/-- The fields of `struct bmi090l_dev` that the gyro driver uses; a callback
that is `none` is a null function pointer. -/
structure bmi090l_dev (σ : Type) where
  intf : Nat
  gyro_chip_id : Nat
  gyro_cfg : bmi090l_cfg
  read : Option (bmi090l_read_fptr_t σ)
  write : Option (bmi090l_write_fptr_t σ)
  delay_us : Option (bmi090l_delay_us_fptr_t σ)

/-- The record `struct bmi090l_sensor_data`. -/
structure bmi090l_sensor_data where
  x : Int
  y : Int
  z : Int
  deriving DecidableEq, Repr

/-- The record `struct bmi090l_int_pin_cfg`. -/
structure bmi090l_int_pin_cfg where
  lvl : Nat
  output_mode : Nat
  enable_int_pin : Nat
  deriving DecidableEq, Repr

/-- The record `struct bmi090l_gyro_int_channel_cfg`. -/
structure bmi090l_gyro_int_channel_cfg where
  int_channel : Nat
  int_type : Nat
  int_pin_cfg : bmi090l_int_pin_cfg
  deriving DecidableEq, Repr

/-- Content of a buffer after a callback delivered `bytes` into it: a delivered
byte replaces the cell, a cell without delivered byte keeps its content. -/
def buf_fill : List Nat → List Nat → List Nat
  | [], _ => []
  | old :: rest, [] => old :: rest
  | _ :: rest, b :: bs => (b % 256) :: buf_fill rest bs

variable {σ : Type}

/-! ## Static helpers -/

/-- The C function `null_ptr_check`. -/
def null_ptr_check (K : Defs) (dev : Option (bmi090l_dev σ)) : Int :=
  match dev with
  | none => K.BMI090L_E_NULL_PTR
  | some d =>
    if d.read.isNone || d.write.isNone || d.delay_us.isNone then K.BMI090L_E_NULL_PTR
    else K.BMI090L_OK

/-- The C function `get_regs` (static): result is the status, the buffer after
the call and the new world. -/
def get_regs (K : Defs) (reg_addr : Nat) (reg_data : List Nat) (len : Nat)
    (dev : bmi090l_dev σ) (w : World σ) : Option (Int × List Nat × World σ) :=
  let reg_addr := if dev.intf = K.BMI090L_SPI_INTF then u8 (reg_addr ||| K.BMI090L_SPI_RD_MASK)
    else reg_addr
  match dev.read with
  | none => none
  | some read =>
    let r := read reg_addr len w.st
    let rslt := if r.1 ≠ K.BMI090L_OK then K.BMI090L_E_COM_FAIL else r.1
    some (rslt, buf_fill reg_data r.2.1, { st := r.2.2, log := w.log ++ [BusEvent.read reg_addr len] })

/-- The C function `set_regs` (static). -/
def set_regs (K : Defs) (reg_addr : Nat) (reg_data : List Nat) (len : Nat)
    (dev : bmi090l_dev σ) (w : World σ) : Option (Int × World σ) :=
  let reg_addr := if dev.intf = K.BMI090L_SPI_INTF then u8 (reg_addr &&& K.BMI090L_SPI_WR_MASK)
    else reg_addr
  match dev.write with
  | none => none
  | some write =>
    let r := write reg_addr reg_data len w.st
    let rslt := if r.1 ≠ K.BMI090L_OK then K.BMI090L_E_COM_FAIL else r.1
    some (rslt, { st := r.2, log := w.log ++ [BusEvent.write reg_addr reg_data len] })

/-- The call `dev->delay_us(period, dev->intf_ptr)`. -/
def call_delay_us (period : Nat) (dev : bmi090l_dev σ) (w : World σ) : Option (World σ) :=
  match dev.delay_us with
  | none => none
  | some delay_us =>
    some { st := delay_us (u32 period) w.st, log := w.log ++ [BusEvent.delay (u32 period)] }

/-! ## Public functions -/

/-- The C function `bmi090lg_get_data`. -/
def bmi090lg_get_data (K : Defs) (gyro : Option bmi090l_sensor_data)
    (dev : Option (bmi090l_dev σ)) (w : World σ) :
    Option (Int × Option bmi090l_sensor_data × World σ) :=
  let rslt := null_ptr_check K dev
  if rslt = K.BMI090L_OK ∧ gyro.isSome then
    match dev, gyro with
    | some d, some g =>
      match get_regs K K.BMI090L_GYRO_X_LSB_REG [0, 0, 0, 0, 0, 0] 6 d w with
      | none => none
      | some (rslt, data, w) =>
        if rslt = K.BMI090L_OK then
          let lsb := data.getD 0 0
          let msb := data.getD 1 0
          let msblsb := u16 ((msb <<< 8) ||| lsb)
          let x := toInt16 msblsb
          let lsb := data.getD 2 0
          let msb := data.getD 3 0
          let msblsb := u16 ((msb <<< 8) ||| lsb)
          let y := toInt16 msblsb
          let lsb := data.getD 4 0
          let msb := data.getD 5 0
          let msblsb := u16 ((msb <<< 8) ||| lsb)
          let z := toInt16 msblsb
          some (rslt, some { x := x, y := y, z := z }, w)
        else some (rslt, some g, w)
    | _, _ => none
  else some (K.BMI090L_E_NULL_PTR, gyro, w)

/-- The C function `bmi090lg_init`. -/
def bmi090lg_init (K : Defs) (dev : Option (bmi090l_dev σ)) (w : World σ) :
    Option (Int × Option (bmi090l_dev σ) × World σ) :=
  let rslt := null_ptr_check K dev
  if rslt = K.BMI090L_OK then
    match dev with
    | none => none
    | some d =>
      match get_regs K K.BMI090L_GYRO_CHIP_ID_REG [0] 1 d w with
      | none => none
      | some (rslt, buf, w) =>
        let chip_id := buf.getD 0 0
        if rslt = K.BMI090L_OK then
          if chip_id = K.BMI090L_GYRO_CHIP_ID then
            some (rslt, some { d with gyro_chip_id := chip_id }, w)
          else some (K.BMI090L_E_DEV_NOT_FOUND, some d, w)
        else some (rslt, some d, w)
  else some (rslt, dev, w)

/-- The C function `bmi090lg_get_regs`; `reg_data = none` is a null buffer. -/
def bmi090lg_get_regs (K : Defs) (reg_addr : Nat) (reg_data : Option (List Nat)) (len : Nat)
    (dev : Option (bmi090l_dev σ)) (w : World σ) :
    Option (Int × Option (List Nat) × World σ) :=
  let rslt := null_ptr_check K dev
  if rslt = K.BMI090L_OK ∧ reg_data.isSome then
    if len > 0 then
      match dev, reg_data with
      | some d, some buf =>
        match get_regs K reg_addr buf len d w with
        | none => none
        | some (rslt, buf, w) => some (rslt, some buf, w)
      | _, _ => none
    else some (K.BMI090L_E_RD_WR_LENGTH_INVALID, reg_data, w)
  else some (K.BMI090L_E_NULL_PTR, reg_data, w)

/-- The C function `bmi090lg_set_regs`; `reg_data = none` is a null buffer. -/
def bmi090lg_set_regs (K : Defs) (reg_addr : Nat) (reg_data : Option (List Nat)) (len : Nat)
    (dev : Option (bmi090l_dev σ)) (w : World σ) : Option (Int × World σ) :=
  let rslt := null_ptr_check K dev
  if rslt = K.BMI090L_OK ∧ reg_data.isSome then
    if len > 0 then
      match dev, reg_data with
      | some d, some buf => set_regs K reg_addr buf len d w
      | _, _ => none
    else some (K.BMI090L_E_RD_WR_LENGTH_INVALID, w)
  else some (K.BMI090L_E_NULL_PTR, w)

/-- The C function `bmi090lg_soft_reset`. -/
def bmi090lg_soft_reset (K : Defs) (dev : Option (bmi090l_dev σ)) (w : World σ) :
    Option (Int × World σ) :=
  let rslt := null_ptr_check K dev
  if rslt = K.BMI090L_OK then
    match dev with
    | none => none
    | some d =>
      let data := u8 K.BMI090L_SOFT_RESET_CMD
      match set_regs K K.BMI090L_GYRO_SOFTRESET_REG [data] 1 d w with
      | none => none
      | some (rslt, w) =>
        if rslt = K.BMI090L_OK then
          match call_delay_us (K.BMI090L_GYRO_SOFTRESET_DELAY * 1000) d w with
          | none => none
          | some w => some (rslt, w)
        else some (rslt, w)
  else some (rslt, w)

/-- The C function `bmi090lg_get_meas_conf`. -/
def bmi090lg_get_meas_conf (K : Defs) (dev : Option (bmi090l_dev σ)) (w : World σ) :
    Option (Int × Option (bmi090l_dev σ) × World σ) :=
  let rslt := null_ptr_check K dev
  if rslt = K.BMI090L_OK then
    match dev with
    | none => none
    | some d =>
      match get_regs K K.BMI090L_GYRO_RANGE_REG [0, 0] 2 d w with
      | none => none
      | some (rslt, data, w) =>
        if rslt = K.BMI090L_OK then
          let range := data.getD 0 0
          let odr := u8 (data.getD 1 0 &&& K.BMI090L_GYRO_BW_MASK)
          some (rslt, some { d with gyro_cfg := { d.gyro_cfg with range := range, odr := odr, bw := odr } }, w)
        else some (rslt, some d, w)
  else some (rslt, dev, w)

/-- The C function `bmi090lg_set_meas_conf`. -/
def bmi090lg_set_meas_conf (K : Defs) (dev : Option (bmi090l_dev σ)) (w : World σ) :
    Option (Int × World σ) :=
  let rslt := null_ptr_check K dev
  if rslt = K.BMI090L_OK then
    match dev with
    | none => none
    | some d =>
      let odr := d.gyro_cfg.odr
      let range := d.gyro_cfg.range
      let is_odr_invalid : Bool := decide (odr > K.BMI090L_GYRO_BW_32_ODR_100_HZ)
      let is_range_invalid : Bool := decide (range > K.BMI090L_GYRO_RANGE_125_DPS)
      if (!is_odr_invalid) && (!is_range_invalid) then
        match get_regs K K.BMI090L_GYRO_BANDWIDTH_REG [0] 1 d w with
        | none => none
        | some (rslt, buf, w) =>
          if rslt = K.BMI090L_OK then
            let data := u8 (BMI090L_SET_BITS_POS_0 (buf.getD 0 0) K.BMI090L_GYRO_BW_MASK odr)
            match set_regs K K.BMI090L_GYRO_BANDWIDTH_REG [data] 1 d w with
            | none => none
            | some (rslt, w) =>
              if rslt = K.BMI090L_OK then
                match get_regs K K.BMI090L_GYRO_RANGE_REG [data] 1 d w with
                | none => none
                | some (rslt, buf, w) =>
                  if rslt = K.BMI090L_OK then
                    let data := u8 (BMI090L_SET_BITS_POS_0 (buf.getD 0 0) K.BMI090L_GYRO_RANGE_MASK range)
                    set_regs K K.BMI090L_GYRO_RANGE_REG [data] 1 d w
                  else some (rslt, w)
              else some (rslt, w)
          else some (rslt, w)
      else some (K.BMI090L_E_INVALID_CONFIG, w)
  else some (rslt, w)

/-- The C function `bmi090lg_get_power_mode`. -/
def bmi090lg_get_power_mode (K : Defs) (dev : Option (bmi090l_dev σ)) (w : World σ) :
    Option (Int × Option (bmi090l_dev σ) × World σ) :=
  let rslt := null_ptr_check K dev
  if rslt = K.BMI090L_OK then
    match dev with
    | none => none
    | some d =>
      match get_regs K K.BMI090L_GYRO_LPM1_REG [0] 1 d w with
      | none => none
      | some (rslt, buf, w) =>
        if rslt = K.BMI090L_OK then
          let data := buf.getD 0 0
          some (rslt, some { d with gyro_cfg := { d.gyro_cfg with power := data } }, w)
        else some (rslt, some d, w)
  else some (rslt, dev, w)

/-- The C function `bmi090lg_set_power_mode`. -/
def bmi090lg_set_power_mode (K : Defs) (dev : Option (bmi090l_dev σ)) (w : World σ) :
    Option (Int × World σ) :=
  let rslt := null_ptr_check K dev
  if rslt = K.BMI090L_OK then
    match dev with
    | none => none
    | some d =>
      match get_regs K K.BMI090L_GYRO_LPM1_REG [0] 1 d w with
      | none => none
      | some (rslt, buf, w) =>
        if rslt = K.BMI090L_OK then
          let data := buf.getD 0 0
          let power_mode := d.gyro_cfg.power
          let invalid1 : Bool :=
            decide (power_mode = K.BMI090L_GYRO_PM_SUSPEND) && decide (data = K.BMI090L_GYRO_PM_DEEP_SUSPEND)
          let invalid2 : Bool :=
            decide (power_mode = K.BMI090L_GYRO_PM_DEEP_SUSPEND) && decide (data = K.BMI090L_GYRO_PM_SUSPEND)
          let is_power_switching_mode_valid : Bool := !(invalid1 || invalid2)
          if is_power_switching_mode_valid then
            match set_regs K K.BMI090L_GYRO_LPM1_REG [power_mode] 1 d w with
            | none => none
            | some (rslt, w) =>
              if rslt = K.BMI090L_OK then
                match call_delay_us (K.BMI090L_GYRO_POWER_MODE_CONFIG_DELAY * 1000) d w with
                | none => none
                | some w => some (rslt, w)
              else some (rslt, w)
          else some (K.BMI090L_E_INVALID_INPUT, w)
        else some (rslt, w)
  else some (rslt, w)

/-- The C function `set_int_pin_config` (static). -/
def set_int_pin_config (K : Defs) (int_config : bmi090l_gyro_int_channel_cfg)
    (dev : bmi090l_dev σ) (w : World σ) : Option (Int × World σ) :=
  match get_regs K K.BMI090L_GYRO_INT3_INT4_IO_CONF_REG [0] 1 dev w with
  | none => none
  | some (rslt, buf, w) =>
    if rslt = K.BMI090L_OK then
      let data := buf.getD 0 0
      let data :=
        if int_config.int_channel = K.BMI090L_INT_CHANNEL_3 then
          let data := u8 (BMI090L_SET_BITS_POS_0 data K.BMI090L_GYRO_INT3_LVL_MASK int_config.int_pin_cfg.lvl)
          u8 (BMI090L_SET_BITS data K.BMI090L_GYRO_INT3_OD_MASK K.BMI090L_GYRO_INT3_OD_POS
            int_config.int_pin_cfg.output_mode)
        else if int_config.int_channel = K.BMI090L_INT_CHANNEL_4 then
          let data := u8 (BMI090L_SET_BITS data K.BMI090L_GYRO_INT4_LVL_MASK K.BMI090L_GYRO_INT4_LVL_POS
            int_config.int_pin_cfg.lvl)
          u8 (BMI090L_SET_BITS data K.BMI090L_GYRO_INT4_OD_MASK K.BMI090L_GYRO_INT4_OD_POS
            int_config.int_pin_cfg.output_mode)
        else data
      set_regs K K.BMI090L_GYRO_INT3_INT4_IO_CONF_REG [data] 1 dev w
    else some (rslt, w)

/-- The C function `set_gyro_data_ready_int` (static). -/
def set_gyro_data_ready_int (K : Defs) (int_config : bmi090l_gyro_int_channel_cfg)
    (dev : bmi090l_dev σ) (w : World σ) : Option (Int × World σ) :=
  match get_regs K K.BMI090L_GYRO_INT3_INT4_IO_MAP_REG [0] 1 dev w with
  | none => none
  | some (rslt, buf, w) =>
    if rslt = K.BMI090L_OK then
      let data0 := buf.getD 0 0
      let conf := int_config.int_pin_cfg.enable_int_pin
      let sw : Int × Nat :=
        if int_config.int_channel = K.BMI090L_INT_CHANNEL_3 then
          (rslt, u8 (BMI090L_SET_BITS_POS_0 data0 K.BMI090L_GYRO_INT3_DATA_MASK conf))
        else if int_config.int_channel = K.BMI090L_INT_CHANNEL_4 then
          (rslt, u8 (BMI090L_SET_BITS data0 K.BMI090L_GYRO_INT4_DATA_MASK K.BMI090L_GYRO_INT4_DATA_POS conf))
        else (K.BMI090L_E_INVALID_INPUT, data0)
      let rslt := sw.1
      let data0 := sw.2
      if rslt = K.BMI090L_OK then
        let data1 :=
          if data0 &&& K.BMI090L_GYRO_MAP_DRDY_TO_BOTH_INT3_INT4 ≠ 0 then u8 K.BMI090L_GYRO_DRDY_INT_ENABLE_VAL
          else u8 K.BMI090L_GYRO_DRDY_INT_DISABLE_VAL
        match set_regs K K.BMI090L_GYRO_INT3_INT4_IO_MAP_REG [data0] 1 dev w with
        | none => none
        | some (rslt, w) =>
          if rslt = K.BMI090L_OK then
            match set_int_pin_config K int_config dev w with
            | none => none
            | some (rslt, w) =>
              if rslt = K.BMI090L_OK then set_regs K K.BMI090L_GYRO_INT_CTRL_REG [data1] 1 dev w
              else some (rslt, w)
          else some (rslt, w)
      else some (rslt, w)
    else some (rslt, w)

/-- The C function `bmi090lg_set_int_config`; `int_config = none` is a null
pointer. -/
def bmi090lg_set_int_config (K : Defs) (int_config : Option bmi090l_gyro_int_channel_cfg)
    (dev : Option (bmi090l_dev σ)) (w : World σ) : Option (Int × World σ) :=
  let rslt := null_ptr_check K dev
  if rslt = K.BMI090L_OK ∧ int_config.isSome then
    match dev, int_config with
    | some d, some cfg =>
      if cfg.int_type = K.BMI090L_GYRO_DATA_RDY_INT then set_gyro_data_ready_int K cfg d w
      else some (K.BMI090L_E_INVALID_CONFIG, w)
    | _, _ => none
  else some (K.BMI090L_E_NULL_PTR, w)

/-- The C function `set_gyro_selftest` (static). -/
def set_gyro_selftest (K : Defs) (selftest : Nat) (dev : bmi090l_dev σ) (w : World σ) :
    Option (Int × World σ) :=
  if selftest = K.BMI090L_ENABLE ∨ selftest = K.BMI090L_DISABLE then
    match get_regs K K.BMI090L_GYRO_SELF_TEST_REG [0] 1 dev w with
    | none => none
    | some (rslt, buf, w) =>
      if rslt = K.BMI090L_OK then
        let data := u8 (BMI090L_SET_BITS_POS_0 (buf.getD 0 0) K.BMI090L_GYRO_SELF_TEST_EN_MASK selftest)
        set_regs K K.BMI090L_GYRO_SELF_TEST_REG [data] 1 dev w
      else some (rslt, w)
  else some (K.BMI090L_E_INVALID_INPUT, w)

/-- The `while (loop_break)` loop of `bmi090lg_perform_selftest`: each iteration
reads the self-test register into `data`; the loop ends when the ready bit is
set or the read fails.  The loop has no bound in C; `fuel` bounds the number of
iterations of the model and `none` is returned when it runs out. -/
def selftest_poll (K : Defs) (dev : bmi090l_dev σ) :
    Nat → Nat → World σ → Option (Int × Nat × World σ)
  | 0, _, _ => none
  | fuel + 1, data, w =>
    match get_regs K K.BMI090L_GYRO_SELF_TEST_REG [data] 1 dev w with
    | none => none
    | some (rslt, buf, w) =>
      let data := buf.getD 0 0
      if rslt = K.BMI090L_OK then
        let data := u8 (BMI090L_GET_BITS data K.BMI090L_GYRO_SELF_TEST_RDY_MASK
          K.BMI090L_GYRO_SELF_TEST_RDY_POS)
        if data ≠ 0 then some (rslt, data, w) else selftest_poll K dev fuel data w
      else some (rslt, data, w)

/-- The C function `bmi090lg_perform_selftest`, with `fuel` bounding the
iterations of the poll loop. -/
def bmi090lg_perform_selftest (K : Defs) (fuel : Nat) (dev : Option (bmi090l_dev σ))
    (w : World σ) : Option (Int × World σ) :=
  let rslt := null_ptr_check K dev
  if rslt = K.BMI090L_OK then
    match dev with
    | none => none
    | some d =>
      match set_gyro_selftest K (u8 K.BMI090L_ENABLE) d w with
      | none => none
      | some (rslt, w) =>
        if rslt = K.BMI090L_OK then
          match selftest_poll K d fuel 0 w with
          | none => none
          | some (rslt, data, w) =>
            if rslt = K.BMI090L_OK then
              match get_regs K K.BMI090L_GYRO_SELF_TEST_REG [data] 1 d w with
              | none => none
              | some (rslt, buf, w) =>
                if rslt = K.BMI090L_OK then
                  let data := u8 (BMI090L_GET_BITS (buf.getD 0 0) K.BMI090L_GYRO_SELF_TEST_RESULT_MASK
                    K.BMI090L_GYRO_SELF_TEST_RESULT_POS)
                  match bmi090lg_soft_reset K (some d) w with
                  | none => none
                  | some (rslt, w) =>
                    if rslt = K.BMI090L_OK then some (toInt8 data, w) else some (rslt, w)
                else some (rslt, w)
            else some (rslt, w)
        else some (rslt, w)
  else some (rslt, w)


/-! ## A register-file transport -/

/-- Read callback of a register file: the transport state maps a 7-bit register
address to the stored byte; bit 7 of the address on the bus is the SPI
direction bit and is not part of the register address.  A burst read delivers
the bytes at consecutive addresses; the transaction succeeds. -/
def regfile_read (K : Defs) : bmi090l_read_fptr_t (Nat → Nat) :=
  fun reg_addr len st => (K.BMI090L_OK, (List.range len).map (fun i => st (reg_addr % 128 + i)), st)

/-- Write callback of a register file: every byte of the burst is stored at its
address; the transaction succeeds. -/
def regfile_write (K : Defs) : bmi090l_write_fptr_t (Nat → Nat) :=
  fun reg_addr data len st =>
    (K.BMI090L_OK, fun a =>
      if reg_addr % 128 ≤ a ∧ a < reg_addr % 128 + len then data.getD (a - reg_addr % 128) (st a)
      else st a)

/-- Delay callback that leaves the transport state as it is. -/
def regfile_delay : bmi090l_delay_us_fptr_t (Nat → Nat) := fun _ st => st

/-- A device on the register-file transport. -/
def regfile_dev (K : Defs) (intf : Nat) (cfg : bmi090l_cfg) : bmi090l_dev (Nat → Nat) where
  intf := intf
  gyro_chip_id := 0
  gyro_cfg := cfg
  read := some (regfile_read K)
  write := some (regfile_write K)
  delay_us := some regfile_delay

/-- Number of read callback invocations in a log. -/
def count_reads (log : List BusEvent) : Nat :=
  (log.filter (fun e => match e with | BusEvent.read _ _ => true | _ => false)).length

/-- Number of write callback invocations in a log. -/
def count_writes (log : List BusEvent) : Nat :=
  (log.filter (fun e => match e with | BusEvent.write _ _ _ => true | _ => false)).length

/-- Number of delay callback invocations in a log. -/
def count_delays (log : List BusEvent) : Nat :=
  (log.filter (fun e => match e with | BusEvent.delay _ => true | _ => false)).length

/-- Address that `get_regs` passes to the read callback for register `reg_addr`. -/
def rd_addr (K : Defs) (dev : bmi090l_dev σ) (reg_addr : Nat) : Nat :=
  if dev.intf = K.BMI090L_SPI_INTF then u8 (reg_addr ||| K.BMI090L_SPI_RD_MASK) else reg_addr

/-- Address that `set_regs` passes to the write callback for register `reg_addr`. -/
def wr_addr (K : Defs) (dev : bmi090l_dev σ) (reg_addr : Nat) : Nat :=
  if dev.intf = K.BMI090L_SPI_INTF then u8 (reg_addr &&& K.BMI090L_SPI_WR_MASK) else reg_addr

/-- The call `bmi090lg_set_meas_conf` followed by `bmi090lg_get_meas_conf` on the
same context: the two statuses, the context after the second call, the world. -/
def set_then_get_meas_conf (K : Defs) (dev : Option (bmi090l_dev σ)) (w : World σ) :
    Option (Int × Int × Option (bmi090l_dev σ) × World σ) :=
  match bmi090lg_set_meas_conf K dev w with
  | none => none
  | some (r1, w1) =>
    match bmi090lg_get_meas_conf K dev w1 with
    | none => none
    | some (r2, dev2, w2) => some (r1, r2, dev2, w2)

/-- The configuration fields of an optional context after a call (all zero for
a null context). -/
def cfg_of (dev : Option (bmi090l_dev σ)) : bmi090l_cfg :=
  match dev with
  | none => { power := 0, range := 0, bw := 0, odr := 0 }
  | some d => d.gyro_cfg

/-- The byte that `set_gyro_data_ready_int` writes to the pin-map register on
channel 3 or 4, as a function of the byte `m` it read from that register. -/
def drdy_map_byte (K : Defs) (int_config : bmi090l_gyro_int_channel_cfg) (m : Nat) : Nat :=
  if int_config.int_channel = K.BMI090L_INT_CHANNEL_3 then
    u8 (BMI090L_SET_BITS_POS_0 m K.BMI090L_GYRO_INT3_DATA_MASK int_config.int_pin_cfg.enable_int_pin)
  else
    u8 (BMI090L_SET_BITS m K.BMI090L_GYRO_INT4_DATA_MASK K.BMI090L_GYRO_INT4_DATA_POS
      int_config.int_pin_cfg.enable_int_pin)

/-- The byte that `set_int_pin_config` writes to the pin-configuration register,
as a function of the byte `c` it read from that register. -/
def pin_conf_byte (K : Defs) (int_config : bmi090l_gyro_int_channel_cfg) (c : Nat) : Nat :=
  if int_config.int_channel = K.BMI090L_INT_CHANNEL_3 then
    u8 (BMI090L_SET_BITS
      (u8 (BMI090L_SET_BITS_POS_0 c K.BMI090L_GYRO_INT3_LVL_MASK int_config.int_pin_cfg.lvl))
      K.BMI090L_GYRO_INT3_OD_MASK K.BMI090L_GYRO_INT3_OD_POS int_config.int_pin_cfg.output_mode)
  else if int_config.int_channel = K.BMI090L_INT_CHANNEL_4 then
    u8 (BMI090L_SET_BITS
      (u8 (BMI090L_SET_BITS c K.BMI090L_GYRO_INT4_LVL_MASK K.BMI090L_GYRO_INT4_LVL_POS
        int_config.int_pin_cfg.lvl))
      K.BMI090L_GYRO_INT4_OD_MASK K.BMI090L_GYRO_INT4_OD_POS int_config.int_pin_cfg.output_mode)
  else c

/-- The byte that `set_gyro_data_ready_int` writes to the interrupt-control
register, as a function of the updated pin-map byte. -/
def drdy_ctrl_byte (K : Defs) (map_byte : Nat) : Nat :=
  if map_byte &&& K.BMI090L_GYRO_MAP_DRDY_TO_BOTH_INT3_INT4 ≠ 0 then u8 K.BMI090L_GYRO_DRDY_INT_ENABLE_VAL
  else u8 K.BMI090L_GYRO_DRDY_INT_DISABLE_VAL

/-! ## A scripted transport -/

/-- Read callback of a scripted transport: the transport state counts the reads
served so far; the read number `n` (from 0) delivers the single byte `seq n`
and succeeds, whatever the register. -/
def script_read (K : Defs) (seq : Nat → Nat) : bmi090l_read_fptr_t Nat :=
  fun _ _ n => (K.BMI090L_OK, [seq n], n + 1)

/-- Write callback of the scripted transport: every write succeeds and leaves
the read count as it is. -/
def script_write (K : Defs) : bmi090l_write_fptr_t Nat := fun _ _ _ n => (K.BMI090L_OK, n)

/-- Delay callback of the scripted transport. -/
def script_delay : bmi090l_delay_us_fptr_t Nat := fun _ n => n

/-- A device on the scripted transport. -/
def script_dev (K : Defs) (intf : Nat) (seq : Nat → Nat) : bmi090l_dev Nat where
  intf := intf
  gyro_chip_id := 0
  gyro_cfg := { power := 0, range := 0, bw := 0, odr := 0 }
  read := some (script_read K seq)
  write := some (script_write K)
  delay_us := some script_delay

/-- The ready field that the poll loop of `bmi090lg_perform_selftest` extracts
from a delivered byte. -/
def selftest_rdy (K : Defs) (b : Nat) : Nat :=
  u8 (BMI090L_GET_BITS (b % 256) K.BMI090L_GYRO_SELF_TEST_RDY_MASK K.BMI090L_GYRO_SELF_TEST_RDY_POS)

/-- The result field that `bmi090lg_perform_selftest` extracts from the byte of
its evaluation read. -/
def selftest_result (K : Defs) (b : Nat) : Nat :=
  u8 (BMI090L_GET_BITS (b % 256) K.BMI090L_GYRO_SELF_TEST_RESULT_MASK
    K.BMI090L_GYRO_SELF_TEST_RESULT_POS)

/-- A scripted transport with one failing read: as `script_read`, but the read
number `k` reports the status `bad` (the bytes it delivers are still `seq k`). -/
def faulty_read (K : Defs) (seq : Nat → Nat) (k : Nat) (bad : Int) : bmi090l_read_fptr_t Nat :=
  fun _ _ n => (if n = k then bad else K.BMI090L_OK, [seq n], n + 1)

/-- A device on the scripted transport whose read number `k` fails. -/
def faulty_dev (K : Defs) (intf : Nat) (seq : Nat → Nat) (k : Nat) (bad : Int) : bmi090l_dev Nat where
  intf := intf
  gyro_chip_id := 0
  gyro_cfg := { power := 0, range := 0, bw := 0, odr := 0 }
  read := some (faulty_read K seq k bad)
  write := some (script_write K)
  delay_us := some script_delay

/-- The call `bmi090lg_set_power_mode` followed by `bmi090lg_get_power_mode` on
the same context: the two statuses, the context after the second call, the
world. -/
def set_then_get_power_mode (K : Defs) (dev : Option (bmi090l_dev σ)) (w : World σ) :
    Option (Int × Int × Option (bmi090l_dev σ) × World σ) :=
  match bmi090lg_set_power_mode K dev w with
  | none => none
  | some (r1, w1) =>
    match bmi090lg_get_power_mode K dev w1 with
    | none => none
    | some (r2, dev2, w2) => some (r1, r2, dev2, w2)

/-! ## Theorems -/

/-! ### Bit-level facts -/

/-- Bits of `a & ~m`. -/
theorem testBit_andNot (a m i : Nat) : (andNot a m).testBit i = (a.testBit i && !m.testBit i) := by
  simp only [andNot, Nat.testBit_xor, Nat.testBit_and]
  cases a.testBit i <;> cases m.testBit i <;> rfl

/-- A byte has no bit at position 8 or above. -/
theorem testBit_byte_high (b i : Nat) (hb : b < 256) (hi : 8 ≤ i) : b.testBit i = false := by
  apply Nat.testBit_lt_two_pow
  calc b < 2 ^ 8 := hb
    _ ≤ 2 ^ i := Nat.pow_le_pow_right (by decide) hi

/-- Bits of a field setter at shift 0. -/
theorem testBit_SET_BITS_POS_0 (r m v i : Nat) :
    (BMI090L_SET_BITS_POS_0 r m v).testBit i = if m.testBit i then v.testBit i else r.testBit i := by
  simp only [BMI090L_SET_BITS_POS_0, Nat.testBit_or, Nat.testBit_and, testBit_andNot]
  cases r.testBit i <;> cases m.testBit i <;> cases v.testBit i <;> rfl

/-- Bits of a field setter at shift `p`. -/
theorem testBit_SET_BITS (r m p v i : Nat) :
    (BMI090L_SET_BITS r m p v).testBit i =
      if m.testBit i then (v <<< p).testBit i else r.testBit i := by
  simp only [BMI090L_SET_BITS, Nat.testBit_or, Nat.testBit_and, testBit_andNot]
  cases r.testBit i <;> cases m.testBit i <;> cases (v <<< p).testBit i <;> rfl

/-- A value that fits the field mask is read back from the field after a
read-modify-write at shift 0. -/
theorem field_readback (b m v : Nat) (hv : v &&& m = v) (hv8 : v < 256) :
    u8 (u8 (BMI090L_SET_BITS_POS_0 b m v) &&& m) = v := by
  apply Nat.eq_of_testBit_eq
  intro i
  have h1 : (v &&& m).testBit i = v.testBit i := by rw [hv]
  rw [Nat.testBit_and] at h1
  simp only [u8, Nat.testBit_mod_two_pow _ 8, Nat.testBit_and, testBit_SET_BITS_POS_0,
    show (256 : Nat) = 2 ^ 8 from rfl]
  by_cases hi : i < 8
  · cases hm : m.testBit i <;> cases hvi : v.testBit i <;> simp_all
  · have := testBit_byte_high v i hv8 (by omega)
    simp [hi, this]

/-- The whole byte after a read-modify-write at shift 0 is the value, when the
prior byte has no bit outside the mask and the value fits the mask. -/
theorem field_whole_byte (b m v : Nat) (hb : andNot b m = 0) (hv : v &&& m = v) (hv8 : v < 256) :
    u8 (BMI090L_SET_BITS_POS_0 b m v) = v := by
  apply Nat.eq_of_testBit_eq
  intro i
  have h1 : (v &&& m).testBit i = v.testBit i := by rw [hv]
  rw [Nat.testBit_and] at h1
  have h2 : (andNot b m).testBit i = false := by rw [hb]; simp
  rw [testBit_andNot] at h2
  simp only [u8, Nat.testBit_mod_two_pow _ 8, testBit_SET_BITS_POS_0,
    show (256 : Nat) = 2 ^ 8 from rfl]
  by_cases hi : i < 8
  · cases hm : m.testBit i <;> cases hvi : v.testBit i <;> cases hbi : b.testBit i <;> simp_all
  · have := testBit_byte_high v i hv8 (by omega)
    simp [hi, this]

/-- Decoding of an SPI read address by the register file. -/
theorem spi_rd_decode : ∀ r, r < 128 → (r ||| 128) % 256 % 128 = r := by decide

/-- Decoding of an SPI write address by the register file. -/
theorem spi_wr_decode : ∀ r, r < 128 → (r &&& 127) % 256 % 128 = r := by decide

/-- Unfolding of `get_regs` for a device with a read callback. -/
theorem get_regs_of_read (K : Defs) (d : bmi090l_dev σ) (w : World σ) (rd : bmi090l_read_fptr_t σ)
    (reg_addr len : Nat) (buf bytes : List Nat) (s : Int) (st1 : σ) (hrd : d.read = some rd)
    (hread : rd (rd_addr K d reg_addr) len w.st = (s, bytes, st1)) :
    get_regs K reg_addr buf len d w =
      some (if s ≠ K.BMI090L_OK then K.BMI090L_E_COM_FAIL else s, buf_fill buf bytes,
        { st := st1, log := w.log ++ [BusEvent.read (rd_addr K d reg_addr) len] }) := by
  unfold rd_addr at hread
  simp [get_regs, rd_addr, hrd, hread]

/-- Unfolding of `set_regs` for a device with a write callback. -/
theorem set_regs_of_write (K : Defs) (d : bmi090l_dev σ) (w : World σ) (wr : bmi090l_write_fptr_t σ)
    (reg_addr len : Nat) (data : List Nat) (s : Int) (st1 : σ) (hwr : d.write = some wr)
    (hwrite : wr (wr_addr K d reg_addr) data len w.st = (s, st1)) :
    set_regs K reg_addr data len d w =
      some (if s ≠ K.BMI090L_OK then K.BMI090L_E_COM_FAIL else s,
        { st := st1, log := w.log ++ [BusEvent.write (wr_addr K d reg_addr) data len] }) := by
  unfold wr_addr at hwrite
  simp [set_regs, wr_addr, hwr, hwrite]

/-- The null check passes on a context whose three callbacks are set. -/
theorem null_ptr_check_ok (K : Defs) (d : bmi090l_dev σ) (rd : bmi090l_read_fptr_t σ)
    (wr : bmi090l_write_fptr_t σ) (dl : bmi090l_delay_us_fptr_t σ)
    (hrd : d.read = some rd) (hwr : d.write = some wr) (hdl : d.delay_us = some dl) :
    null_ptr_check K (some d) = K.BMI090L_OK := by
  simp [null_ptr_check, hrd, hwr, hdl]

/-- C1: with a valid context and a destination, when the 6-byte read at the X-axis
low-byte register succeeds and delivers b0..b5, `bmi090lg_get_data` returns OK
and stores in x, y, z the signed 16-bit values of (b1<<8)|b0, (b3<<8)|b2,
(b5<<8)|b4; the bytes 0x34 0x12 0xCD 0xAB 0x00 0x80 give 4660, -21555, -32768. -/
theorem get_data_decodes_burst (K : Defs) (d : bmi090l_dev σ) (g : bmi090l_sensor_data)
    (w : World σ) (rd : bmi090l_read_fptr_t σ) (wr : bmi090l_write_fptr_t σ)
    (dl : bmi090l_delay_us_fptr_t σ) (b0 b1 b2 b3 b4 b5 : Nat) (st1 : σ)
    (hrd : d.read = some rd) (hwr : d.write = some wr) (hdl : d.delay_us = some dl)
    (hb0 : b0 < 256) (hb1 : b1 < 256) (hb2 : b2 < 256) (hb3 : b3 < 256) (hb4 : b4 < 256)
    (hb5 : b5 < 256)
    (hread : rd (rd_addr K d K.BMI090L_GYRO_X_LSB_REG) 6 w.st = (K.BMI090L_OK, [b0, b1, b2, b3, b4, b5], st1)) :
    bmi090lg_get_data K (some g) (some d) w =
        some (K.BMI090L_OK,
          some { x := toInt16 ((b1 <<< 8) ||| b0), y := toInt16 ((b3 <<< 8) ||| b2),
                 z := toInt16 ((b5 <<< 8) ||| b4) },
          { st := st1, log := w.log ++ [BusEvent.read (rd_addr K d K.BMI090L_GYRO_X_LSB_REG) 6] })
      ∧ toInt16 ((0x12 <<< 8) ||| 0x34) = 4660
      ∧ toInt16 ((0xAB <<< 8) ||| 0xCD) = -21555
      ∧ toInt16 ((0x80 <<< 8) ||| 0x00) = -32768 := by
  refine ⟨?_, by decide, by decide, by decide⟩
  simp [bmi090lg_get_data, null_ptr_check_ok K d rd wr dl hrd hwr hdl,
    get_regs_of_read K d w rd _ _ _ _ _ _ hrd hread, buf_fill, u16, toInt16,
    Nat.mod_eq_of_lt hb0, Nat.mod_eq_of_lt hb1, Nat.mod_eq_of_lt hb2, Nat.mod_eq_of_lt hb3,
    Nat.mod_eq_of_lt hb4, Nat.mod_eq_of_lt hb5]

/-- C1 at the bytes of the specification, on the SPI interface. -/
theorem get_data_decodes_burst_witness :
    bmi090lg_get_data regmap (some { x := 0, y := 0, z := 0 })
        (some { intf := 1, gyro_chip_id := 0, gyro_cfg := { power := 0, range := 0, bw := 0, odr := 0 },
                read := some (fun _ _ (s : Nat) => ((0 : Int), [0x34, 0x12, 0xCD, 0xAB, 0x00, 0x80], s + 1)),
                write := some (fun _ _ _ s => ((0 : Int), s)),
                delay_us := some (fun _ s => s) })
        { st := 0, log := [] } =
      some (0, some { x := 4660, y := -21555, z := -32768 }, { st := 1, log := [BusEvent.read 0x82 6] }) := by
  have h := (get_data_decodes_burst regmap
    { intf := 1, gyro_chip_id := 0, gyro_cfg := { power := 0, range := 0, bw := 0, odr := 0 },
      read := some (fun _ _ (s : Nat) => ((0 : Int), [0x34, 0x12, 0xCD, 0xAB, 0x00, 0x80], s + 1)),
      write := some (fun _ _ _ s => ((0 : Int), s)),
      delay_us := some (fun _ s => s) }
    { x := 0, y := 0, z := 0 } { st := 0, log := [] } _ _ _ 0x34 0x12 0xCD 0xAB 0x00 0x80 1
    rfl rfl rfl (by decide) (by decide) (by decide) (by decide) (by decide) (by decide) rfl).1
  rw [h]
  rfl


/-- Register index that the register file decodes from a read address. -/
theorem regfile_rd_index (K : Defs) (d : bmi090l_dev σ) (r : Nat) (hr : r < 128)
    (hm : K.BMI090L_SPI_RD_MASK = 0x80) : rd_addr K d r % 128 = r := by
  unfold rd_addr u8
  split
  · rw [hm]; exact spi_rd_decode r hr
  · exact Nat.mod_eq_of_lt hr

/-- Register index that the register file decodes from a write address. -/
theorem regfile_wr_index (K : Defs) (d : bmi090l_dev σ) (r : Nat) (hr : r < 128)
    (hm : K.BMI090L_SPI_WR_MASK = 0x7F) : wr_addr K d r % 128 = r := by
  unfold wr_addr u8
  split
  · rw [hm]; exact spi_wr_decode r hr
  · exact Nat.mod_eq_of_lt hr

/-- A one-byte `get_regs` on the register file. -/
theorem get_regs_regfile_one (K : Defs) (intf : Nat) (cfg : bmi090l_cfg) (w : World (Nat → Nat))
    (reg x : Nat) (hr : reg < 128) (hm : K.BMI090L_SPI_RD_MASK = 0x80) :
    get_regs K reg [x] 1 (regfile_dev K intf cfg) w =
      some (K.BMI090L_OK, [w.st reg % 256],
        { st := w.st, log := w.log ++ [BusEvent.read (rd_addr K (regfile_dev K intf cfg) reg) 1] }) := by
  rw [get_regs_of_read K (regfile_dev K intf cfg) w (regfile_read K) reg 1 [x] _ _ _ rfl rfl]
  simp [regfile_rd_index K (regfile_dev K intf cfg) reg hr hm, buf_fill, List.range]

/-- A two-byte `get_regs` on the register file. -/
theorem get_regs_regfile_two (K : Defs) (intf : Nat) (cfg : bmi090l_cfg) (w : World (Nat → Nat))
    (reg x y : Nat) (hr : reg < 128) (hm : K.BMI090L_SPI_RD_MASK = 0x80) :
    get_regs K reg [x, y] 2 (regfile_dev K intf cfg) w =
      some (K.BMI090L_OK, [w.st reg % 256, w.st (reg + 1) % 256],
        { st := w.st, log := w.log ++ [BusEvent.read (rd_addr K (regfile_dev K intf cfg) reg) 2] }) := by
  rw [get_regs_of_read K (regfile_dev K intf cfg) w (regfile_read K) reg 2 [x, y] _ _ _ rfl rfl]
  simp [regfile_rd_index K (regfile_dev K intf cfg) reg hr hm, buf_fill, List.range, List.range.loop]

/-- A one-byte `set_regs` on the register file stores the byte at the register. -/
theorem set_regs_regfile_one (K : Defs) (intf : Nat) (cfg : bmi090l_cfg) (w : World (Nat → Nat))
    (reg b : Nat) (hr : reg < 128) (hm : K.BMI090L_SPI_WR_MASK = 0x7F) :
    set_regs K reg [b] 1 (regfile_dev K intf cfg) w =
      some (K.BMI090L_OK,
        { st := Function.update w.st reg b,
          log := w.log ++ [BusEvent.write (wr_addr K (regfile_dev K intf cfg) reg) [b] 1] }) := by
  rw [set_regs_of_write K (regfile_dev K intf cfg) w (regfile_write K) reg 1 [b] _ _ rfl rfl]
  simp only [regfile_wr_index K (regfile_dev K intf cfg) reg hr hm, ne_eq, not_true_eq_false,
    if_false, Option.some.injEq, Prod.mk.injEq, true_and, World.mk.injEq, and_true]
  funext a
  by_cases h : a = reg
  · subst h; simp
  · have : ¬ (reg ≤ a ∧ a < reg + 1) := by omega
    simp [this, Function.update_noteq h]

/-- The call `bmi090lg_set_meas_conf` on the register file with a valid
configuration: both registers are rewritten by read-modify-write. -/
theorem set_meas_conf_regfile (K : Defs) (intf : Nat) (cfg : bmi090l_cfg) (w : World (Nat → Nat))
    (hodr : cfg.odr ≤ K.BMI090L_GYRO_BW_32_ODR_100_HZ)
    (hrange : cfg.range ≤ K.BMI090L_GYRO_RANGE_125_DPS)
    (hrdm : K.BMI090L_SPI_RD_MASK = 0x80) (hwrm : K.BMI090L_SPI_WR_MASK = 0x7F)
    (hR : K.BMI090L_GYRO_RANGE_REG < 128) (hB : K.BMI090L_GYRO_BANDWIDTH_REG < 128)
    (hne : K.BMI090L_GYRO_RANGE_REG ≠ K.BMI090L_GYRO_BANDWIDTH_REG) :
    bmi090lg_set_meas_conf K (some (regfile_dev K intf cfg)) w =
      some (K.BMI090L_OK,
        { st := Function.update
            (Function.update w.st K.BMI090L_GYRO_BANDWIDTH_REG
              (u8 (BMI090L_SET_BITS_POS_0 (w.st K.BMI090L_GYRO_BANDWIDTH_REG % 256)
                K.BMI090L_GYRO_BW_MASK cfg.odr)))
            K.BMI090L_GYRO_RANGE_REG
            (u8 (BMI090L_SET_BITS_POS_0 (w.st K.BMI090L_GYRO_RANGE_REG % 256)
              K.BMI090L_GYRO_RANGE_MASK cfg.range)),
          log := w.log ++
            [BusEvent.read (rd_addr K (regfile_dev K intf cfg) K.BMI090L_GYRO_BANDWIDTH_REG) 1,
             BusEvent.write (wr_addr K (regfile_dev K intf cfg) K.BMI090L_GYRO_BANDWIDTH_REG)
               [u8 (BMI090L_SET_BITS_POS_0 (w.st K.BMI090L_GYRO_BANDWIDTH_REG % 256)
                 K.BMI090L_GYRO_BW_MASK cfg.odr)] 1,
             BusEvent.read (rd_addr K (regfile_dev K intf cfg) K.BMI090L_GYRO_RANGE_REG) 1,
             BusEvent.write (wr_addr K (regfile_dev K intf cfg) K.BMI090L_GYRO_RANGE_REG)
               [u8 (BMI090L_SET_BITS_POS_0 (w.st K.BMI090L_GYRO_RANGE_REG % 256)
                 K.BMI090L_GYRO_RANGE_MASK cfg.range)] 1] }) := by
  have hc : (regfile_dev K intf cfg).gyro_cfg = cfg := rfl
  simp only [bmi090lg_set_meas_conf, null_ptr_check_ok K (regfile_dev K intf cfg) _ _ _ rfl rfl rfl,
    hc, get_regs_regfile_one K intf cfg _ _ _ hR hrdm, get_regs_regfile_one K intf cfg _ _ _ hB hrdm,
    set_regs_regfile_one K intf cfg _ _ _ hR hwrm, set_regs_regfile_one K intf cfg _ _ _ hB hwrm]
  simp [Nat.not_lt.mpr hodr, Nat.not_lt.mpr hrange, Function.update_noteq hne]

/-- The call `bmi090lg_get_meas_conf` on the register file: the range field
receives the whole byte of the range register, ODR and bandwidth the masked
byte of the next register. -/
theorem get_meas_conf_regfile (K : Defs) (intf : Nat) (cfg : bmi090l_cfg) (w : World (Nat → Nat))
    (hrdm : K.BMI090L_SPI_RD_MASK = 0x80) (hR : K.BMI090L_GYRO_RANGE_REG < 128) :
    bmi090lg_get_meas_conf K (some (regfile_dev K intf cfg)) w =
      some (K.BMI090L_OK,
        some (regfile_dev K intf
          { cfg with
              range := w.st K.BMI090L_GYRO_RANGE_REG % 256,
              odr := u8 (w.st (K.BMI090L_GYRO_RANGE_REG + 1) % 256 &&& K.BMI090L_GYRO_BW_MASK),
              bw := u8 (w.st (K.BMI090L_GYRO_RANGE_REG + 1) % 256 &&& K.BMI090L_GYRO_BW_MASK) }),
        { st := w.st,
          log := w.log ++ [BusEvent.read (rd_addr K (regfile_dev K intf cfg) K.BMI090L_GYRO_RANGE_REG) 2] }) := by
  simp only [bmi090lg_get_meas_conf, null_ptr_check_ok K (regfile_dev K intf cfg) _ _ _ rfl rfl rfl,
    get_regs_regfile_two K intf cfg _ _ _ _ hR hrdm]
  simp [regfile_dev]

/-- Values read back by `bmi090lg_get_meas_conf` after `bmi090lg_set_meas_conf` on
the register file: the range field holds the whole range byte, prior bits
outside the range mask included; ODR and bandwidth hold the ODR that was set. -/
theorem set_then_get_meas_conf_regfile (K : Defs) (intf : Nat) (cfg : bmi090l_cfg)
    (w : World (Nat → Nat))
    (hodr : cfg.odr ≤ K.BMI090L_GYRO_BW_32_ODR_100_HZ)
    (hrange : cfg.range ≤ K.BMI090L_GYRO_RANGE_125_DPS)
    (hrdm : K.BMI090L_SPI_RD_MASK = 0x80) (hwrm : K.BMI090L_SPI_WR_MASK = 0x7F)
    (hreg : K.BMI090L_GYRO_RANGE_REG + 1 < 128)
    (hbw : K.BMI090L_GYRO_BANDWIDTH_REG = K.BMI090L_GYRO_RANGE_REG + 1)
    (hofit : cfg.odr &&& K.BMI090L_GYRO_BW_MASK = cfg.odr) (ho8 : cfg.odr < 256) :
    (set_then_get_meas_conf K (some (regfile_dev K intf cfg)) w).map
        (fun r => (r.1, r.2.1, cfg_of r.2.2.1)) =
      some (K.BMI090L_OK, K.BMI090L_OK,
        { cfg with
            range := u8 (BMI090L_SET_BITS_POS_0 (w.st K.BMI090L_GYRO_RANGE_REG % 256)
              K.BMI090L_GYRO_RANGE_MASK cfg.range),
            odr := cfg.odr, bw := cfg.odr }) := by
  have hR : K.BMI090L_GYRO_RANGE_REG < 128 := by omega
  have hB : K.BMI090L_GYRO_BANDWIDTH_REG < 128 := by omega
  have hne : K.BMI090L_GYRO_RANGE_REG ≠ K.BMI090L_GYRO_BANDWIDTH_REG := by omega
  have hne2 : K.BMI090L_GYRO_RANGE_REG + 1 ≠ K.BMI090L_GYRO_RANGE_REG := by omega
  simp only [set_then_get_meas_conf,
    set_meas_conf_regfile K intf cfg w hodr hrange hrdm hwrm hR hB hne,
    get_meas_conf_regfile K intf cfg _ hrdm hR, Option.map_some', cfg_of]
  simp only [regfile_dev]
  rw [hbw]
  simp only [Function.update_same, Function.update_noteq hne2]
  have e1 : ∀ n, u8 n % 256 = u8 n := fun n => by simp [u8]
  rw [e1, e1, field_readback _ _ _ hofit ho8]

/-- C2 as stated fails: on the register file, with the register map `regmap`, a
range register that holds 0x08 before the calls makes `bmi090lg_get_meas_conf`
read back range 0x0A after `bmi090lg_set_meas_conf` has set range 0x02 (ODR 0x03
is read back as set). -/
theorem range_readback_keeps_prior_bits :
    (set_then_get_meas_conf regmap
        (some (regfile_dev regmap 0 { power := 0, range := 0x02, bw := 0, odr := 0x03 }))
        { st := fun a => if a = 0x0F then 0x08 else 0, log := [] }).map
        (fun r => (r.1, r.2.1, cfg_of r.2.2.1)) =
      some (0, 0, { power := 0, range := 0x0A, bw := 0x03, odr := 0x03 }) := by
  decide

/-- C2, amended: on the register file, for every valid configuration (odr and
range within the enumerated bounds), every prior content of the bandwidth
register and every prior content of the range register that has no bit set
outside the range field mask, `bmi090lg_set_meas_conf` followed by
`bmi090lg_get_meas_conf` returns OK twice and leaves range equal to the range
set, and odr and bw equal to the ODR set.  The header facts used: the SPI
direction bit is bit 7, the bandwidth register follows the range register, the
enumerated codes fit their field masks. -/
theorem meas_conf_roundtrip (K : Defs) (intf : Nat) (cfg : bmi090l_cfg) (w : World (Nat → Nat))
    (hodr : cfg.odr ≤ K.BMI090L_GYRO_BW_32_ODR_100_HZ)
    (hrange : cfg.range ≤ K.BMI090L_GYRO_RANGE_125_DPS)
    (hclean : andNot (w.st K.BMI090L_GYRO_RANGE_REG % 256) K.BMI090L_GYRO_RANGE_MASK = 0)
    (hrdm : K.BMI090L_SPI_RD_MASK = 0x80) (hwrm : K.BMI090L_SPI_WR_MASK = 0x7F)
    (hreg : K.BMI090L_GYRO_RANGE_REG + 1 < 128)
    (hbw : K.BMI090L_GYRO_BANDWIDTH_REG = K.BMI090L_GYRO_RANGE_REG + 1)
    (hofit : ∀ o, o ≤ K.BMI090L_GYRO_BW_32_ODR_100_HZ → o &&& K.BMI090L_GYRO_BW_MASK = o)
    (hrfit : ∀ r, r ≤ K.BMI090L_GYRO_RANGE_125_DPS → r &&& K.BMI090L_GYRO_RANGE_MASK = r)
    (ho8 : K.BMI090L_GYRO_BW_32_ODR_100_HZ < 256) (hr8 : K.BMI090L_GYRO_RANGE_125_DPS < 256) :
    (set_then_get_meas_conf K (some (regfile_dev K intf cfg)) w).map
        (fun r => (r.1, r.2.1, cfg_of r.2.2.1)) =
      some (K.BMI090L_OK, K.BMI090L_OK,
        { power := cfg.power, range := cfg.range, bw := cfg.odr, odr := cfg.odr }) := by
  rw [set_then_get_meas_conf_regfile K intf cfg w hodr hrange hrdm hwrm hreg hbw
    (hofit _ hodr) (by omega),
    field_whole_byte _ _ _ hclean (hrfit _ hrange) (by omega)]

/-- C2 amended, exercised on the SPI interface with a bandwidth register that
holds 0x80 and a range register that holds 0x01 before the calls. -/
theorem meas_conf_roundtrip_witness :
    (set_then_get_meas_conf regmap
        (some (regfile_dev regmap 1 { power := 0, range := 0x02, bw := 0, odr := 0x03 }))
        { st := fun a => if a = 0x10 then 0x80 else if a = 0x0F then 0x01 else 0, log := [] }).map
        (fun r => (r.1, r.2.1, cfg_of r.2.2.1)) =
      some (0, 0, { power := 0, range := 0x02, bw := 0x03, odr := 0x03 }) :=
  meas_conf_roundtrip regmap 1 { power := 0, range := 0x02, bw := 0, odr := 0x03 }
    { st := fun a => if a = 0x10 then 0x80 else if a = 0x0F then 0x01 else 0, log := [] }
    (by decide) (by decide) (by decide) rfl rfl (by decide) rfl (by decide) (by decide)
    (by decide) (by decide)

/-- C3: with a valid context whose odr exceeds BMI090L_GYRO_BW_32_ODR_100_HZ or
whose range exceeds BMI090L_GYRO_RANGE_125_DPS, `bmi090lg_set_meas_conf` returns
BMI090L_E_INVALID_CONFIG and the world is the one it started from: the log has
no new entry, so no callback (read, write or delay) was invoked. -/
theorem set_meas_conf_invalid_no_bus (K : Defs) (d : bmi090l_dev σ) (w : World σ)
    (rd : bmi090l_read_fptr_t σ) (wr : bmi090l_write_fptr_t σ) (dl : bmi090l_delay_us_fptr_t σ)
    (hrd : d.read = some rd) (hwr : d.write = some wr) (hdl : d.delay_us = some dl)
    (hbad : d.gyro_cfg.odr > K.BMI090L_GYRO_BW_32_ODR_100_HZ ∨
      d.gyro_cfg.range > K.BMI090L_GYRO_RANGE_125_DPS) :
    bmi090lg_set_meas_conf K (some d) w = some (K.BMI090L_E_INVALID_CONFIG, w) := by
  simp only [bmi090lg_set_meas_conf, null_ptr_check_ok K d rd wr dl hrd hwr hdl]
  rcases hbad with h | h <;> simp [h]

/-- C3 exercised: ODR code 8 on the register file. -/
theorem set_meas_conf_invalid_no_bus_witness :
    bmi090lg_set_meas_conf regmap
        (some (regfile_dev regmap 0 { power := 0, range := 0x02, bw := 0, odr := 0x08 }))
        { st := fun _ => 0, log := [] } =
      some (-8, { st := fun _ => 0, log := [] }) :=
  set_meas_conf_invalid_no_bus regmap
    (regfile_dev regmap 0 { power := 0, range := 0x02, bw := 0, odr := 0x08 })
    { st := fun _ => 0, log := [] } _ _ _ rfl rfl rfl (Or.inl (by decide))

/-- The legality flag computed by `bmi090lg_set_power_mode`, as a proposition. -/
theorem switch_valid_iff (p cur S D : Nat) :
    (!(decide (p = S) && decide (cur = D) || decide (p = D) && decide (cur = S))) = true ↔
      ¬ ((p = S ∧ cur = D) ∨ (p = D ∧ cur = S)) := by
  simp only [Bool.not_eq_true', Bool.or_eq_false_iff, Bool.and_eq_false_imp,
    decide_eq_true_eq, decide_eq_false_iff_not, not_or, not_and]

/-- The call `bmi090lg_set_power_mode` after its read of the power-mode register
succeeded and delivered `cur`: the legality test on (requested, current) decides
between the error and the write. -/
theorem set_power_mode_after_read (K : Defs) (d : bmi090l_dev σ) (w : World σ)
    (rd : bmi090l_read_fptr_t σ) (wr : bmi090l_write_fptr_t σ) (dl : bmi090l_delay_us_fptr_t σ)
    (cur : Nat) (st1 : σ)
    (hrd : d.read = some rd) (hwr : d.write = some wr) (hdl : d.delay_us = some dl)
    (hcur : cur < 256)
    (hread : rd (rd_addr K d K.BMI090L_GYRO_LPM1_REG) 1 w.st = (K.BMI090L_OK, [cur], st1))
    (hcfok : K.BMI090L_E_COM_FAIL ≠ K.BMI090L_OK) :
    bmi090lg_set_power_mode K (some d) w =
      if (d.gyro_cfg.power = K.BMI090L_GYRO_PM_SUSPEND ∧ cur = K.BMI090L_GYRO_PM_DEEP_SUSPEND) ∨
          (d.gyro_cfg.power = K.BMI090L_GYRO_PM_DEEP_SUSPEND ∧ cur = K.BMI090L_GYRO_PM_SUSPEND) then
        some (K.BMI090L_E_INVALID_INPUT,
          { st := st1, log := w.log ++ [BusEvent.read (rd_addr K d K.BMI090L_GYRO_LPM1_REG) 1] })
      else
        match wr (wr_addr K d K.BMI090L_GYRO_LPM1_REG) [d.gyro_cfg.power] 1 st1 with
        | (s2, st2) =>
          if s2 = K.BMI090L_OK then
            some (K.BMI090L_OK,
              { st := dl (u32 (K.BMI090L_GYRO_POWER_MODE_CONFIG_DELAY * 1000)) st2,
                log := w.log ++
                  [BusEvent.read (rd_addr K d K.BMI090L_GYRO_LPM1_REG) 1,
                   BusEvent.write (wr_addr K d K.BMI090L_GYRO_LPM1_REG) [d.gyro_cfg.power] 1,
                   BusEvent.delay (u32 (K.BMI090L_GYRO_POWER_MODE_CONFIG_DELAY * 1000))] })
          else
            some (K.BMI090L_E_COM_FAIL,
              { st := st2,
                log := w.log ++
                  [BusEvent.read (rd_addr K d K.BMI090L_GYRO_LPM1_REG) 1,
                   BusEvent.write (wr_addr K d K.BMI090L_GYRO_LPM1_REG) [d.gyro_cfg.power] 1] }) := by
  have hg := get_regs_of_read K d w rd K.BMI090L_GYRO_LPM1_REG 1 [0] [cur] _ st1 hrd hread
  have hs := fun (w0 : World σ) =>
    set_regs_of_write K d w0 wr K.BMI090L_GYRO_LPM1_REG 1 [d.gyro_cfg.power] _ _ hwr rfl
  have hb : (buf_fill [0] [cur]).getD 0 0 = cur := by simp [buf_fill, Nat.mod_eq_of_lt hcur]
  simp only [bmi090lg_set_power_mode, null_ptr_check_ok K d rd wr dl hrd hwr hdl, hg, hs,
    call_delay_us, hdl, hb]
  simp only [switch_valid_iff]
  rcases hW : wr (wr_addr K d K.BMI090L_GYRO_LPM1_REG) [d.gyro_cfg.power] 1 st1 with ⟨s2, st2⟩
  simp only []
  by_cases hill :
      (d.gyro_cfg.power = K.BMI090L_GYRO_PM_SUSPEND ∧ cur = K.BMI090L_GYRO_PM_DEEP_SUSPEND) ∨
      (d.gyro_cfg.power = K.BMI090L_GYRO_PM_DEEP_SUSPEND ∧ cur = K.BMI090L_GYRO_PM_SUSPEND)
  · simp [hill]
  · by_cases h5 : s2 = K.BMI090L_OK
    · simp [hill, h5]
    · simp [hill, h5, hcfok]

/-- C4: with a valid context, after a successful read of the power-mode register
that delivers the byte `cur`, `bmi090lg_set_power_mode` returns
BMI090L_E_INVALID_INPUT if and only if (requested, current) is (Suspend,
DeepSuspend) or (DeepSuspend, Suspend); in that case the read is the only
callback invocation (no write, no delay); for every other pair the write
callback is invoked next, with the requested mode on the power-mode register.
Header facts used: BMI090L_OK, BMI090L_E_COM_FAIL and BMI090L_E_INVALID_INPUT
are pairwise different. -/
theorem set_power_mode_invalid_iff (K : Defs) (d : bmi090l_dev σ) (w : World σ)
    (rd : bmi090l_read_fptr_t σ) (wr : bmi090l_write_fptr_t σ) (dl : bmi090l_delay_us_fptr_t σ)
    (cur : Nat) (st1 : σ)
    (hrd : d.read = some rd) (hwr : d.write = some wr) (hdl : d.delay_us = some dl)
    (hcur : cur < 256)
    (hread : rd (rd_addr K d K.BMI090L_GYRO_LPM1_REG) 1 w.st = (K.BMI090L_OK, [cur], st1))
    (hcfok : K.BMI090L_E_COM_FAIL ≠ K.BMI090L_OK)
    (hok : K.BMI090L_OK ≠ K.BMI090L_E_INVALID_INPUT)
    (hcf : K.BMI090L_E_COM_FAIL ≠ K.BMI090L_E_INVALID_INPUT) :
    ∃ r w1, bmi090lg_set_power_mode K (some d) w = some (r, w1) ∧
      (r = K.BMI090L_E_INVALID_INPUT ↔
        (d.gyro_cfg.power = K.BMI090L_GYRO_PM_SUSPEND ∧ cur = K.BMI090L_GYRO_PM_DEEP_SUSPEND) ∨
        (d.gyro_cfg.power = K.BMI090L_GYRO_PM_DEEP_SUSPEND ∧ cur = K.BMI090L_GYRO_PM_SUSPEND)) ∧
      (r = K.BMI090L_E_INVALID_INPUT →
        w1 = { st := st1, log := w.log ++ [BusEvent.read (rd_addr K d K.BMI090L_GYRO_LPM1_REG) 1] }) ∧
      (r ≠ K.BMI090L_E_INVALID_INPUT →
        ∃ rest, w1.log = w.log ++
          [BusEvent.read (rd_addr K d K.BMI090L_GYRO_LPM1_REG) 1,
           BusEvent.write (wr_addr K d K.BMI090L_GYRO_LPM1_REG) [d.gyro_cfg.power] 1] ++ rest) := by
  rw [set_power_mode_after_read K d w rd wr dl cur st1 hrd hwr hdl hcur hread hcfok]
  by_cases hill :
      (d.gyro_cfg.power = K.BMI090L_GYRO_PM_SUSPEND ∧ cur = K.BMI090L_GYRO_PM_DEEP_SUSPEND) ∨
      (d.gyro_cfg.power = K.BMI090L_GYRO_PM_DEEP_SUSPEND ∧ cur = K.BMI090L_GYRO_PM_SUSPEND)
  · rw [if_pos hill]
    exact ⟨_, _, rfl, by simp [hill], fun _ => rfl, fun h => absurd rfl h⟩
  · rw [if_neg hill]
    rcases hW : wr (wr_addr K d K.BMI090L_GYRO_LPM1_REG) [d.gyro_cfg.power] 1 st1 with ⟨s2, st2⟩
    by_cases h5 : s2 = K.BMI090L_OK
    · simp only [h5, if_true]
      exact ⟨_, _, rfl, by simp [hill, hok], fun h => absurd h hok,
        fun _ => ⟨[BusEvent.delay (u32 (K.BMI090L_GYRO_POWER_MODE_CONFIG_DELAY * 1000))], by simp⟩⟩
    · simp only [h5, if_false]
      exact ⟨_, _, rfl, by simp [hill, hcf], fun h => absurd h hcf, fun _ => ⟨[], by simp⟩⟩

/-- C4 exercised on the register file: requested Suspend (0x80) while the
power-mode register holds DeepSuspend (0x20). -/
theorem set_power_mode_invalid_iff_witness :
    ∃ r w1, bmi090lg_set_power_mode regmap
        (some (regfile_dev regmap 0 { power := 0x80, range := 0, bw := 0, odr := 0 }))
        { st := fun a => if a = 0x11 then 0x20 else 0, log := [] } = some (r, w1) ∧
      (r = -5 ↔ ((0x80 : Nat) = 0x80 ∧ (0x20 : Nat) = 0x20) ∨ ((0x80 : Nat) = 0x20 ∧ (0x20 : Nat) = 0x80)) ∧
      (r = -5 → w1 = { st := fun a => if a = 0x11 then 0x20 else 0, log := [] ++ [BusEvent.read 0x11 1] }) ∧
      (r ≠ -5 → ∃ rest, w1.log = [] ++ [BusEvent.read 0x11 1, BusEvent.write 0x11 [0x80] 1] ++ rest) :=
  set_power_mode_invalid_iff regmap
    (regfile_dev regmap 0 { power := 0x80, range := 0, bw := 0, odr := 0 })
    { st := fun a => if a = 0x11 then 0x20 else 0, log := [] } _ _ _ 0x20 _
    rfl rfl rfl (by decide) rfl (by decide) (by decide) (by decide)

/-- C5: for the transitions Normal->Suspend, Normal->DeepSuspend, Suspend->Normal and
DeepSuspend->Normal (current = byte delivered by the read of the power-mode
register, target = gyro_cfg.power), with a valid context and successful
transactions, `bmi090lg_set_power_mode` returns OK and, after its read, invokes
the write callback exactly once (one byte, the requested mode, on the power-mode
register) and then the delay callback exactly once with
BMI090L_GYRO_POWER_MODE_CONFIG_DELAY * 1000.  Header facts used: Normal differs
from Suspend and from DeepSuspend, the delay constant is a byte,
BMI090L_E_COM_FAIL differs from BMI090L_OK. -/
theorem set_power_mode_legal_transition (K : Defs) (d : bmi090l_dev σ) (w : World σ)
    (rd : bmi090l_read_fptr_t σ) (wr : bmi090l_write_fptr_t σ) (dl : bmi090l_delay_us_fptr_t σ)
    (cur : Nat) (st1 st2 : σ)
    (hrd : d.read = some rd) (hwr : d.write = some wr) (hdl : d.delay_us = some dl)
    (hcur : cur < 256)
    (hread : rd (rd_addr K d K.BMI090L_GYRO_LPM1_REG) 1 w.st = (K.BMI090L_OK, [cur], st1))
    (hwrite : wr (wr_addr K d K.BMI090L_GYRO_LPM1_REG) [d.gyro_cfg.power] 1 st1 = (K.BMI090L_OK, st2))
    (htrans :
      (cur = K.BMI090L_GYRO_PM_NORMAL ∧ d.gyro_cfg.power = K.BMI090L_GYRO_PM_SUSPEND) ∨
      (cur = K.BMI090L_GYRO_PM_NORMAL ∧ d.gyro_cfg.power = K.BMI090L_GYRO_PM_DEEP_SUSPEND) ∨
      (cur = K.BMI090L_GYRO_PM_SUSPEND ∧ d.gyro_cfg.power = K.BMI090L_GYRO_PM_NORMAL) ∨
      (cur = K.BMI090L_GYRO_PM_DEEP_SUSPEND ∧ d.gyro_cfg.power = K.BMI090L_GYRO_PM_NORMAL))
    (hns : K.BMI090L_GYRO_PM_NORMAL ≠ K.BMI090L_GYRO_PM_SUSPEND)
    (hnd : K.BMI090L_GYRO_PM_NORMAL ≠ K.BMI090L_GYRO_PM_DEEP_SUSPEND)
    (hdelay : K.BMI090L_GYRO_POWER_MODE_CONFIG_DELAY < 256)
    (hcfok : K.BMI090L_E_COM_FAIL ≠ K.BMI090L_OK) :
    bmi090lg_set_power_mode K (some d) w =
      some (K.BMI090L_OK,
        { st := dl (K.BMI090L_GYRO_POWER_MODE_CONFIG_DELAY * 1000) st2,
          log := w.log ++
            [BusEvent.read (rd_addr K d K.BMI090L_GYRO_LPM1_REG) 1,
             BusEvent.write (wr_addr K d K.BMI090L_GYRO_LPM1_REG) [d.gyro_cfg.power] 1,
             BusEvent.delay (K.BMI090L_GYRO_POWER_MODE_CONFIG_DELAY * 1000)] }) := by
  have hu : u32 (K.BMI090L_GYRO_POWER_MODE_CONFIG_DELAY * 1000) =
      K.BMI090L_GYRO_POWER_MODE_CONFIG_DELAY * 1000 := by
    unfold u32; omega
  have hleg : ¬ ((d.gyro_cfg.power = K.BMI090L_GYRO_PM_SUSPEND ∧ cur = K.BMI090L_GYRO_PM_DEEP_SUSPEND) ∨
      (d.gyro_cfg.power = K.BMI090L_GYRO_PM_DEEP_SUSPEND ∧ cur = K.BMI090L_GYRO_PM_SUSPEND)) := by
    rintro (⟨h1, h2⟩ | ⟨h1, h2⟩) <;> rcases htrans with ⟨h3, h4⟩ | ⟨h3, h4⟩ | ⟨h3, h4⟩ | ⟨h3, h4⟩ <;>
      first
        | exact hns (h4.symm.trans h1)
        | exact hnd (h4.symm.trans h1)
        | exact hns (h3.symm.trans h2)
        | exact hnd (h3.symm.trans h2)
  rw [set_power_mode_after_read K d w rd wr dl cur st1 hrd hwr hdl hcur hread hcfok, if_neg hleg,
    hwrite]
  simp [hu]

/-- C5 exercised on the register file over SPI: Normal (0x00) to Suspend (0x80). -/
theorem set_power_mode_legal_transition_witness :
    bmi090lg_set_power_mode regmap
        (some (regfile_dev regmap 1 { power := 0x80, range := 0, bw := 0, odr := 0 }))
        { st := fun _ => 0, log := [] } =
      some (0,
        { st := regfile_delay 30000 (regfile_write regmap 0x11 [0x80] 1 (fun _ => 0)).2,
          log := [] ++ [BusEvent.read 0x91 1, BusEvent.write 0x11 [0x80] 1, BusEvent.delay 30000] }) :=
  set_power_mode_legal_transition regmap
    (regfile_dev regmap 1 { power := 0x80, range := 0, bw := 0, odr := 0 })
    { st := fun _ => 0, log := [] } _ _ _ 0 _ _
    rfl rfl rfl (by decide) rfl rfl (Or.inl ⟨rfl, rfl⟩) (by decide) (by decide) (by decide) (by decide)

/-- C6 as stated fails: on the register file with the register map `regmap`,
requesting Suspend (0x80) while the power-mode register holds DeepSuspend (0x20)
returns BMI090L_E_INVALID_INPUT (-5) after the read callback has been invoked
once, on the power-mode register. -/
theorem set_power_mode_rejection_reads_bus :
    (bmi090lg_set_power_mode regmap
        (some (regfile_dev regmap 0 { power := 0x80, range := 0, bw := 0, odr := 0 }))
        { st := fun a => if a = 0x11 then 0x20 else 0, log := [] }).map
        (fun r => (r.1, r.2.log, count_reads r.2.log)) =
      some (-5, [BusEvent.read 0x11 1], 1) := by
  decide

/-- C6, amended: with a valid context, when the byte delivered by the successful
read of the power-mode register and the requested mode form a Suspend/DeepSuspend
pair (either direction), `bmi090lg_set_power_mode` returns
BMI090L_E_INVALID_INPUT; that read is the only callback invocation of the call:
the write callback and the delay callback are not invoked. -/
theorem set_power_mode_rejection_one_read (K : Defs) (d : bmi090l_dev σ) (w : World σ)
    (rd : bmi090l_read_fptr_t σ) (wr : bmi090l_write_fptr_t σ) (dl : bmi090l_delay_us_fptr_t σ)
    (cur : Nat) (st1 : σ)
    (hrd : d.read = some rd) (hwr : d.write = some wr) (hdl : d.delay_us = some dl)
    (hcur : cur < 256)
    (hread : rd (rd_addr K d K.BMI090L_GYRO_LPM1_REG) 1 w.st = (K.BMI090L_OK, [cur], st1))
    (hpair :
      (d.gyro_cfg.power = K.BMI090L_GYRO_PM_SUSPEND ∧ cur = K.BMI090L_GYRO_PM_DEEP_SUSPEND) ∨
      (d.gyro_cfg.power = K.BMI090L_GYRO_PM_DEEP_SUSPEND ∧ cur = K.BMI090L_GYRO_PM_SUSPEND))
    (hcfok : K.BMI090L_E_COM_FAIL ≠ K.BMI090L_OK) :
    ∃ w1, bmi090lg_set_power_mode K (some d) w = some (K.BMI090L_E_INVALID_INPUT, w1) ∧
      w1.log = w.log ++ [BusEvent.read (rd_addr K d K.BMI090L_GYRO_LPM1_REG) 1] ∧
      count_reads w1.log = count_reads w.log + 1 ∧
      count_writes w1.log = count_writes w.log ∧
      count_delays w1.log = count_delays w.log := by
  rw [set_power_mode_after_read K d w rd wr dl cur st1 hrd hwr hdl hcur hread hcfok, if_pos hpair]
  exact ⟨_, rfl, rfl, by simp [count_reads], by simp [count_writes], by simp [count_delays]⟩

/-- C6 amended, exercised on the register file over SPI: requested DeepSuspend
(0x20) while the power-mode register holds Suspend (0x80). -/
theorem set_power_mode_rejection_one_read_witness :
    ∃ w1, bmi090lg_set_power_mode regmap
        (some (regfile_dev regmap 1 { power := 0x20, range := 0, bw := 0, odr := 0 }))
        { st := fun a => if a = 0x11 then 0x80 else 0, log := [] } = some (-5, w1) ∧
      w1.log = [] ++ [BusEvent.read 0x91 1] ∧
      count_reads w1.log = count_reads [] + 1 ∧
      count_writes w1.log = count_writes [] ∧
      count_delays w1.log = count_delays [] :=
  set_power_mode_rejection_one_read regmap
    (regfile_dev regmap 1 { power := 0x20, range := 0, bw := 0, odr := 0 })
    { st := fun a => if a = 0x11 then 0x80 else 0, log := [] } _ _ _ 0x80 _
    rfl rfl rfl (by decide) rfl (Or.inr ⟨rfl, rfl⟩) (by decide)

/-- The call `bmi090lg_set_int_config` for a data-ready configuration on channel
3 or 4 on the register file: the pin-map register, the pin-configuration
register and the interrupt-control register are written, in this order. -/
theorem set_int_config_regfile (K : Defs) (intf : Nat) (cfg : bmi090l_cfg) (w : World (Nat → Nat))
    (ic : bmi090l_gyro_int_channel_cfg)
    (htype : ic.int_type = K.BMI090L_GYRO_DATA_RDY_INT)
    (hch : ic.int_channel = K.BMI090L_INT_CHANNEL_3 ∨ ic.int_channel = K.BMI090L_INT_CHANNEL_4)
    (hrdm : K.BMI090L_SPI_RD_MASK = 0x80) (hwrm : K.BMI090L_SPI_WR_MASK = 0x7F)
    (hM : K.BMI090L_GYRO_INT3_INT4_IO_MAP_REG < 128)
    (hC : K.BMI090L_GYRO_INT3_INT4_IO_CONF_REG < 128)
    (hI : K.BMI090L_GYRO_INT_CTRL_REG < 128)
    (hMC : K.BMI090L_GYRO_INT3_INT4_IO_CONF_REG ≠ K.BMI090L_GYRO_INT3_INT4_IO_MAP_REG) :
    bmi090lg_set_int_config K (some ic) (some (regfile_dev K intf cfg)) w =
      some (K.BMI090L_OK,
        { st := Function.update
            (Function.update
              (Function.update w.st K.BMI090L_GYRO_INT3_INT4_IO_MAP_REG
                (drdy_map_byte K ic (w.st K.BMI090L_GYRO_INT3_INT4_IO_MAP_REG % 256)))
              K.BMI090L_GYRO_INT3_INT4_IO_CONF_REG
              (pin_conf_byte K ic (w.st K.BMI090L_GYRO_INT3_INT4_IO_CONF_REG % 256)))
            K.BMI090L_GYRO_INT_CTRL_REG
            (drdy_ctrl_byte K (drdy_map_byte K ic (w.st K.BMI090L_GYRO_INT3_INT4_IO_MAP_REG % 256))),
          log := w.log ++
            [BusEvent.read (rd_addr K (regfile_dev K intf cfg) K.BMI090L_GYRO_INT3_INT4_IO_MAP_REG) 1,
             BusEvent.write (wr_addr K (regfile_dev K intf cfg) K.BMI090L_GYRO_INT3_INT4_IO_MAP_REG)
               [drdy_map_byte K ic (w.st K.BMI090L_GYRO_INT3_INT4_IO_MAP_REG % 256)] 1,
             BusEvent.read (rd_addr K (regfile_dev K intf cfg) K.BMI090L_GYRO_INT3_INT4_IO_CONF_REG) 1,
             BusEvent.write (wr_addr K (regfile_dev K intf cfg) K.BMI090L_GYRO_INT3_INT4_IO_CONF_REG)
               [pin_conf_byte K ic (w.st K.BMI090L_GYRO_INT3_INT4_IO_CONF_REG % 256)] 1,
             BusEvent.write (wr_addr K (regfile_dev K intf cfg) K.BMI090L_GYRO_INT_CTRL_REG)
               [drdy_ctrl_byte K (drdy_map_byte K ic (w.st K.BMI090L_GYRO_INT3_INT4_IO_MAP_REG % 256))]
               1] }) := by
  simp only [bmi090lg_set_int_config, set_gyro_data_ready_int, set_int_pin_config,
    null_ptr_check_ok K (regfile_dev K intf cfg) _ _ _ rfl rfl rfl,
    get_regs_regfile_one K intf cfg _ _ _ hM hrdm, get_regs_regfile_one K intf cfg _ _ _ hC hrdm,
    set_regs_regfile_one K intf cfg _ _ _ hM hwrm, set_regs_regfile_one K intf cfg _ _ _ hC hwrm,
    set_regs_regfile_one K intf cfg _ _ _ hI hwrm, drdy_map_byte, pin_conf_byte, drdy_ctrl_byte]
  rcases hch with h | h
  · simp [h, htype, Function.update_noteq hMC]
  · by_cases h3 : K.BMI090L_INT_CHANNEL_4 = K.BMI090L_INT_CHANNEL_3
    · simp [h, h3, htype, Function.update_noteq hMC]
    · simp [h, h3, htype, Function.update_noteq hMC]

/-- A field setter at shift 0 leaves the bits of a disjoint mask as they were. -/
theorem frame_SET_BITS_POS_0 (r m v k : Nat) (hr : r < 256) (hd : m &&& k = 0) :
    u8 (BMI090L_SET_BITS_POS_0 r m v) &&& k = r &&& k := by
  apply Nat.eq_of_testBit_eq
  intro i
  have h1 : (m &&& k).testBit i = false := by rw [hd]; simp
  rw [Nat.testBit_and] at h1
  simp only [u8, Nat.testBit_and, Nat.testBit_mod_two_pow _ 8, testBit_SET_BITS_POS_0,
    show (256 : Nat) = 2 ^ 8 from rfl]
  by_cases hi : i < 8
  · cases hm : m.testBit i <;> cases hk : k.testBit i <;> simp_all
  · have := testBit_byte_high r i hr (by omega)
    simp [hi, this]

/-- A field setter at shift `p` leaves the bits of a disjoint mask as they were. -/
theorem frame_SET_BITS (r m p v k : Nat) (hr : r < 256) (hd : m &&& k = 0) :
    u8 (BMI090L_SET_BITS r m p v) &&& k = r &&& k := by
  apply Nat.eq_of_testBit_eq
  intro i
  have h1 : (m &&& k).testBit i = false := by rw [hd]; simp
  rw [Nat.testBit_and] at h1
  simp only [u8, Nat.testBit_and, Nat.testBit_mod_two_pow _ 8, testBit_SET_BITS,
    show (256 : Nat) = 2 ^ 8 from rfl]
  by_cases hi : i < 8
  · cases hm : m.testBit i <;> cases hk : k.testBit i <;> simp_all
  · have := testBit_byte_high r i hr (by omega)
    simp [hi, this]

/-- The result of a conversion to `uint8_t` is a byte. -/
theorem u8_lt (n : Nat) : u8 n < 256 := Nat.mod_lt _ (by decide)

/-- A bitwise or is zero exactly when both operands are. -/
theorem lor_eq_zero_iff (a b : Nat) : a ||| b = 0 ↔ a = 0 ∧ b = 0 := by
  constructor
  · intro h
    have hb : ∀ i, (a.testBit i || b.testBit i) = false := fun i => by
      rw [← Nat.testBit_or, h]; simp
    constructor <;> apply Nat.eq_of_testBit_eq <;> intro i <;> have := hb i <;>
      simp only [Bool.or_eq_false_iff] at this <;> simp [this]
  · rintro ⟨rfl, rfl⟩
    rfl

/-- C7: on the register file, for every prior content of the pin-map and of the
pin-configuration register and every value of enable_int_pin, lvl and
output_mode, a data-ready `bmi090lg_set_int_config` on channel 3 writes a pin-map
byte and a pin-configuration byte whose channel-4 bits (INT4 map mask, INT4
level mask, INT4 open-drain mask) are the prior ones, and a configuration on
channel 4 writes bytes whose channel-3 bits are the prior ones.  Header facts
used: the masks of channel 3 are disjoint from those of channel 4, the two
channel codes differ, the SPI direction bit is bit 7, the two registers are
different 7-bit addresses. -/
theorem int_config_other_channel_preserved (K : Defs) (intf : Nat) (cfg : bmi090l_cfg)
    (w : World (Nat → Nat)) (pin : bmi090l_int_pin_cfg)
    (hrdm : K.BMI090L_SPI_RD_MASK = 0x80) (hwrm : K.BMI090L_SPI_WR_MASK = 0x7F)
    (hM : K.BMI090L_GYRO_INT3_INT4_IO_MAP_REG < 128)
    (hC : K.BMI090L_GYRO_INT3_INT4_IO_CONF_REG < 128)
    (hI : K.BMI090L_GYRO_INT_CTRL_REG < 128)
    (hMC : K.BMI090L_GYRO_INT3_INT4_IO_CONF_REG ≠ K.BMI090L_GYRO_INT3_INT4_IO_MAP_REG)
    (h34 : K.BMI090L_INT_CHANNEL_4 ≠ K.BMI090L_INT_CHANNEL_3)
    (hdd : K.BMI090L_GYRO_INT3_DATA_MASK &&& K.BMI090L_GYRO_INT4_DATA_MASK = 0)
    (hll : K.BMI090L_GYRO_INT3_LVL_MASK &&& K.BMI090L_GYRO_INT4_LVL_MASK = 0)
    (hlo : K.BMI090L_GYRO_INT3_LVL_MASK &&& K.BMI090L_GYRO_INT4_OD_MASK = 0)
    (hol : K.BMI090L_GYRO_INT3_OD_MASK &&& K.BMI090L_GYRO_INT4_LVL_MASK = 0)
    (hoo : K.BMI090L_GYRO_INT3_OD_MASK &&& K.BMI090L_GYRO_INT4_OD_MASK = 0) :
    (∃ m c e st1,
      bmi090lg_set_int_config K
          (some { int_channel := K.BMI090L_INT_CHANNEL_3, int_type := K.BMI090L_GYRO_DATA_RDY_INT,
                  int_pin_cfg := pin })
          (some (regfile_dev K intf cfg)) w =
        some (K.BMI090L_OK,
          { st := st1,
            log := w.log ++
              [BusEvent.read (rd_addr K (regfile_dev K intf cfg) K.BMI090L_GYRO_INT3_INT4_IO_MAP_REG) 1,
               BusEvent.write (wr_addr K (regfile_dev K intf cfg) K.BMI090L_GYRO_INT3_INT4_IO_MAP_REG) [m] 1,
               BusEvent.read (rd_addr K (regfile_dev K intf cfg) K.BMI090L_GYRO_INT3_INT4_IO_CONF_REG) 1,
               BusEvent.write (wr_addr K (regfile_dev K intf cfg) K.BMI090L_GYRO_INT3_INT4_IO_CONF_REG) [c] 1,
               BusEvent.write (wr_addr K (regfile_dev K intf cfg) K.BMI090L_GYRO_INT_CTRL_REG) [e] 1] }) ∧
      m &&& K.BMI090L_GYRO_INT4_DATA_MASK =
        (w.st K.BMI090L_GYRO_INT3_INT4_IO_MAP_REG % 256) &&& K.BMI090L_GYRO_INT4_DATA_MASK ∧
      c &&& K.BMI090L_GYRO_INT4_LVL_MASK =
        (w.st K.BMI090L_GYRO_INT3_INT4_IO_CONF_REG % 256) &&& K.BMI090L_GYRO_INT4_LVL_MASK ∧
      c &&& K.BMI090L_GYRO_INT4_OD_MASK =
        (w.st K.BMI090L_GYRO_INT3_INT4_IO_CONF_REG % 256) &&& K.BMI090L_GYRO_INT4_OD_MASK) ∧
    (∃ m c e st1,
      bmi090lg_set_int_config K
          (some { int_channel := K.BMI090L_INT_CHANNEL_4, int_type := K.BMI090L_GYRO_DATA_RDY_INT,
                  int_pin_cfg := pin })
          (some (regfile_dev K intf cfg)) w =
        some (K.BMI090L_OK,
          { st := st1,
            log := w.log ++
              [BusEvent.read (rd_addr K (regfile_dev K intf cfg) K.BMI090L_GYRO_INT3_INT4_IO_MAP_REG) 1,
               BusEvent.write (wr_addr K (regfile_dev K intf cfg) K.BMI090L_GYRO_INT3_INT4_IO_MAP_REG) [m] 1,
               BusEvent.read (rd_addr K (regfile_dev K intf cfg) K.BMI090L_GYRO_INT3_INT4_IO_CONF_REG) 1,
               BusEvent.write (wr_addr K (regfile_dev K intf cfg) K.BMI090L_GYRO_INT3_INT4_IO_CONF_REG) [c] 1,
               BusEvent.write (wr_addr K (regfile_dev K intf cfg) K.BMI090L_GYRO_INT_CTRL_REG) [e] 1] }) ∧
      m &&& K.BMI090L_GYRO_INT3_DATA_MASK =
        (w.st K.BMI090L_GYRO_INT3_INT4_IO_MAP_REG % 256) &&& K.BMI090L_GYRO_INT3_DATA_MASK ∧
      c &&& K.BMI090L_GYRO_INT3_LVL_MASK =
        (w.st K.BMI090L_GYRO_INT3_INT4_IO_CONF_REG % 256) &&& K.BMI090L_GYRO_INT3_LVL_MASK ∧
      c &&& K.BMI090L_GYRO_INT3_OD_MASK =
        (w.st K.BMI090L_GYRO_INT3_INT4_IO_CONF_REG % 256) &&& K.BMI090L_GYRO_INT3_OD_MASK) := by
  have hb : ∀ n : Nat, n % 256 < 256 := fun n => Nat.mod_lt _ (by decide)
  have hc : ∀ a b : Nat, a &&& b = 0 → b &&& a = 0 := fun a b h => by rw [Nat.and_comm]; exact h
  constructor
  · refine ⟨_, _, _, _,
      set_int_config_regfile K intf cfg w _ rfl (Or.inl rfl) hrdm hwrm hM hC hI hMC, ?_, ?_, ?_⟩
    · simp only [drdy_map_byte, if_true]
      exact frame_SET_BITS_POS_0 _ _ _ _ (hb _) hdd
    · simp only [pin_conf_byte, if_true]
      rw [frame_SET_BITS _ _ _ _ _ (u8_lt _) hol, frame_SET_BITS_POS_0 _ _ _ _ (hb _) hll]
    · simp only [pin_conf_byte, if_true]
      rw [frame_SET_BITS _ _ _ _ _ (u8_lt _) hoo, frame_SET_BITS_POS_0 _ _ _ _ (hb _) hlo]
  · refine ⟨_, _, _, _,
      set_int_config_regfile K intf cfg w _ rfl (Or.inr rfl) hrdm hwrm hM hC hI hMC, ?_, ?_, ?_⟩
    · simp only [drdy_map_byte, h34, if_false]
      exact frame_SET_BITS _ _ _ _ _ (hb _) (hc _ _ hdd)
    · simp only [pin_conf_byte, h34, if_false, if_true]
      rw [frame_SET_BITS _ _ _ _ _ (u8_lt _) (hc _ _ hlo), frame_SET_BITS _ _ _ _ _ (hb _) (hc _ _ hll)]
    · simp only [pin_conf_byte, h34, if_false, if_true]
      rw [frame_SET_BITS _ _ _ _ _ (u8_lt _) (hc _ _ hoo), frame_SET_BITS _ _ _ _ _ (hb _) (hc _ _ hol)]

/-- C7 exercised over SPI on channel 3, with pin-map register 0xA5,
pin-configuration register 0x5A, enable_int_pin 0xFE, lvl 3, output_mode 2. -/
theorem int_config_other_channel_preserved_witness :
    ∃ m c e st1,
      bmi090lg_set_int_config regmap
          (some { int_channel := 0, int_type := 0,
                  int_pin_cfg := { lvl := 3, output_mode := 2, enable_int_pin := 0xFE } })
          (some (regfile_dev regmap 1 { power := 0, range := 0, bw := 0, odr := 0 }))
          { st := fun a => if a = 0x18 then 0xA5 else if a = 0x16 then 0x5A else 0, log := [] } =
        some (0,
          { st := st1,
            log := [] ++
              [BusEvent.read 0x98 1, BusEvent.write 0x18 [m] 1, BusEvent.read 0x96 1,
               BusEvent.write 0x16 [c] 1, BusEvent.write 0x15 [e] 1] }) ∧
      m &&& 0x80 = (0xA5 % 256) &&& 0x80 ∧
      c &&& 0x04 = (0x5A % 256) &&& 0x04 ∧
      c &&& 0x08 = (0x5A % 256) &&& 0x08 :=
  (int_config_other_channel_preserved regmap 1 { power := 0, range := 0, bw := 0, odr := 0 }
    { st := fun a => if a = 0x18 then 0xA5 else if a = 0x16 then 0x5A else 0, log := [] }
    { lvl := 3, output_mode := 2, enable_int_pin := 0xFE }
    rfl rfl (by decide) (by decide) (by decide) (by decide) (by decide)
    (by decide) (by decide) (by decide) (by decide) (by decide)).1

/-- C8: on the register file, in a data-ready configuration on channel 3 or 4, the
byte written to the interrupt-control register is
BMI090L_GYRO_DRDY_INT_ENABLE_VAL when the pin-map byte written just before (the
updated byte) has the channel-3 or the channel-4 map bit set, and
BMI090L_GYRO_DRDY_INT_DISABLE_VAL when both are clear; so a configuration of one
channel (whatever its enable value) while the other channel's map bit was set
writes the enable value.  Header facts used: BMI090L_GYRO_MAP_DRDY_TO_BOTH_INT3_INT4
is the union of the two map masks, which are disjoint; the two values are
bytes; the channel codes differ; the SPI direction bit is bit 7; the registers
are 7-bit addresses. -/
theorem drdy_enable_follows_map_bits (K : Defs) (intf : Nat) (cfg : bmi090l_cfg)
    (w : World (Nat → Nat)) (ic : bmi090l_gyro_int_channel_cfg)
    (htype : ic.int_type = K.BMI090L_GYRO_DATA_RDY_INT)
    (hch : ic.int_channel = K.BMI090L_INT_CHANNEL_3 ∨ ic.int_channel = K.BMI090L_INT_CHANNEL_4)
    (hrdm : K.BMI090L_SPI_RD_MASK = 0x80) (hwrm : K.BMI090L_SPI_WR_MASK = 0x7F)
    (hM : K.BMI090L_GYRO_INT3_INT4_IO_MAP_REG < 128)
    (hC : K.BMI090L_GYRO_INT3_INT4_IO_CONF_REG < 128)
    (hI : K.BMI090L_GYRO_INT_CTRL_REG < 128)
    (hMC : K.BMI090L_GYRO_INT3_INT4_IO_CONF_REG ≠ K.BMI090L_GYRO_INT3_INT4_IO_MAP_REG)
    (h34 : K.BMI090L_INT_CHANNEL_4 ≠ K.BMI090L_INT_CHANNEL_3)
    (hboth : K.BMI090L_GYRO_MAP_DRDY_TO_BOTH_INT3_INT4 =
      K.BMI090L_GYRO_INT3_DATA_MASK ||| K.BMI090L_GYRO_INT4_DATA_MASK)
    (hdd : K.BMI090L_GYRO_INT3_DATA_MASK &&& K.BMI090L_GYRO_INT4_DATA_MASK = 0)
    (hen : K.BMI090L_GYRO_DRDY_INT_ENABLE_VAL < 256)
    (hdis : K.BMI090L_GYRO_DRDY_INT_DISABLE_VAL < 256) :
    ∃ m c e st1,
      bmi090lg_set_int_config K (some ic) (some (regfile_dev K intf cfg)) w =
        some (K.BMI090L_OK,
          { st := st1,
            log := w.log ++
              [BusEvent.read (rd_addr K (regfile_dev K intf cfg) K.BMI090L_GYRO_INT3_INT4_IO_MAP_REG) 1,
               BusEvent.write (wr_addr K (regfile_dev K intf cfg) K.BMI090L_GYRO_INT3_INT4_IO_MAP_REG) [m] 1,
               BusEvent.read (rd_addr K (regfile_dev K intf cfg) K.BMI090L_GYRO_INT3_INT4_IO_CONF_REG) 1,
               BusEvent.write (wr_addr K (regfile_dev K intf cfg) K.BMI090L_GYRO_INT3_INT4_IO_CONF_REG) [c] 1,
               BusEvent.write (wr_addr K (regfile_dev K intf cfg) K.BMI090L_GYRO_INT_CTRL_REG) [e] 1] }) ∧
      e = (if m &&& K.BMI090L_GYRO_INT3_DATA_MASK ≠ 0 ∨ m &&& K.BMI090L_GYRO_INT4_DATA_MASK ≠ 0
            then K.BMI090L_GYRO_DRDY_INT_ENABLE_VAL else K.BMI090L_GYRO_DRDY_INT_DISABLE_VAL) ∧
      (ic.int_channel = K.BMI090L_INT_CHANNEL_3 →
        (w.st K.BMI090L_GYRO_INT3_INT4_IO_MAP_REG % 256) &&& K.BMI090L_GYRO_INT4_DATA_MASK ≠ 0 →
        e = K.BMI090L_GYRO_DRDY_INT_ENABLE_VAL) ∧
      (ic.int_channel = K.BMI090L_INT_CHANNEL_4 →
        (w.st K.BMI090L_GYRO_INT3_INT4_IO_MAP_REG % 256) &&& K.BMI090L_GYRO_INT3_DATA_MASK ≠ 0 →
        e = K.BMI090L_GYRO_DRDY_INT_ENABLE_VAL) ∧
      (K.BMI090L_GYRO_DRDY_INT_ENABLE_VAL ≠ K.BMI090L_GYRO_DRDY_INT_DISABLE_VAL →
        (e = K.BMI090L_GYRO_DRDY_INT_DISABLE_VAL ↔
          m &&& K.BMI090L_GYRO_INT3_DATA_MASK = 0 ∧ m &&& K.BMI090L_GYRO_INT4_DATA_MASK = 0)) := by
  have hb : ∀ n : Nat, n % 256 < 256 := fun n => Nat.mod_lt _ (by decide)
  have hctrl : ∀ m, drdy_ctrl_byte K m =
      (if m &&& K.BMI090L_GYRO_INT3_DATA_MASK ≠ 0 ∨ m &&& K.BMI090L_GYRO_INT4_DATA_MASK ≠ 0
        then K.BMI090L_GYRO_DRDY_INT_ENABLE_VAL else K.BMI090L_GYRO_DRDY_INT_DISABLE_VAL) := by
    intro m
    have hiff : (m &&& K.BMI090L_GYRO_MAP_DRDY_TO_BOTH_INT3_INT4 ≠ 0) ↔
        (m &&& K.BMI090L_GYRO_INT3_DATA_MASK ≠ 0 ∨ m &&& K.BMI090L_GYRO_INT4_DATA_MASK ≠ 0) := by
      rw [hboth, Nat.and_or_distrib_left, Ne, lor_eq_zero_iff, not_and_or]
    simp only [drdy_ctrl_byte, u8, Nat.mod_eq_of_lt hen, Nat.mod_eq_of_lt hdis, hiff]
  refine ⟨_, _, _, _,
    set_int_config_regfile K intf cfg w ic htype hch hrdm hwrm hM hC hI hMC, hctrl _, ?_, ?_, ?_⟩
  · intro h3 hprior
    rw [hctrl, if_pos]
    right
    simp only [drdy_map_byte, h3, if_true]
    rw [frame_SET_BITS_POS_0 _ _ _ _ (hb _) hdd]
    exact hprior
  · intro h4 hprior
    rw [hctrl, if_pos]
    left
    simp only [drdy_map_byte, h4, h34, if_false]
    rw [frame_SET_BITS _ _ _ _ _ (hb _) (by rw [Nat.and_comm]; exact hdd)]
    exact hprior
  · intro hne
    rw [hctrl]
    split
    · rename_i h
      constructor
      · intro h2; exact absurd h2 hne
      · rintro ⟨h3, h4⟩
        rcases h with h | h
        · exact absurd h3 h
        · exact absurd h4 h
    · rename_i h
      rw [not_or, not_not, not_not] at h
      exact ⟨fun _ => h, fun _ => rfl⟩

/-- C8 exercised: channel 3 is disabled (enable_int_pin 0) while the pin-map
register holds 0x81, both map bits set. -/
theorem drdy_enable_follows_map_bits_witness :
    ∃ m c e st1,
      bmi090lg_set_int_config regmap
          (some { int_channel := 0, int_type := 0,
                  int_pin_cfg := { lvl := 1, output_mode := 0, enable_int_pin := 0 } })
          (some (regfile_dev regmap 0 { power := 0, range := 0, bw := 0, odr := 0 }))
          { st := fun a => if a = 0x18 then 0x81 else 0, log := [] } =
        some (0,
          { st := st1,
            log := [] ++
              [BusEvent.read 0x18 1, BusEvent.write 0x18 [m] 1, BusEvent.read 0x16 1,
               BusEvent.write 0x16 [c] 1, BusEvent.write 0x15 [e] 1] }) ∧
      e = (if m &&& 0x01 ≠ 0 ∨ m &&& 0x80 ≠ 0 then 0x80 else 0x00) ∧
      ((0 : Nat) = 0 → (0x81 % 256) &&& 0x80 ≠ 0 → e = 0x80) ∧
      ((0 : Nat) = 1 → (0x81 % 256) &&& 0x01 ≠ 0 → e = 0x80) ∧
      ((0x80 : Nat) ≠ 0x00 → (e = 0x00 ↔ m &&& 0x01 = 0 ∧ m &&& 0x80 = 0)) :=
  drdy_enable_follows_map_bits regmap 0 { power := 0, range := 0, bw := 0, odr := 0 }
    { st := fun a => if a = 0x18 then 0x81 else 0, log := [] }
    { int_channel := 0, int_type := 0,
      int_pin_cfg := { lvl := 1, output_mode := 0, enable_int_pin := 0 } }
    rfl (Or.inl rfl) rfl rfl (by decide) (by decide) (by decide) (by decide) (by decide)
    (by decide) (by decide) (by decide) (by decide)

/-- C9: with a valid context, for a data-ready configuration whose channel is
neither channel 3 nor channel 4, `bmi090lg_set_int_config` invokes the read
callback once (pin-map register) and no other callback, so the write callback
is invoked zero times; it returns BMI090L_E_INVALID_INPUT when that read
succeeded (and BMI090L_E_COM_FAIL when it failed).  Header facts used:
BMI090L_E_INVALID_INPUT and BMI090L_E_COM_FAIL differ from BMI090L_OK. -/
theorem set_int_config_bad_channel (K : Defs) (d : bmi090l_dev σ) (w : World σ)
    (ic : bmi090l_gyro_int_channel_cfg)
    (rd : bmi090l_read_fptr_t σ) (wr : bmi090l_write_fptr_t σ) (dl : bmi090l_delay_us_fptr_t σ)
    (s : Int) (bytes : List Nat) (st1 : σ)
    (hrd : d.read = some rd) (hwr : d.write = some wr) (hdl : d.delay_us = some dl)
    (htype : ic.int_type = K.BMI090L_GYRO_DATA_RDY_INT)
    (hc3 : ic.int_channel ≠ K.BMI090L_INT_CHANNEL_3)
    (hc4 : ic.int_channel ≠ K.BMI090L_INT_CHANNEL_4)
    (hread : rd (rd_addr K d K.BMI090L_GYRO_INT3_INT4_IO_MAP_REG) 1 w.st = (s, bytes, st1))
    (hinv : K.BMI090L_E_INVALID_INPUT ≠ K.BMI090L_OK)
    (hcfok : K.BMI090L_E_COM_FAIL ≠ K.BMI090L_OK) :
    bmi090lg_set_int_config K (some ic) (some d) w =
        some (if s = K.BMI090L_OK then K.BMI090L_E_INVALID_INPUT else K.BMI090L_E_COM_FAIL,
          { st := st1,
            log := w.log ++ [BusEvent.read (rd_addr K d K.BMI090L_GYRO_INT3_INT4_IO_MAP_REG) 1] })
      ∧ count_writes (w.log ++ [BusEvent.read (rd_addr K d K.BMI090L_GYRO_INT3_INT4_IO_MAP_REG) 1]) =
          count_writes w.log := by
  refine ⟨?_, by simp [count_writes]⟩
  simp only [bmi090lg_set_int_config, set_gyro_data_ready_int,
    null_ptr_check_ok K d rd wr dl hrd hwr hdl,
    get_regs_of_read K d w rd _ 1 [0] bytes s st1 hrd hread]
  by_cases hs : s = K.BMI090L_OK
  · simp [hs, htype, hc3, hc4, hinv]
  · simp [hs, htype, hcfok]

/-- C9 exercised on the register file: channel code 2. -/
theorem set_int_config_bad_channel_witness :
    bmi090lg_set_int_config regmap
        (some { int_channel := 2, int_type := 0,
                int_pin_cfg := { lvl := 1, output_mode := 0, enable_int_pin := 1 } })
        (some (regfile_dev regmap 0 { power := 0, range := 0, bw := 0, odr := 0 }))
        { st := fun _ => 0, log := [] } =
      some (-5, { st := fun _ => 0, log := [] ++ [BusEvent.read 0x18 1] }) :=
  (set_int_config_bad_channel regmap (regfile_dev regmap 0 { power := 0, range := 0, bw := 0, odr := 0 })
    { st := fun _ => 0, log := [] }
    { int_channel := 2, int_type := 0,
      int_pin_cfg := { lvl := 1, output_mode := 0, enable_int_pin := 1 } }
    _ _ _ _ _ _ rfl rfl rfl rfl (by decide) (by decide) rfl (by decide) (by decide)).1

/-- C10: with a valid context and a non-null configuration whose int_type is not
BMI090L_GYRO_DATA_RDY_INT, `bmi090lg_set_int_config` returns
BMI090L_E_INVALID_CONFIG whatever the channel and the pin settings, and the
world is the one it started from: no callback was invoked. -/
theorem set_int_config_bad_type (K : Defs) (d : bmi090l_dev σ) (w : World σ)
    (ic : bmi090l_gyro_int_channel_cfg)
    (rd : bmi090l_read_fptr_t σ) (wr : bmi090l_write_fptr_t σ) (dl : bmi090l_delay_us_fptr_t σ)
    (hrd : d.read = some rd) (hwr : d.write = some wr) (hdl : d.delay_us = some dl)
    (htype : ic.int_type ≠ K.BMI090L_GYRO_DATA_RDY_INT) :
    bmi090lg_set_int_config K (some ic) (some d) w = some (K.BMI090L_E_INVALID_CONFIG, w) := by
  simp [bmi090lg_set_int_config, null_ptr_check_ok K d rd wr dl hrd hwr hdl, htype]

/-- C10 exercised on the register file: int_type code 1, channel 3. -/
theorem set_int_config_bad_type_witness :
    bmi090lg_set_int_config regmap
        (some { int_channel := 0, int_type := 1,
                int_pin_cfg := { lvl := 1, output_mode := 0, enable_int_pin := 1 } })
        (some (regfile_dev regmap 0 { power := 0, range := 0, bw := 0, odr := 0 }))
        { st := fun _ => 0, log := [] } =
      some (-8, { st := fun _ => 0, log := [] }) :=
  set_int_config_bad_type regmap (regfile_dev regmap 0 { power := 0, range := 0, bw := 0, odr := 0 })
    { st := fun _ => 0, log := [] }
    { int_channel := 0, int_type := 1,
      int_pin_cfg := { lvl := 1, output_mode := 0, enable_int_pin := 1 } }
    _ _ _ rfl rfl rfl (by decide)

/-! ### Register access layer -/

/-- Setting bit 7 of a byte address: the result is a byte with bit 7 set and
the low 7 bits of the address. -/
theorem spi_rd_bits (a : Nat) (ha : a < 256) :
    (a ||| 0x80) % 256 = a ||| 0x80 ∧ (a ||| 0x80).testBit 7 = true ∧
      (a ||| 0x80) % 128 = a % 128 := by
  have h7 : Nat.testBit 128 7 = true := by decide
  refine ⟨Nat.mod_eq_of_lt (Nat.or_lt_two_pow (n := 8) ha (by decide)),
    by simp [Nat.testBit_or, h7], ?_⟩
  apply Nat.eq_of_testBit_eq
  intro i
  simp only [show (128 : Nat) = 2 ^ 7 from rfl, Nat.testBit_mod_two_pow, Nat.testBit_or,
    Nat.testBit_two_pow]
  by_cases hi : i < 7
  · have : ¬ (7 = i) := by omega
    simp [hi, this]
  · simp [hi]

/-- Clearing bit 7 of a byte address: the result is a byte with bit 7 clear and
the low 7 bits of the address. -/
theorem spi_wr_bits (a : Nat) (ha : a < 256) :
    (a &&& 0x7F) % 256 = a &&& 0x7F ∧ (a &&& 0x7F).testBit 7 = false ∧
      (a &&& 0x7F) % 128 = a % 128 := by
  have h : a &&& 0x7F = a % 128 := Nat.and_pow_two_sub_one_eq_mod a 7
  have h7 : Nat.testBit 127 7 = false := by decide
  refine ⟨Nat.mod_eq_of_lt (lt_of_le_of_lt Nat.and_le_left ha),
    by simp [Nat.testBit_and, h7], ?_⟩
  rw [h, Nat.mod_mod]

/-- C11: for every 8-bit register address `a` and a context with read and write
callbacks: on the SPI interface `get_regs` calls the read callback at
`a | BMI090L_SPI_RD_MASK`, which has bit 7 set and the low 7 bits of `a`, and
`set_regs` calls the write callback at `a & BMI090L_SPI_WR_MASK`, which has
bit 7 clear and the low 7 bits of `a`; on any other interface (I2C) both
callbacks are called at `a` itself.  Header facts used: the read mask is 0x80,
the write mask is 0x7F. -/
theorem spi_address_encoding (K : Defs) (d : bmi090l_dev σ) (w : World σ)
    (rd : bmi090l_read_fptr_t σ) (wr : bmi090l_write_fptr_t σ)
    (a len : Nat) (buf data : List Nat)
    (hrd : d.read = some rd) (hwr : d.write = some wr) (ha : a < 256)
    (hrm : K.BMI090L_SPI_RD_MASK = 0x80) (hwm : K.BMI090L_SPI_WR_MASK = 0x7F) :
    (d.intf = K.BMI090L_SPI_INTF →
      get_regs K a buf len d w =
          some (if (rd (a ||| K.BMI090L_SPI_RD_MASK) len w.st).1 ≠ K.BMI090L_OK
              then K.BMI090L_E_COM_FAIL else (rd (a ||| K.BMI090L_SPI_RD_MASK) len w.st).1,
            buf_fill buf (rd (a ||| K.BMI090L_SPI_RD_MASK) len w.st).2.1,
            { st := (rd (a ||| K.BMI090L_SPI_RD_MASK) len w.st).2.2,
              log := w.log ++ [BusEvent.read (a ||| K.BMI090L_SPI_RD_MASK) len] }) ∧
        (a ||| K.BMI090L_SPI_RD_MASK).testBit 7 = true ∧
        (a ||| K.BMI090L_SPI_RD_MASK) % 128 = a % 128 ∧
      set_regs K a data len d w =
          some (if (wr (a &&& K.BMI090L_SPI_WR_MASK) data len w.st).1 ≠ K.BMI090L_OK
              then K.BMI090L_E_COM_FAIL else (wr (a &&& K.BMI090L_SPI_WR_MASK) data len w.st).1,
            { st := (wr (a &&& K.BMI090L_SPI_WR_MASK) data len w.st).2,
              log := w.log ++ [BusEvent.write (a &&& K.BMI090L_SPI_WR_MASK) data len] }) ∧
        (a &&& K.BMI090L_SPI_WR_MASK).testBit 7 = false ∧
        (a &&& K.BMI090L_SPI_WR_MASK) % 128 = a % 128) ∧
    (d.intf ≠ K.BMI090L_SPI_INTF →
      get_regs K a buf len d w =
          some (if (rd a len w.st).1 ≠ K.BMI090L_OK then K.BMI090L_E_COM_FAIL else (rd a len w.st).1,
            buf_fill buf (rd a len w.st).2.1,
            { st := (rd a len w.st).2.2, log := w.log ++ [BusEvent.read a len] }) ∧
      set_regs K a data len d w =
          some (if (wr a data len w.st).1 ≠ K.BMI090L_OK then K.BMI090L_E_COM_FAIL
              else (wr a data len w.st).1,
            { st := (wr a data len w.st).2, log := w.log ++ [BusEvent.write a data len] })) := by
  obtain ⟨r1, r2, r3⟩ := spi_rd_bits a ha
  obtain ⟨w1, w2, w3⟩ := spi_wr_bits a ha
  constructor
  · intro hspi
    rw [hrm, hwm]
    refine ⟨?_, r2, r3, ?_, w2, w3⟩
    · simp [get_regs, hrd, hspi, hrm, u8, r1]
    · simp [set_regs, hwr, hspi, hwm, u8, w1]
  · intro hi2c
    exact ⟨by simp [get_regs, hrd, hi2c], by simp [set_regs, hwr, hi2c]⟩

/-- C11 exercised on the register file over SPI at register address 0x3C. -/
theorem spi_address_encoding_witness :
    get_regs regmap 0x3C [0] 1 (regfile_dev regmap 1 { power := 0, range := 0, bw := 0, odr := 0 })
        { st := fun _ => 0, log := [] } =
        some (if (regfile_read regmap (0x3C ||| 0x80) 1 (fun _ => 0)).1 ≠ 0
            then -2 else (regfile_read regmap (0x3C ||| 0x80) 1 (fun _ => 0)).1,
          buf_fill [0] (regfile_read regmap (0x3C ||| 0x80) 1 (fun _ => 0)).2.1,
          { st := (regfile_read regmap (0x3C ||| 0x80) 1 (fun _ => 0)).2.2,
            log := [] ++ [BusEvent.read (0x3C ||| 0x80) 1] }) ∧
      (0x3C ||| 0x80).testBit 7 = true ∧
      (0x3C ||| 0x80) % 128 = 0x3C % 128 ∧
    set_regs regmap 0x3C [7] 1 (regfile_dev regmap 1 { power := 0, range := 0, bw := 0, odr := 0 })
        { st := fun _ => 0, log := [] } =
        some (if (regfile_write regmap (0x3C &&& 0x7F) [7] 1 (fun _ => 0)).1 ≠ 0
            then -2 else (regfile_write regmap (0x3C &&& 0x7F) [7] 1 (fun _ => 0)).1,
          { st := (regfile_write regmap (0x3C &&& 0x7F) [7] 1 (fun _ => 0)).2,
            log := [] ++ [BusEvent.write (0x3C &&& 0x7F) [7] 1] }) ∧
      (0x3C &&& 0x7F).testBit 7 = false ∧
      (0x3C &&& 0x7F) % 128 = 0x3C % 128 :=
  (spi_address_encoding regmap (regfile_dev regmap 1 { power := 0, range := 0, bw := 0, odr := 0 })
    { st := fun _ => 0, log := [] } _ _ 0x3C 1 [0] [7] rfl rfl (by decide) rfl rfl).1 rfl

/-- The call `bmi090lg_get_regs` with a valid context, a buffer and len > 0 is the
read of the static helper. -/
theorem get_regs_public_valid (K : Defs) (d : bmi090l_dev σ) (w : World σ)
    (rd : bmi090l_read_fptr_t σ) (wr : bmi090l_write_fptr_t σ) (dl : bmi090l_delay_us_fptr_t σ)
    (a len : Nat) (buf bytes : List Nat) (s : Int) (st1 : σ)
    (hrd : d.read = some rd) (hwr : d.write = some wr) (hdl : d.delay_us = some dl)
    (hlen : 0 < len) (hread : rd (rd_addr K d a) len w.st = (s, bytes, st1)) :
    bmi090lg_get_regs K a (some buf) len (some d) w =
      some (if s ≠ K.BMI090L_OK then K.BMI090L_E_COM_FAIL else s, some (buf_fill buf bytes),
        { st := st1, log := w.log ++ [BusEvent.read (rd_addr K d a) len] }) := by
  simp only [bmi090lg_get_regs, null_ptr_check_ok K d rd wr dl hrd hwr hdl,
    get_regs_of_read K d w rd a len buf bytes s st1 hrd hread]
  simp [hlen]

/-- The call `bmi090lg_set_regs` with a valid context, a buffer and len > 0 is the
write of the static helper. -/
theorem set_regs_public_valid (K : Defs) (d : bmi090l_dev σ) (w : World σ)
    (rd : bmi090l_read_fptr_t σ) (wr : bmi090l_write_fptr_t σ) (dl : bmi090l_delay_us_fptr_t σ)
    (a len : Nat) (buf : List Nat) (s : Int) (st1 : σ)
    (hrd : d.read = some rd) (hwr : d.write = some wr) (hdl : d.delay_us = some dl)
    (hlen : 0 < len) (hwrite : wr (wr_addr K d a) buf len w.st = (s, st1)) :
    bmi090lg_set_regs K a (some buf) len (some d) w =
      some (if s ≠ K.BMI090L_OK then K.BMI090L_E_COM_FAIL else s,
        { st := st1, log := w.log ++ [BusEvent.write (wr_addr K d a) buf len] }) := by
  simp only [bmi090lg_set_regs, null_ptr_check_ok K d rd wr dl hrd hwr hdl]
  simp only [Option.isSome_some, and_self, if_true, hlen, gt_iff_lt,
    set_regs_of_write K d w wr a len buf s st1 hwr hwrite]

/-- C12: with a valid context, a non-null buffer and len > 0, `bmi090lg_get_regs`
(resp. `bmi090lg_set_regs`) returns BMI090L_E_COM_FAIL for every non-zero status
of the read (resp. write) callback, whatever that status is, and BMI090L_OK
exactly when the status is 0; the callback is invoked exactly once, with no
retry.  Header facts used: BMI090L_OK is 0 and BMI090L_E_COM_FAIL differs from
it. -/
theorem transport_status_maps_to_com_fail (K : Defs) (d : bmi090l_dev σ) (w : World σ)
    (rd : bmi090l_read_fptr_t σ) (wr : bmi090l_write_fptr_t σ) (dl : bmi090l_delay_us_fptr_t σ)
    (a len : Nat) (buf bytes : List Nat) (s s2 : Int) (st1 st2 : σ)
    (hrd : d.read = some rd) (hwr : d.write = some wr) (hdl : d.delay_us = some dl)
    (hlen : 0 < len)
    (hread : rd (rd_addr K d a) len w.st = (s, bytes, st1))
    (hwrite : wr (wr_addr K d a) buf len w.st = (s2, st2))
    (hok0 : K.BMI090L_OK = 0) (hcf : K.BMI090L_E_COM_FAIL ≠ K.BMI090L_OK) :
    bmi090lg_get_regs K a (some buf) len (some d) w =
        some (if s = 0 then K.BMI090L_OK else K.BMI090L_E_COM_FAIL, some (buf_fill buf bytes),
          { st := st1, log := w.log ++ [BusEvent.read (rd_addr K d a) len] }) ∧
      ((if s = 0 then K.BMI090L_OK else K.BMI090L_E_COM_FAIL) = K.BMI090L_OK ↔ s = 0) ∧
      count_reads (w.log ++ [BusEvent.read (rd_addr K d a) len]) = count_reads w.log + 1 ∧
      count_writes (w.log ++ [BusEvent.read (rd_addr K d a) len]) = count_writes w.log ∧
    bmi090lg_set_regs K a (some buf) len (some d) w =
        some (if s2 = 0 then K.BMI090L_OK else K.BMI090L_E_COM_FAIL,
          { st := st2, log := w.log ++ [BusEvent.write (wr_addr K d a) buf len] }) ∧
      ((if s2 = 0 then K.BMI090L_OK else K.BMI090L_E_COM_FAIL) = K.BMI090L_OK ↔ s2 = 0) ∧
      count_writes (w.log ++ [BusEvent.write (wr_addr K d a) buf len]) = count_writes w.log + 1 ∧
      count_reads (w.log ++ [BusEvent.write (wr_addr K d a) buf len]) = count_reads w.log := by
  have hiff : ∀ t : Int, ((if t = 0 then K.BMI090L_OK else K.BMI090L_E_COM_FAIL) = K.BMI090L_OK ↔ t = 0) := by
    intro t
    by_cases ht : t = 0
    · simp [ht]
    · simp [ht, hcf]
  refine ⟨?_, hiff s, by simp [count_reads], by simp [count_writes], ?_, hiff s2,
    by simp [count_writes], by simp [count_reads]⟩
  · rw [get_regs_public_valid K d w rd wr dl a len buf bytes s st1 hrd hwr hdl hlen hread]
    by_cases hs : s = 0
    · simp [hs, hok0]
    · simp [hs, hok0]
  · rw [set_regs_public_valid K d w rd wr dl a len buf s2 st2 hrd hwr hdl hlen hwrite]
    by_cases hs : s2 = 0
    · simp [hs, hok0]
    · simp [hs, hok0]

/-- C12 exercised with a transport whose read returns status 5 and whose write
returns status -3. -/
theorem transport_status_maps_to_com_fail_witness :
    bmi090lg_get_regs regmap 0x02 (some [0, 0]) 2
        (some { intf := 0, gyro_chip_id := 0, gyro_cfg := { power := 0, range := 0, bw := 0, odr := 0 },
                read := some (fun _ _ (n : Nat) => ((5 : Int), [], n + 1)),
                write := some (fun _ _ _ n => ((-3 : Int), n + 1)),
                delay_us := some (fun _ n => n) })
        { st := 0, log := [] } =
      some (-2, some [0, 0], { st := 1, log := [BusEvent.read 0x02 2] }) :=
  (transport_status_maps_to_com_fail regmap
    { intf := 0, gyro_chip_id := 0, gyro_cfg := { power := 0, range := 0, bw := 0, odr := 0 },
      read := some (fun _ _ (n : Nat) => ((5 : Int), [], n + 1)),
      write := some (fun _ _ _ n => ((-3 : Int), n + 1)),
      delay_us := some (fun _ n => n) }
    { st := 0, log := [] } _ _ _ 0x02 2 [0, 0] [] 5 (-3) 1 1 rfl rfl rfl (by decide) rfl rfl rfl
    (by decide)).1

/-- C13: `bmi090lg_get_regs` and `bmi090lg_set_regs` return
BMI090L_E_RD_WR_LENGTH_INVALID without invoking a callback when the context is
valid, the buffer non-null and len = 0, and invoke the read (resp. write)
callback once when len > 0; when the context is null, or one of its read, write,
delay callbacks is null, or the buffer is null, they return BMI090L_E_NULL_PTR
for every len, zero included, and invoke no callback.  Header fact used:
BMI090L_E_NULL_PTR differs from BMI090L_OK. -/
theorem regs_length_and_null_checks (K : Defs) (a len : Nat) (reg_data : Option (List Nat))
    (dev : Option (bmi090l_dev σ)) (w : World σ)
    (hnp : K.BMI090L_E_NULL_PTR ≠ K.BMI090L_OK) :
    (∀ d buf rd wr dl, dev = some d → reg_data = some buf →
      d.read = some rd → d.write = some wr → d.delay_us = some dl →
      (len = 0 →
        bmi090lg_get_regs K a reg_data len dev w =
            some (K.BMI090L_E_RD_WR_LENGTH_INVALID, reg_data, w) ∧
        bmi090lg_set_regs K a reg_data len dev w = some (K.BMI090L_E_RD_WR_LENGTH_INVALID, w)) ∧
      (0 < len →
        (∃ r b st1, bmi090lg_get_regs K a reg_data len dev w =
            some (r, b, { st := st1, log := w.log ++ [BusEvent.read (rd_addr K d a) len] })) ∧
        (∃ r st1, bmi090lg_set_regs K a reg_data len dev w =
            some (r, { st := st1, log := w.log ++ [BusEvent.write (wr_addr K d a) buf len] })))) ∧
    ((dev = none ∨
        (∃ d, dev = some d ∧ (d.read = none ∨ d.write = none ∨ d.delay_us = none)) ∨
        reg_data = none) →
      bmi090lg_get_regs K a reg_data len dev w = some (K.BMI090L_E_NULL_PTR, reg_data, w) ∧
      bmi090lg_set_regs K a reg_data len dev w = some (K.BMI090L_E_NULL_PTR, w)) := by
  constructor
  · intro d buf rd wr dl hd hb hrd hwr hdl
    subst hd hb
    constructor
    · intro h0
      subst h0
      simp [bmi090lg_get_regs, bmi090lg_set_regs, null_ptr_check_ok K d rd wr dl hrd hwr hdl]
    · intro hlen
      exact ⟨⟨_, _, _, get_regs_public_valid K d w rd wr dl a len buf _ _ _ hrd hwr hdl hlen rfl⟩,
        ⟨_, _, set_regs_public_valid K d w rd wr dl a len buf _ _ hrd hwr hdl hlen rfl⟩⟩
  · rintro (h | ⟨d, hd, h⟩ | h)
    · subst h
      simp [bmi090lg_get_regs, bmi090lg_set_regs, null_ptr_check, hnp]
    · subst hd
      have hc : null_ptr_check K (some d) = K.BMI090L_E_NULL_PTR := by
        rcases h with h | h | h <;> simp [null_ptr_check, h]
      simp [bmi090lg_get_regs, bmi090lg_set_regs, hc, hnp]
    · subst h
      simp [bmi090lg_get_regs, bmi090lg_set_regs]

/-- C13 exercised: a context whose delay callback is null, with len 0. -/
theorem regs_length_and_null_checks_witness :
    bmi090lg_get_regs regmap 0x02 (some [0]) 0
        (some { intf := 0, gyro_chip_id := 0, gyro_cfg := { power := 0, range := 0, bw := 0, odr := 0 },
                read := some (regfile_read regmap), write := some (regfile_write regmap),
                delay_us := none })
        { st := fun _ => 0, log := [] } =
      some (-1, some [0], { st := fun _ => 0, log := [] }) :=
  ((regs_length_and_null_checks regmap 0x02 0 (some [0])
    (some { intf := 0, gyro_chip_id := 0, gyro_cfg := { power := 0, range := 0, bw := 0, odr := 0 },
            read := some (regfile_read regmap), write := some (regfile_write regmap),
            delay_us := none })
    { st := fun _ => 0, log := [] } (by decide)).2
    (Or.inr (Or.inl ⟨_, rfl, Or.inr (Or.inr rfl)⟩))).1

/-! ### Sample read and initialisation -/

/-- A context passes the null check only if it is non-null with its three
callbacks set (BMI090L_E_NULL_PTR being different from BMI090L_OK). -/
theorem null_ptr_check_ok_inv (K : Defs) (dev : Option (bmi090l_dev σ))
    (hnp : K.BMI090L_E_NULL_PTR ≠ K.BMI090L_OK) (h : null_ptr_check K dev = K.BMI090L_OK) :
    ∃ d rd wr dl, dev = some d ∧ d.read = some rd ∧ d.write = some wr ∧ d.delay_us = some dl := by
  cases dev with
  | none => exact absurd h hnp
  | some d =>
    cases hr : d.read with
    | none => simp [null_ptr_check, hr, hnp] at h
    | some rd =>
      cases hw : d.write with
      | none => simp [null_ptr_check, hw, hnp] at h
      | some wr =>
        cases hd : d.delay_us with
        | none => simp [null_ptr_check, hd, hnp] at h
        | some dl => exact ⟨d, rd, wr, dl, rfl, hr, hw, hd⟩

/-- C14: `bmi090lg_get_data` always returns; when the status is not BMI090L_OK the
destination is the one passed in (x, y, z keep their prior values); the status
is BMI090L_E_NULL_PTR, with no callback invoked, for a missing destination or a
context that fails the null check, and BMI090L_E_COM_FAIL when the read
callback returns a status other than BMI090L_OK; when the status is BMI090L_OK
the call made exactly one read, of 6 bytes, and x, y, z are all three decoded
from the buffer of that read.  Header facts used: BMI090L_E_NULL_PTR and
BMI090L_E_COM_FAIL differ from BMI090L_OK. -/
theorem get_data_all_or_nothing (K : Defs) (gyro : Option bmi090l_sensor_data)
    (dev : Option (bmi090l_dev σ)) (w : World σ)
    (hnp : K.BMI090L_E_NULL_PTR ≠ K.BMI090L_OK) (hcf : K.BMI090L_E_COM_FAIL ≠ K.BMI090L_OK) :
    ∃ r g1 w1, bmi090lg_get_data K gyro dev w = some (r, g1, w1) ∧
      (r ≠ K.BMI090L_OK → g1 = gyro) ∧
      (gyro = none ∨ null_ptr_check K dev ≠ K.BMI090L_OK →
        r = K.BMI090L_E_NULL_PTR ∧ w1 = w) ∧
      (∀ d rd, dev = some d → d.read = some rd → gyro ≠ none →
        null_ptr_check K dev = K.BMI090L_OK →
        (rd (rd_addr K d K.BMI090L_GYRO_X_LSB_REG) 6 w.st).1 ≠ K.BMI090L_OK →
        r = K.BMI090L_E_COM_FAIL) ∧
      (r = K.BMI090L_OK →
        ∃ d rd data, dev = some d ∧ d.read = some rd ∧
          data = buf_fill [0, 0, 0, 0, 0, 0]
            (rd (rd_addr K d K.BMI090L_GYRO_X_LSB_REG) 6 w.st).2.1 ∧
          w1.log = w.log ++ [BusEvent.read (rd_addr K d K.BMI090L_GYRO_X_LSB_REG) 6] ∧
          g1 = some
            { x := toInt16 (u16 ((data.getD 1 0 <<< 8) ||| data.getD 0 0)),
              y := toInt16 (u16 ((data.getD 3 0 <<< 8) ||| data.getD 2 0)),
              z := toInt16 (u16 ((data.getD 5 0 <<< 8) ||| data.getD 4 0)) }) := by
  by_cases hc : null_ptr_check K dev = K.BMI090L_OK
  · obtain ⟨d, rd, wr, dl, rfl, hrd, hwr, hdl⟩ := null_ptr_check_ok_inv K dev hnp hc
    cases gyro with
    | none =>
      refine ⟨K.BMI090L_E_NULL_PTR, none, w, by simp [bmi090lg_get_data], fun _ => rfl,
        fun _ => ⟨rfl, rfl⟩, fun _ _ _ _ h => absurd rfl h, fun h => absurd h hnp⟩
    | some g =>
      have hg := get_regs_of_read K d w rd K.BMI090L_GYRO_X_LSB_REG 6 [0, 0, 0, 0, 0, 0] _ _ _ hrd rfl
      by_cases hs : (rd (rd_addr K d K.BMI090L_GYRO_X_LSB_REG) 6 w.st).1 = K.BMI090L_OK
      · refine ⟨K.BMI090L_OK,
          some
            { x := toInt16 (u16 (((buf_fill [0, 0, 0, 0, 0, 0]
                (rd (rd_addr K d K.BMI090L_GYRO_X_LSB_REG) 6 w.st).2.1).getD 1 0 <<< 8) |||
                (buf_fill [0, 0, 0, 0, 0, 0]
                  (rd (rd_addr K d K.BMI090L_GYRO_X_LSB_REG) 6 w.st).2.1).getD 0 0)),
              y := toInt16 (u16 (((buf_fill [0, 0, 0, 0, 0, 0]
                (rd (rd_addr K d K.BMI090L_GYRO_X_LSB_REG) 6 w.st).2.1).getD 3 0 <<< 8) |||
                (buf_fill [0, 0, 0, 0, 0, 0]
                  (rd (rd_addr K d K.BMI090L_GYRO_X_LSB_REG) 6 w.st).2.1).getD 2 0)),
              z := toInt16 (u16 (((buf_fill [0, 0, 0, 0, 0, 0]
                (rd (rd_addr K d K.BMI090L_GYRO_X_LSB_REG) 6 w.st).2.1).getD 5 0 <<< 8) |||
                (buf_fill [0, 0, 0, 0, 0, 0]
                  (rd (rd_addr K d K.BMI090L_GYRO_X_LSB_REG) 6 w.st).2.1).getD 4 0)) },
          { st := (rd (rd_addr K d K.BMI090L_GYRO_X_LSB_REG) 6 w.st).2.2,
            log := w.log ++ [BusEvent.read (rd_addr K d K.BMI090L_GYRO_X_LSB_REG) 6] },
          ?_, fun h => absurd rfl h, ?_, ?_, fun _ => ⟨d, rd, _, rfl, hrd, rfl, rfl, rfl⟩⟩
        · simp only [bmi090lg_get_data, hc, hg]
          simp [hs]
        · rintro (h | h)
          · exact absurd h (by simp)
          · exact absurd hc h
        · intro d2 rd2 hd2 hrd2 _ _ hne
          cases hd2
          rw [hrd] at hrd2
          cases hrd2
          exact absurd hs hne
      · refine ⟨K.BMI090L_E_COM_FAIL, some g,
          { st := (rd (rd_addr K d K.BMI090L_GYRO_X_LSB_REG) 6 w.st).2.2,
            log := w.log ++ [BusEvent.read (rd_addr K d K.BMI090L_GYRO_X_LSB_REG) 6] },
          ?_, fun _ => rfl, ?_, fun _ _ _ _ _ _ _ => rfl,
          fun h => absurd h hcf⟩
        · simp only [bmi090lg_get_data, hc, hg]
          simp [hs, hcf]
        · rintro (h | h)
          · exact absurd h (by simp)
          · exact absurd hc h
  · refine ⟨K.BMI090L_E_NULL_PTR, gyro, w, by simp [bmi090lg_get_data, hc], fun _ => rfl,
      fun _ => ⟨rfl, rfl⟩, fun _ _ _ _ _ h => absurd h hc, fun h => absurd h hnp⟩

/-- C14 exercised with a transport whose read fails after delivering three
bytes: the destination keeps 7, 8, 9. -/
theorem get_data_all_or_nothing_witness :
    ∃ r g1 w1,
      bmi090lg_get_data regmap (some { x := 7, y := 8, z := 9 })
        (some { intf := 0, gyro_chip_id := 0, gyro_cfg := { power := 0, range := 0, bw := 0, odr := 0 },
                read := some (fun _ _ (n : Nat) => ((-1 : Int), [1, 2, 3], n + 1)),
                write := some (fun _ _ _ n => ((0 : Int), n)),
                delay_us := some (fun _ n => n) })
        { st := 0, log := [] } = some (r, g1, w1) ∧
      (r ≠ 0 → g1 = some { x := 7, y := 8, z := 9 }) := by
  obtain ⟨r, g1, w1, h, h1, _⟩ := get_data_all_or_nothing regmap (some { x := 7, y := 8, z := 9 })
    (some { intf := 0, gyro_chip_id := 0, gyro_cfg := { power := 0, range := 0, bw := 0, odr := 0 },
            read := some (fun _ _ (n : Nat) => ((-1 : Int), [1, 2, 3], n + 1)),
            write := some (fun _ _ _ n => ((0 : Int), n)),
            delay_us := some (fun _ n => n) })
    { st := 0, log := [] } (by decide) (by decide)
  exact ⟨r, g1, w1, h, h1⟩

/-- C15: `bmi090lg_init` with a valid context, `chip` being the byte left in the
one-byte buffer by the read of the chip-id register: when the read succeeds
and `chip` differs from BMI090L_GYRO_CHIP_ID the call returns
BMI090L_E_DEV_NOT_FOUND and the context is returned as it was (gyro_chip_id is
not set); when `chip` equals the constant it returns BMI090L_OK and
gyro_chip_id is that constant; when the read fails it returns
BMI090L_E_COM_FAIL and the context is returned as it was.  Header fact used:
BMI090L_E_COM_FAIL differs from BMI090L_OK. -/
theorem init_sets_chip_id_only_on_match (K : Defs) (d : bmi090l_dev σ) (w : World σ)
    (rd : bmi090l_read_fptr_t σ) (wr : bmi090l_write_fptr_t σ) (dl : bmi090l_delay_us_fptr_t σ)
    (s : Int) (bytes : List Nat) (st1 : σ)
    (hrd : d.read = some rd) (hwr : d.write = some wr) (hdl : d.delay_us = some dl)
    (hread : rd (rd_addr K d K.BMI090L_GYRO_CHIP_ID_REG) 1 w.st = (s, bytes, st1))
    (hcf : K.BMI090L_E_COM_FAIL ≠ K.BMI090L_OK) :
    (s = K.BMI090L_OK → (buf_fill [0] bytes).getD 0 0 ≠ K.BMI090L_GYRO_CHIP_ID →
      bmi090lg_init K (some d) w =
        some (K.BMI090L_E_DEV_NOT_FOUND, some d,
          { st := st1, log := w.log ++ [BusEvent.read (rd_addr K d K.BMI090L_GYRO_CHIP_ID_REG) 1] })) ∧
    (s = K.BMI090L_OK → (buf_fill [0] bytes).getD 0 0 = K.BMI090L_GYRO_CHIP_ID →
      bmi090lg_init K (some d) w =
        some (K.BMI090L_OK, some { d with gyro_chip_id := K.BMI090L_GYRO_CHIP_ID },
          { st := st1, log := w.log ++ [BusEvent.read (rd_addr K d K.BMI090L_GYRO_CHIP_ID_REG) 1] })) ∧
    (s ≠ K.BMI090L_OK →
      bmi090lg_init K (some d) w =
        some (K.BMI090L_E_COM_FAIL, some d,
          { st := st1, log := w.log ++ [BusEvent.read (rd_addr K d K.BMI090L_GYRO_CHIP_ID_REG) 1] })) := by
  have hg := get_regs_of_read K d w rd K.BMI090L_GYRO_CHIP_ID_REG 1 [0] bytes s st1 hrd hread
  refine ⟨fun hs hne => ?_, fun hs heq => ?_, fun hs => ?_⟩
  · simp only [bmi090lg_init, null_ptr_check_ok K d rd wr dl hrd hwr hdl, hg, hs, ne_eq,
      not_true_eq_false, if_false, if_true, if_neg hne]
  · simp only [bmi090lg_init, null_ptr_check_ok K d rd wr dl hrd hwr hdl, hg, hs, ne_eq,
      not_true_eq_false, if_false, if_true, if_pos heq, heq]
  · simp only [bmi090lg_init, null_ptr_check_ok K d rd wr dl hrd hwr hdl, hg]
    simp [hs, hcf]

/-- C15 exercised on the register file: the chip-id register holds 0x0E instead
of 0x0F and the cached chip id 0 is kept. -/
theorem init_sets_chip_id_only_on_match_witness :
    bmi090lg_init regmap (some (regfile_dev regmap 0 { power := 0, range := 0, bw := 0, odr := 0 }))
        { st := fun _ => 0x0E, log := [] } =
      some (-3, some (regfile_dev regmap 0 { power := 0, range := 0, bw := 0, odr := 0 }),
        { st := fun _ => 0x0E, log := [] ++ [BusEvent.read 0x00 1] }) :=
  (init_sets_chip_id_only_on_match regmap
    (regfile_dev regmap 0 { power := 0, range := 0, bw := 0, odr := 0 })
    { st := fun _ => 0x0E, log := [] } _ _ _ _ _ _ rfl rfl rfl rfl (by decide)).1 rfl (by decide)

/-! ### Measurement configuration -/

/-- C18 as stated fails: on the register file with the register map `regmap`, a
range register that holds 0xE4 is stored whole in gyro_cfg.range (228), not
masked to its low 5 bits (4); the next register holds 0x03, stored as ODR 3. -/
theorem get_meas_conf_range_whole_byte :
    (bmi090lg_get_meas_conf regmap
        (some (regfile_dev regmap 0 { power := 0, range := 0, bw := 0, odr := 0 }))
        { st := fun a => if a = 0x0F then 0xE4 else if a = 0x10 then 0x03 else 0, log := [] }).map
        (fun r => (r.1, cfg_of r.2.1, 0xE4 % 32)) =
      some (0, { power := 0, range := 228, bw := 3, odr := 3 }, 4) := by
  decide

/-- C18, amended: after a successful `bmi090lg_get_meas_conf` whose 2-byte burst
read at the range register delivered d0, d1, gyro_cfg.range equals d0, the whole
byte with no mask applied, and gyro_cfg.odr (and gyro_cfg.bw) equals d1 masked
with BMI090L_GYRO_BW_MASK, which is the low 3 bits of d1 when that mask is 0x07. -/
theorem get_meas_conf_fields (K : Defs) (d : bmi090l_dev σ) (w : World σ)
    (rd : bmi090l_read_fptr_t σ) (wr : bmi090l_write_fptr_t σ) (dl : bmi090l_delay_us_fptr_t σ)
    (d0 d1 : Nat) (st1 : σ)
    (hrd : d.read = some rd) (hwr : d.write = some wr) (hdl : d.delay_us = some dl)
    (hd0 : d0 < 256) (hd1 : d1 < 256)
    (hread : rd (rd_addr K d K.BMI090L_GYRO_RANGE_REG) 2 w.st = (K.BMI090L_OK, [d0, d1], st1)) :
    bmi090lg_get_meas_conf K (some d) w =
        some (K.BMI090L_OK,
          some { d with gyro_cfg :=
            { power := d.gyro_cfg.power, range := d0,
              bw := (d1 &&& K.BMI090L_GYRO_BW_MASK) % 256,
              odr := (d1 &&& K.BMI090L_GYRO_BW_MASK) % 256 } },
          { st := st1, log := w.log ++ [BusEvent.read (rd_addr K d K.BMI090L_GYRO_RANGE_REG) 2] }) ∧
      (K.BMI090L_GYRO_BW_MASK = 0x07 → (d1 &&& K.BMI090L_GYRO_BW_MASK) % 256 = d1 % 8) := by
  constructor
  · simp only [bmi090lg_get_meas_conf, null_ptr_check_ok K d rd wr dl hrd hwr hdl,
      get_regs_of_read K d w rd _ 2 [0, 0] _ _ st1 hrd hread]
    simp [buf_fill, u8, Nat.mod_eq_of_lt hd0, Nat.mod_eq_of_lt hd1]
  · intro hm
    rw [hm, show (7 : Nat) = 2 ^ 3 - 1 from rfl, Nat.and_pow_two_sub_one_eq_mod]
    omega

/-- C18 amended, exercised on the register file over SPI with range register
0xE4 and bandwidth register 0x8B. -/
theorem get_meas_conf_fields_witness :
    bmi090lg_get_meas_conf regmap
        (some (regfile_dev regmap 1 { power := 0, range := 0, bw := 0, odr := 0 }))
        { st := fun a => if a = 0x0F then 0xE4 else if a = 0x10 then 0x8B else 0, log := [] } =
      some (0,
        some { regfile_dev regmap 1 { power := 0, range := 0, bw := 0, odr := 0 } with gyro_cfg :=
          { power := 0, range := 0xE4, bw := (0x8B &&& 0x0F) % 256, odr := (0x8B &&& 0x0F) % 256 } },
        { st := fun a => if a = 0x0F then 0xE4 else if a = 0x10 then 0x8B else 0,
          log := [] ++ [BusEvent.read 0x8F 2] }) :=
  (get_meas_conf_fields regmap (regfile_dev regmap 1 { power := 0, range := 0, bw := 0, odr := 0 })
    { st := fun a => if a = 0x0F then 0xE4 else if a = 0x10 then 0x8B else 0, log := [] }
    _ _ _ 0xE4 0x8B _ rfl rfl rfl (by decide) (by decide) rfl).1

/-- A read-modify-write at shift 0 keeps the bits of the prior byte outside the
mask. -/
theorem outside_SET_BITS_POS_0 (b m v : Nat) (hb : b < 256) :
    andNot (u8 (BMI090L_SET_BITS_POS_0 b m v)) m = andNot b m := by
  apply Nat.eq_of_testBit_eq
  intro i
  simp only [testBit_andNot, u8, Nat.testBit_mod_two_pow _ 8, testBit_SET_BITS_POS_0,
    show (256 : Nat) = 2 ^ 8 from rfl]
  by_cases hi : i < 8
  · cases hm : m.testBit i <;> simp [hi]
  · have := testBit_byte_high b i hb (by omega)
    simp [hi, this]

/-- A read-modify-write at shift 0 puts the bits of the value inside the mask. -/
theorem inside_SET_BITS_POS_0 (b m v : Nat) (hv : v < 256) :
    u8 (BMI090L_SET_BITS_POS_0 b m v) &&& m = v &&& m := by
  apply Nat.eq_of_testBit_eq
  intro i
  simp only [Nat.testBit_and, u8, Nat.testBit_mod_two_pow _ 8, testBit_SET_BITS_POS_0,
    show (256 : Nat) = 2 ^ 8 from rfl]
  by_cases hi : i < 8
  · cases hm : m.testBit i <;> simp [hi]
  · have := testBit_byte_high v i hv (by omega)
    simp [hi, this]

/-- C19: on the register file, for every valid configuration and every prior byte
of the bandwidth register and of the range register, `bmi090lg_set_meas_conf`
returns BMI090L_OK and its writes are exactly two: to the bandwidth register a
byte that equals the prior byte outside BMI090L_GYRO_BW_MASK and the requested
odr inside it, then to the range register a byte that equals the prior byte
outside BMI090L_GYRO_RANGE_MASK and the requested range inside it; every
other register keeps its content.  Header facts used: the SPI direction bit is
bit 7, the two registers are different 7-bit addresses, the highest ODR and
range codes are bytes. -/
theorem set_meas_conf_writes_fields_only (K : Defs) (intf : Nat) (cfg : bmi090l_cfg)
    (w : World (Nat → Nat))
    (hodr : cfg.odr ≤ K.BMI090L_GYRO_BW_32_ODR_100_HZ)
    (hrange : cfg.range ≤ K.BMI090L_GYRO_RANGE_125_DPS)
    (hrdm : K.BMI090L_SPI_RD_MASK = 0x80) (hwrm : K.BMI090L_SPI_WR_MASK = 0x7F)
    (hR : K.BMI090L_GYRO_RANGE_REG < 128) (hB : K.BMI090L_GYRO_BANDWIDTH_REG < 128)
    (hne : K.BMI090L_GYRO_RANGE_REG ≠ K.BMI090L_GYRO_BANDWIDTH_REG)
    (ho8 : K.BMI090L_GYRO_BW_32_ODR_100_HZ < 256) (hr8 : K.BMI090L_GYRO_RANGE_125_DPS < 256) :
    ∃ bwb rgb st1,
      bmi090lg_set_meas_conf K (some (regfile_dev K intf cfg)) w =
        some (K.BMI090L_OK,
          { st := st1,
            log := w.log ++
              [BusEvent.read (rd_addr K (regfile_dev K intf cfg) K.BMI090L_GYRO_BANDWIDTH_REG) 1,
               BusEvent.write (wr_addr K (regfile_dev K intf cfg) K.BMI090L_GYRO_BANDWIDTH_REG) [bwb] 1,
               BusEvent.read (rd_addr K (regfile_dev K intf cfg) K.BMI090L_GYRO_RANGE_REG) 1,
               BusEvent.write (wr_addr K (regfile_dev K intf cfg) K.BMI090L_GYRO_RANGE_REG) [rgb] 1] }) ∧
      andNot bwb K.BMI090L_GYRO_BW_MASK =
        andNot (w.st K.BMI090L_GYRO_BANDWIDTH_REG % 256) K.BMI090L_GYRO_BW_MASK ∧
      bwb &&& K.BMI090L_GYRO_BW_MASK = cfg.odr &&& K.BMI090L_GYRO_BW_MASK ∧
      andNot rgb K.BMI090L_GYRO_RANGE_MASK =
        andNot (w.st K.BMI090L_GYRO_RANGE_REG % 256) K.BMI090L_GYRO_RANGE_MASK ∧
      rgb &&& K.BMI090L_GYRO_RANGE_MASK = cfg.range &&& K.BMI090L_GYRO_RANGE_MASK ∧
      st1 K.BMI090L_GYRO_BANDWIDTH_REG = bwb ∧
      st1 K.BMI090L_GYRO_RANGE_REG = rgb ∧
      (∀ a, a ≠ K.BMI090L_GYRO_BANDWIDTH_REG → a ≠ K.BMI090L_GYRO_RANGE_REG → st1 a = w.st a) := by
  have hb : ∀ n : Nat, n % 256 < 256 := fun n => Nat.mod_lt _ (by decide)
  refine ⟨_, _, _, set_meas_conf_regfile K intf cfg w hodr hrange hrdm hwrm hR hB hne,
    outside_SET_BITS_POS_0 _ _ _ (hb _), inside_SET_BITS_POS_0 _ _ _ (by omega),
    outside_SET_BITS_POS_0 _ _ _ (hb _), inside_SET_BITS_POS_0 _ _ _ (by omega), ?_, ?_, ?_⟩
  · rw [Function.update_noteq (Ne.symm hne), Function.update_same]
  · rw [Function.update_same]
  · intro a h1 h2
    rw [Function.update_noteq h2, Function.update_noteq h1]

/-- C19 exercised over SPI: ODR 0x03 and range 0x02 on a bandwidth register that
holds 0x85 and a range register that holds 0xF9. -/
theorem set_meas_conf_writes_fields_only_witness :
    ∃ bwb rgb st1,
      bmi090lg_set_meas_conf regmap
          (some (regfile_dev regmap 1 { power := 0, range := 0x02, bw := 0, odr := 0x03 }))
          { st := fun a => if a = 0x10 then 0x85 else if a = 0x0F then 0xF9 else 0, log := [] } =
        some (0,
          { st := st1,
            log := [] ++
              [BusEvent.read 0x90 1, BusEvent.write 0x10 [bwb] 1,
               BusEvent.read 0x8F 1, BusEvent.write 0x0F [rgb] 1] }) ∧
      andNot bwb 0x0F = andNot (0x85 % 256) 0x0F ∧ bwb &&& 0x0F = 0x03 &&& 0x0F ∧
      andNot rgb 0x07 = andNot (0xF9 % 256) 0x07 ∧ rgb &&& 0x07 = 0x02 &&& 0x07 := by
  obtain ⟨bwb, rgb, st1, h, h1, h2, h3, h4, _⟩ :=
    set_meas_conf_writes_fields_only regmap 1 { power := 0, range := 0x02, bw := 0, odr := 0x03 }
      { st := fun a => if a = 0x10 then 0x85 else if a = 0x0F then 0xF9 else 0, log := [] }
      (by decide) (by decide) rfl rfl (by decide) (by decide) (by decide) (by decide) (by decide)
  exact ⟨bwb, rgb, st1, h, h1, h2, h3, h4⟩

/-- C20: `bmi090lg_set_meas_conf` with a valid context and a valid configuration
accesses the bandwidth register before the range register and never writes the
old bandwidth byte back.  When the bandwidth read fails the call returns
BMI090L_E_COM_FAIL after that read alone; when the bandwidth write fails, after
that read and that write alone (the range register is neither read nor
written).  When the bandwidth write succeeded and the range read fails, the
call returns BMI090L_E_COM_FAIL with the bandwidth write as its only write;
when the range write fails, the bandwidth write is the only successful write
and the failed range write is the last transaction.  Header fact used:
BMI090L_E_COM_FAIL differs from BMI090L_OK. -/
theorem set_meas_conf_partial_apply (K : Defs) (d : bmi090l_dev σ) (w : World σ)
    (rd : bmi090l_read_fptr_t σ) (wr : bmi090l_write_fptr_t σ) (dl : bmi090l_delay_us_fptr_t σ)
    (hrd : d.read = some rd) (hwr : d.write = some wr) (hdl : d.delay_us = some dl)
    (hodr : d.gyro_cfg.odr ≤ K.BMI090L_GYRO_BW_32_ODR_100_HZ)
    (hrange : d.gyro_cfg.range ≤ K.BMI090L_GYRO_RANGE_125_DPS)
    (hcf : K.BMI090L_E_COM_FAIL ≠ K.BMI090L_OK) :
    (∀ s1 bytes1 st1,
      rd (rd_addr K d K.BMI090L_GYRO_BANDWIDTH_REG) 1 w.st = (s1, bytes1, st1) →
      s1 ≠ K.BMI090L_OK →
      bmi090lg_set_meas_conf K (some d) w =
        some (K.BMI090L_E_COM_FAIL,
          { st := st1,
            log := w.log ++ [BusEvent.read (rd_addr K d K.BMI090L_GYRO_BANDWIDTH_REG) 1] })) ∧
    (∀ bytes1 st1 s2 st2,
      rd (rd_addr K d K.BMI090L_GYRO_BANDWIDTH_REG) 1 w.st = (K.BMI090L_OK, bytes1, st1) →
      wr (wr_addr K d K.BMI090L_GYRO_BANDWIDTH_REG) [(u8 (BMI090L_SET_BITS_POS_0 ((buf_fill [0] bytes1).getD 0 0) K.BMI090L_GYRO_BW_MASK d.gyro_cfg.odr))] 1 st1 = (s2, st2) →
      s2 ≠ K.BMI090L_OK →
      bmi090lg_set_meas_conf K (some d) w =
        some (K.BMI090L_E_COM_FAIL,
          { st := st2,
            log := w.log ++
              [BusEvent.read (rd_addr K d K.BMI090L_GYRO_BANDWIDTH_REG) 1,
               BusEvent.write (wr_addr K d K.BMI090L_GYRO_BANDWIDTH_REG) [(u8 (BMI090L_SET_BITS_POS_0 ((buf_fill [0] bytes1).getD 0 0) K.BMI090L_GYRO_BW_MASK d.gyro_cfg.odr))] 1] })) ∧
    (∀ bytes1 st1 st2 s3 bytes3 st3,
      rd (rd_addr K d K.BMI090L_GYRO_BANDWIDTH_REG) 1 w.st = (K.BMI090L_OK, bytes1, st1) →
      wr (wr_addr K d K.BMI090L_GYRO_BANDWIDTH_REG) [(u8 (BMI090L_SET_BITS_POS_0 ((buf_fill [0] bytes1).getD 0 0) K.BMI090L_GYRO_BW_MASK d.gyro_cfg.odr))] 1 st1 = (K.BMI090L_OK, st2) →
      rd (rd_addr K d K.BMI090L_GYRO_RANGE_REG) 1 st2 = (s3, bytes3, st3) →
      s3 ≠ K.BMI090L_OK →
      bmi090lg_set_meas_conf K (some d) w =
        some (K.BMI090L_E_COM_FAIL,
          { st := st3,
            log := w.log ++
              [BusEvent.read (rd_addr K d K.BMI090L_GYRO_BANDWIDTH_REG) 1,
               BusEvent.write (wr_addr K d K.BMI090L_GYRO_BANDWIDTH_REG) [(u8 (BMI090L_SET_BITS_POS_0 ((buf_fill [0] bytes1).getD 0 0) K.BMI090L_GYRO_BW_MASK d.gyro_cfg.odr))] 1,
               BusEvent.read (rd_addr K d K.BMI090L_GYRO_RANGE_REG) 1] })) ∧
    (∀ bytes1 st1 st2 bytes3 st3 s4 st4,
      rd (rd_addr K d K.BMI090L_GYRO_BANDWIDTH_REG) 1 w.st = (K.BMI090L_OK, bytes1, st1) →
      wr (wr_addr K d K.BMI090L_GYRO_BANDWIDTH_REG) [(u8 (BMI090L_SET_BITS_POS_0 ((buf_fill [0] bytes1).getD 0 0) K.BMI090L_GYRO_BW_MASK d.gyro_cfg.odr))] 1 st1 = (K.BMI090L_OK, st2) →
      rd (rd_addr K d K.BMI090L_GYRO_RANGE_REG) 1 st2 = (K.BMI090L_OK, bytes3, st3) →
      wr (wr_addr K d K.BMI090L_GYRO_RANGE_REG)
          [(u8 (BMI090L_SET_BITS_POS_0 ((buf_fill [(u8 (BMI090L_SET_BITS_POS_0 ((buf_fill [0] bytes1).getD 0 0) K.BMI090L_GYRO_BW_MASK d.gyro_cfg.odr))] bytes3).getD 0 0)
            K.BMI090L_GYRO_RANGE_MASK d.gyro_cfg.range))] 1 st3 = (s4, st4) →
      s4 ≠ K.BMI090L_OK →
      bmi090lg_set_meas_conf K (some d) w =
        some (K.BMI090L_E_COM_FAIL,
          { st := st4,
            log := w.log ++
              [BusEvent.read (rd_addr K d K.BMI090L_GYRO_BANDWIDTH_REG) 1,
               BusEvent.write (wr_addr K d K.BMI090L_GYRO_BANDWIDTH_REG) [(u8 (BMI090L_SET_BITS_POS_0 ((buf_fill [0] bytes1).getD 0 0) K.BMI090L_GYRO_BW_MASK d.gyro_cfg.odr))] 1,
               BusEvent.read (rd_addr K d K.BMI090L_GYRO_RANGE_REG) 1,
               BusEvent.write (wr_addr K d K.BMI090L_GYRO_RANGE_REG)
                 [(u8 (BMI090L_SET_BITS_POS_0 ((buf_fill [(u8 (BMI090L_SET_BITS_POS_0 ((buf_fill [0] bytes1).getD 0 0) K.BMI090L_GYRO_BW_MASK d.gyro_cfg.odr))] bytes3).getD 0 0)
            K.BMI090L_GYRO_RANGE_MASK d.gyro_cfg.range))] 1] })) := by
  have hv : (!decide (d.gyro_cfg.odr > K.BMI090L_GYRO_BW_32_ODR_100_HZ) &&
      !decide (d.gyro_cfg.range > K.BMI090L_GYRO_RANGE_125_DPS)) = true := by
    simp [Nat.not_lt.mpr hodr, Nat.not_lt.mpr hrange]
  refine ⟨?_, ?_, ?_, ?_⟩
  · intro s1 bytes1 st1 h1 hs1
    simp only [bmi090lg_set_meas_conf, null_ptr_check_ok K d rd wr dl hrd hwr hdl, hv,
      get_regs_of_read K d w rd _ 1 [0] bytes1 s1 st1 hrd h1]
    simp [hs1, hcf]
  · intro bytes1 st1 s2 st2 h1 h2 hs2
    have e2 := set_regs_of_write K d
      { st := st1, log := w.log ++ [BusEvent.read (rd_addr K d K.BMI090L_GYRO_BANDWIDTH_REG) 1] }
      wr _ 1 _ s2 st2 hwr h2
    simp only [bmi090lg_set_meas_conf, null_ptr_check_ok K d rd wr dl hrd hwr hdl, hv,
      get_regs_of_read K d w rd _ 1 [0] bytes1 _ st1 hrd h1, ne_eq, not_true_eq_false,
      if_false, if_true, e2]
    simp [hs2, hcf]
  · intro bytes1 st1 st2 s3 bytes3 st3 h1 h2 h3 hs3
    have e2 := set_regs_of_write K d
      { st := st1, log := w.log ++ [BusEvent.read (rd_addr K d K.BMI090L_GYRO_BANDWIDTH_REG) 1] }
      wr _ 1 _ _ st2 hwr h2
    have e3 := fun (lg : List BusEvent) (buf : List Nat) =>
      get_regs_of_read K d { st := st2, log := lg } rd _ 1 buf bytes3 s3 st3 hrd h3
    simp only [bmi090lg_set_meas_conf, null_ptr_check_ok K d rd wr dl hrd hwr hdl, hv,
      get_regs_of_read K d w rd _ 1 [0] bytes1 _ st1 hrd h1, ne_eq, not_true_eq_false,
      if_false, if_true, e2, e3]
    simp [hs3, hcf]
  · intro bytes1 st1 st2 bytes3 st3 s4 st4 h1 h2 h3 h4 hs4
    have e2 := set_regs_of_write K d
      { st := st1, log := w.log ++ [BusEvent.read (rd_addr K d K.BMI090L_GYRO_BANDWIDTH_REG) 1] }
      wr _ 1 _ _ st2 hwr h2
    have e3 := fun (lg : List BusEvent) (buf : List Nat) =>
      get_regs_of_read K d { st := st2, log := lg } rd _ 1 buf bytes3 _ st3 hrd h3
    have e4 := fun (lg : List BusEvent) =>
      set_regs_of_write K d { st := st3, log := lg } wr _ 1 _ s4 st4 hwr h4
    simp only [bmi090lg_set_meas_conf, null_ptr_check_ok K d rd wr dl hrd hwr hdl, hv,
      get_regs_of_read K d w rd _ 1 [0] bytes1 _ st1 hrd h1, ne_eq, not_true_eq_false,
      if_false, if_true, e2, e3, e4]
    simp [hs4, hcf]

/-- C20 exercised with a transport that counts its transactions and fails the
third one, the read of the range register: the bandwidth register has been
written with the new ODR field (0x85 becomes 0x83) and stays so. -/
theorem set_meas_conf_partial_apply_witness :
    bmi090lg_set_meas_conf regmap
        (some { intf := 0, gyro_chip_id := 0,
                gyro_cfg := { power := 0, range := 0x02, bw := 0, odr := 0x03 },
                read := some (fun _ _ (n : Nat) => (if n = 2 then (-1 : Int) else 0, [0x85], n + 1)),
                write := some (fun _ _ _ n => ((0 : Int), n + 1)),
                delay_us := some (fun _ n => n) })
        { st := 0, log := [] } =
      some (-2,
        { st := 3,
          log := [] ++ [BusEvent.read 0x10 1, BusEvent.write 0x10 [0x83] 1, BusEvent.read 0x0F 1] }) :=
  (set_meas_conf_partial_apply regmap
    { intf := 0, gyro_chip_id := 0,
      gyro_cfg := { power := 0, range := 0x02, bw := 0, odr := 0x03 },
      read := some (fun _ _ (n : Nat) => (if n = 2 then (-1 : Int) else 0, [0x85], n + 1)),
      write := some (fun _ _ _ n => ((0 : Int), n + 1)),
      delay_us := some (fun _ n => n) }
    { st := 0, log := [] } _ _ _ rfl rfl rfl (by decide) (by decide) (by decide)).2.2.1
    [0x85] 1 2 (-1) [0x85] 3 rfl rfl rfl (by decide)

/-! ### Self-test -/

/-- A one-byte `get_regs` on the scripted transport. -/
theorem get_regs_script (K : Defs) (intf : Nat) (seq : Nat → Nat) (reg x n : Nat)
    (log : List BusEvent) :
    get_regs K reg [x] 1 (script_dev K intf seq) { st := n, log := log } =
      some (K.BMI090L_OK, [seq n % 256],
        { st := n + 1, log := log ++ [BusEvent.read (rd_addr K (script_dev K intf seq) reg) 1] }) := by
  rw [get_regs_of_read K (script_dev K intf seq) _ (script_read K seq) reg 1 [x] _ _ _ rfl rfl]
  simp [buf_fill]

/-- A one-byte `set_regs` on the scripted transport. -/
theorem set_regs_script (K : Defs) (intf : Nat) (seq : Nat → Nat) (reg b n : Nat)
    (log : List BusEvent) :
    set_regs K reg [b] 1 (script_dev K intf seq) { st := n, log := log } =
      some (K.BMI090L_OK,
        { st := n, log := log ++ [BusEvent.write (wr_addr K (script_dev K intf seq) reg) [b] 1] }) := by
  rw [set_regs_of_write K (script_dev K intf seq) _ (script_write K) reg 1 [b] _ _ rfl rfl]
  simp

/-- The poll loop on the scripted transport: when the next `j` reads deliver
bytes whose ready field is 0 and the read after them a byte whose ready field
is not 0, the loop makes exactly `j + 1` reads, given fuel for them. -/
theorem selftest_poll_script (K : Defs) (intf : Nat) (seq : Nat → Nat) (j : Nat) :
    ∀ (n fuel data : Nat) (log : List BusEvent),
      (∀ i, i < j → selftest_rdy K (seq (n + i)) = 0) →
      selftest_rdy K (seq (n + j)) ≠ 0 →
      j < fuel →
      selftest_poll K (script_dev K intf seq) fuel data { st := n, log := log } =
        some (K.BMI090L_OK, selftest_rdy K (seq (n + j)),
          { st := n + j + 1,
            log := log ++ List.replicate (j + 1)
              (BusEvent.read (rd_addr K (script_dev K intf seq) K.BMI090L_GYRO_SELF_TEST_REG) 1) }) := by
  induction j with
  | zero =>
    intro n fuel data log _ hr hf
    obtain ⟨f, rfl⟩ : ∃ f, fuel = f + 1 := ⟨fuel - 1, by omega⟩
    have hr2 : selftest_rdy K (seq n) ≠ 0 := by simpa using hr
    simp only [selftest_poll, get_regs_script, selftest_rdy] at hr2 ⊢
    simp [hr2]
  | succ j ih =>
    intro n fuel data log hnr hr hf
    obtain ⟨f, rfl⟩ : ∃ f, fuel = f + 1 := ⟨fuel - 1, by omega⟩
    have h0 : selftest_rdy K (seq n) = 0 := by simpa using hnr 0 (by omega)
    have hstep := ih (n + 1) f 0
      (log ++ [BusEvent.read (rd_addr K (script_dev K intf seq) K.BMI090L_GYRO_SELF_TEST_REG) 1])
      (fun i hi => by have := hnr (i + 1) (by omega); rwa [show n + (i + 1) = n + 1 + i by omega] at this)
      (by rwa [show n + (j + 1) = n + 1 + j by omega] at hr) (by omega)
    simp only [selftest_poll, get_regs_script]
    simp only [selftest_rdy] at h0
    simp only [List.getD_cons_zero, h0, ne_eq, not_true_eq_false, if_false, if_true, hstep]
    simp [List.replicate_succ, show n + 1 + j = n + (j + 1) by omega]

/-- C16 as stated fails for k = 0: on the scripted transport with the register
map `regmap`, when every read of the self-test register delivers a ready byte
with the result bit clear (0x02), the poll loop still reads once (it runs its
body before it tests the flag), so the call polls once, not zero times: three
reads in all (enable, one poll, evaluation). -/
theorem selftest_ready_at_once_polls_once :
    (bmi090lg_perform_selftest regmap 5 (some (script_dev regmap 0 (fun _ => 0x02)))
        { st := 0, log := [] }).map (fun r => (r.1, r.2.log)) =
      some (0,
        [BusEvent.read 0x3C 1, BusEvent.write 0x3C [0x03] 1, BusEvent.read 0x3C 1,
         BusEvent.read 0x3C 1, BusEvent.write 0x14 [0xB6] 1, BusEvent.delay 30000]) ∧
    (selftest_poll regmap (script_dev regmap 0 (fun _ => 0x02)) 5 0
        { st := 1, log := [] }).map (fun r => (r.1, count_reads r.2.2.log)) = some (0, 1) := by
  decide

/-- C16, amended: on the scripted transport, when the successive reads of the
self-test register deliver k >= 1 bytes whose ready field is 0 and from then on
a byte `rp` whose ready field is set and whose result field is 0 (pass), and
the writes succeed, `bmi090lg_perform_selftest` terminates (any fuel of at
least k suffices), polls exactly k times between the write of the enable bit and
the evaluation read, and returns 0 (pass).  The first of the k bytes is taken
by the read of the enable step.  Header facts used: BMI090L_ENABLE and the
reset delay are bytes. -/
theorem selftest_polls_k_times (K : Defs) (intf : Nat) (seq : Nat → Nat) (k fuel rp : Nat)
    (log : List BusEvent)
    (hk : 1 ≤ k) (hfuel : k ≤ fuel)
    (hnr : ∀ i, i < k → selftest_rdy K (seq i) = 0)
    (hrp : ∀ i, k ≤ i → seq i = rp)
    (hready : selftest_rdy K rp ≠ 0) (hpass : selftest_result K rp = 0)
    (hen : K.BMI090L_ENABLE < 256) (hdelay : K.BMI090L_GYRO_SOFTRESET_DELAY < 256) :
    bmi090lg_perform_selftest K fuel (some (script_dev K intf seq)) { st := 0, log := log } =
      some (0,
        { st := k + 2,
          log := log ++
            [BusEvent.read (rd_addr K (script_dev K intf seq) K.BMI090L_GYRO_SELF_TEST_REG) 1,
             BusEvent.write (wr_addr K (script_dev K intf seq) K.BMI090L_GYRO_SELF_TEST_REG)
               [u8 (BMI090L_SET_BITS_POS_0 (seq 0 % 256) K.BMI090L_GYRO_SELF_TEST_EN_MASK
                 K.BMI090L_ENABLE)] 1] ++
            List.replicate k
              (BusEvent.read (rd_addr K (script_dev K intf seq) K.BMI090L_GYRO_SELF_TEST_REG) 1) ++
            [BusEvent.read (rd_addr K (script_dev K intf seq) K.BMI090L_GYRO_SELF_TEST_REG) 1,
             BusEvent.write (wr_addr K (script_dev K intf seq) K.BMI090L_GYRO_SOFTRESET_REG)
               [u8 K.BMI090L_SOFT_RESET_CMD] 1,
             BusEvent.delay (K.BMI090L_GYRO_SOFTRESET_DELAY * 1000)] }) := by
  obtain ⟨j, rfl⟩ : ∃ j, k = j + 1 := ⟨k - 1, by omega⟩
  have hu : u32 (K.BMI090L_GYRO_SOFTRESET_DELAY * 1000) = K.BMI090L_GYRO_SOFTRESET_DELAY * 1000 := by
    unfold u32; omega
  have hu8 : u8 K.BMI090L_ENABLE = K.BMI090L_ENABLE := Nat.mod_eq_of_lt hen
  have hpoll := selftest_poll_script K intf seq j 1 fuel 0
    (log ++
      [BusEvent.read (rd_addr K (script_dev K intf seq) K.BMI090L_GYRO_SELF_TEST_REG) 1] ++
      [BusEvent.write (wr_addr K (script_dev K intf seq) K.BMI090L_GYRO_SELF_TEST_REG)
         [u8 (BMI090L_SET_BITS_POS_0 (seq 0 % 256) K.BMI090L_GYRO_SELF_TEST_EN_MASK
           K.BMI090L_ENABLE)] 1])
    (fun i hi => by rw [Nat.add_comm]; exact hnr (i + 1) (by omega))
    (by rw [hrp (1 + j) (by omega)]; exact hready) (by omega)
  rw [hrp (1 + j) (by omega)] at hpoll
  have hres : u8 (BMI090L_GET_BITS (rp % 256) K.BMI090L_GYRO_SELF_TEST_RESULT_MASK
      K.BMI090L_GYRO_SELF_TEST_RESULT_POS) = 0 := hpass
  simp only [bmi090lg_perform_selftest, set_gyro_selftest, bmi090lg_soft_reset, call_delay_us,
    null_ptr_check_ok K (script_dev K intf seq) _ _ _ rfl rfl rfl, hu8, true_or, if_true,
    get_regs_script, set_regs_script, List.getD_cons_zero, hpoll, hu,
    hrp (1 + j + 1) (by omega), hres]
  simp [script_dev, script_delay, toInt8]
  omega

/-- C16 amended, exercised on the sequence of the specification: not-ready,
not-ready, then ready with the result bit clear (k = 2): two polls. -/
theorem selftest_polls_k_times_witness :
    bmi090lg_perform_selftest regmap 2
        (some (script_dev regmap 0 (fun i => if i < 2 then 0x00 else 0x02)))
        { st := 0, log := [] } =
      some (0,
        { st := 2 + 2,
          log := [] ++ [BusEvent.read 0x3C 1, BusEvent.write 0x3C [0x01] 1] ++
            List.replicate 2 (BusEvent.read 0x3C 1) ++
            [BusEvent.read 0x3C 1, BusEvent.write 0x14 [0xB6] 1, BusEvent.delay (30 * 1000)] }) :=
  selftest_polls_k_times regmap 0 (fun i => if i < 2 then 0x00 else 0x02) 2 2 0x02 []
    (by decide) (by decide) (by decide)
    (fun i hi => by simp [Nat.not_lt.mpr hi]) (by decide) (by decide) (by decide) (by decide)

/-- C17: with a valid context, whenever the enable step, the poll loop and the
evaluation read of `bmi090lg_perform_selftest` have all succeeded, the next
transaction is one write of BMI090L_SOFT_RESET_CMD to the soft-reset register,
whatever byte the evaluation read left in the buffer (so for both values of
the result bit); it is the only write after the evaluation read, followed by
the reset delay when it succeeds.  Header fact used: BMI090L_E_COM_FAIL differs
from BMI090L_OK. -/
theorem selftest_always_resets (K : Defs) (d : bmi090l_dev σ) (w w1 w2 w3 : World σ)
    (fuel data : Nat) (buf : List Nat)
    (rd : bmi090l_read_fptr_t σ) (wr : bmi090l_write_fptr_t σ) (dl : bmi090l_delay_us_fptr_t σ)
    (hrd : d.read = some rd) (hwr : d.write = some wr) (hdl : d.delay_us = some dl)
    (henable : set_gyro_selftest K (u8 K.BMI090L_ENABLE) d w = some (K.BMI090L_OK, w1))
    (hpoll : selftest_poll K d fuel 0 w1 = some (K.BMI090L_OK, data, w2))
    (heval : get_regs K K.BMI090L_GYRO_SELF_TEST_REG [data] 1 d w2 = some (K.BMI090L_OK, buf, w3))
    (hcf : K.BMI090L_E_COM_FAIL ≠ K.BMI090L_OK) :
    bmi090lg_perform_selftest K fuel (some d) w =
      (if (wr (wr_addr K d K.BMI090L_GYRO_SOFTRESET_REG) [u8 K.BMI090L_SOFT_RESET_CMD] 1 w3.st).1 =
          K.BMI090L_OK then
        some (toInt8 (u8 (BMI090L_GET_BITS (buf.getD 0 0) K.BMI090L_GYRO_SELF_TEST_RESULT_MASK
            K.BMI090L_GYRO_SELF_TEST_RESULT_POS)),
          { st := dl (u32 (K.BMI090L_GYRO_SOFTRESET_DELAY * 1000))
              (wr (wr_addr K d K.BMI090L_GYRO_SOFTRESET_REG) [u8 K.BMI090L_SOFT_RESET_CMD] 1 w3.st).2,
            log := w3.log ++
              [BusEvent.write (wr_addr K d K.BMI090L_GYRO_SOFTRESET_REG) [u8 K.BMI090L_SOFT_RESET_CMD] 1,
               BusEvent.delay (u32 (K.BMI090L_GYRO_SOFTRESET_DELAY * 1000))] })
      else
        some (K.BMI090L_E_COM_FAIL,
          { st := (wr (wr_addr K d K.BMI090L_GYRO_SOFTRESET_REG) [u8 K.BMI090L_SOFT_RESET_CMD] 1 w3.st).2,
            log := w3.log ++
              [BusEvent.write (wr_addr K d K.BMI090L_GYRO_SOFTRESET_REG)
                [u8 K.BMI090L_SOFT_RESET_CMD] 1] })) := by
  have hs := set_regs_of_write K d w3 wr K.BMI090L_GYRO_SOFTRESET_REG 1
    [u8 K.BMI090L_SOFT_RESET_CMD] _ _ hwr rfl
  simp only [bmi090lg_perform_selftest, bmi090lg_soft_reset, call_delay_us,
    null_ptr_check_ok K d rd wr dl hrd hwr hdl, henable, hpoll, heval, hs, hdl, if_true]
  by_cases h : (wr (wr_addr K d K.BMI090L_GYRO_SOFTRESET_REG) [u8 K.BMI090L_SOFT_RESET_CMD] 1 w3.st).1 =
      K.BMI090L_OK
  · simp [h]
  · simp [h, hcf]

/-- C17 exercised on the scripted transport with a ready byte whose result bit
is set (0x06): the reset is written and the call returns 1. -/
theorem selftest_always_resets_witness :
    bmi090lg_perform_selftest regmap 3 (some (script_dev regmap 0 (fun _ => 0x06)))
        { st := 0, log := [] } =
      some (1,
        { st := 3,
          log := [BusEvent.read 0x3C 1, BusEvent.write 0x3C [0x07] 1, BusEvent.read 0x3C 1,
                  BusEvent.read 0x3C 1] ++
            [BusEvent.write 0x14 [0xB6] 1, BusEvent.delay 30000] }) :=
  selftest_always_resets regmap (script_dev regmap 0 (fun _ => 0x06))
    { st := 0, log := [] }
    { st := 1, log := [BusEvent.read 0x3C 1, BusEvent.write 0x3C [0x07] 1] }
    { st := 2, log := [BusEvent.read 0x3C 1, BusEvent.write 0x3C [0x07] 1, BusEvent.read 0x3C 1] }
    { st := 3, log := [BusEvent.read 0x3C 1, BusEvent.write 0x3C [0x07] 1, BusEvent.read 0x3C 1,
                       BusEvent.read 0x3C 1] }
    3 1 [0x06] _ _ _ rfl rfl rfl rfl rfl rfl (by decide)

/-! ### Self-test: failure paths and outcome -/

/-- A `get_regs` call appends exactly one read event to the log. -/
theorem get_regs_log (K : Defs) (d : bmi090l_dev σ) (w w1 : World σ) (reg len : Nat)
    (buf buf1 : List Nat) (r : Int) (h : get_regs K reg buf len d w = some (r, buf1, w1)) :
    w1.log = w.log ++ [BusEvent.read (rd_addr K d reg) len] := by
  unfold get_regs at h
  cases hr : d.read with
  | none => simp [hr] at h
  | some rd =>
    simp only [hr, Option.some.injEq, Prod.mk.injEq] at h
    rw [← h.2.2]
    rfl

/-- The status of a `get_regs` call is BMI090L_OK or BMI090L_E_COM_FAIL. -/
theorem get_regs_status (K : Defs) (d : bmi090l_dev σ) (w w1 : World σ) (reg len : Nat)
    (buf buf1 : List Nat) (r : Int) (h : get_regs K reg buf len d w = some (r, buf1, w1)) :
    r = K.BMI090L_OK ∨ r = K.BMI090L_E_COM_FAIL := by
  cases hr : d.read with
  | none => simp [get_regs, hr] at h
  | some rd =>
    rw [get_regs_of_read K d w rd reg len buf _ _ _ hr rfl] at h
    simp only [Option.some.injEq, Prod.mk.injEq] at h
    rw [← h.1]
    by_cases hs : (rd (rd_addr K d reg) len w.st).1 = K.BMI090L_OK
    · simp [hs]
    · simp [hs]

/-- The status of a `set_regs` call is BMI090L_OK or BMI090L_E_COM_FAIL. -/
theorem set_regs_status (K : Defs) (d : bmi090l_dev σ) (w w1 : World σ) (reg len : Nat)
    (data : List Nat) (r : Int) (h : set_regs K reg data len d w = some (r, w1)) :
    r = K.BMI090L_OK ∨ r = K.BMI090L_E_COM_FAIL := by
  cases hr : d.write with
  | none => simp [set_regs, hr] at h
  | some wr =>
    rw [set_regs_of_write K d w wr reg len data _ _ hr rfl] at h
    simp only [Option.some.injEq, Prod.mk.injEq] at h
    rw [← h.1]
    by_cases hs : (wr (wr_addr K d reg) data len w.st).1 = K.BMI090L_OK
    · simp [hs]
    · simp [hs]

/-- The poll loop along a chain of worlds: when the first `j` reads of the
self-test register succeed with the ready field 0 and the next read fails, the
loop returns that failure in the world right after the failing read, having
made `j + 1` reads. -/
theorem selftest_poll_fail_chain (K : Defs) (d : bmi090l_dev σ) (bufe : List Nat) (w2 : World σ)
    (hcf : K.BMI090L_E_COM_FAIL ≠ K.BMI090L_OK) (j : Nat) :
    ∀ (fuel : Nat) (ws : Nat → World σ),
      (∀ i, i < j → ∃ buf, get_regs K K.BMI090L_GYRO_SELF_TEST_REG [0] 1 d (ws i) =
          some (K.BMI090L_OK, buf, ws (i + 1)) ∧
        u8 (BMI090L_GET_BITS (buf.getD 0 0) K.BMI090L_GYRO_SELF_TEST_RDY_MASK
          K.BMI090L_GYRO_SELF_TEST_RDY_POS) = 0) →
      get_regs K K.BMI090L_GYRO_SELF_TEST_REG [0] 1 d (ws j) =
        some (K.BMI090L_E_COM_FAIL, bufe, w2) →
      j < fuel →
      selftest_poll K d fuel 0 (ws 0) = some (K.BMI090L_E_COM_FAIL, bufe.getD 0 0, w2) ∧
        w2.log = (ws 0).log ++ List.replicate (j + 1)
          (BusEvent.read (rd_addr K d K.BMI090L_GYRO_SELF_TEST_REG) 1) := by
  induction j with
  | zero =>
    intro fuel ws _ hfail hf
    obtain ⟨f, rfl⟩ : ∃ f, fuel = f + 1 := ⟨fuel - 1, by omega⟩
    refine ⟨?_, ?_⟩
    · simp [selftest_poll, hfail, hcf]
    · simpa using get_regs_log K d _ _ _ _ _ _ _ hfail
  | succ j ih =>
    intro fuel ws hnr hfail hf
    obtain ⟨f, rfl⟩ : ∃ f, fuel = f + 1 := ⟨fuel - 1, by omega⟩
    obtain ⟨buf, hread, hz⟩ := hnr 0 (by omega)
    have hstep := ih f (fun i => ws (i + 1)) (fun i hi => hnr (i + 1) (by omega)) hfail (by omega)
    have hlog := get_regs_log K d _ _ _ _ _ _ _ hread
    simp only [Nat.zero_add] at hread hlog hstep
    refine ⟨?_, ?_⟩
    · simp only [selftest_poll, hread, if_true, hz, ne_eq, not_true_eq_false, if_false]
      exact hstep.1
    · rw [hstep.2, hlog, List.append_assoc]
      simp [List.replicate_succ]

/-- C21: with a valid context, after a successful enable step, when the first
`j` poll reads of the self-test register succeed with the ready field 0 and the
next poll read fails, `bmi090lg_perform_selftest` returns BMI090L_E_COM_FAIL in
the world left by that failing read: the log is the log of the enable step
followed by `j + 1` reads of the self-test register and nothing else, so the
failing read is not retried and no evaluation read, no soft-reset write and no
delay follow it.  Header fact used: BMI090L_E_COM_FAIL differs from
BMI090L_OK. -/
theorem selftest_poll_read_failure_aborts (K : Defs) (d : bmi090l_dev σ) (w w2 : World σ)
    (ws : Nat → World σ) (fuel j : Nat) (bufe : List Nat)
    (rd : bmi090l_read_fptr_t σ) (wr : bmi090l_write_fptr_t σ) (dl : bmi090l_delay_us_fptr_t σ)
    (hrd : d.read = some rd) (hwr : d.write = some wr) (hdl : d.delay_us = some dl)
    (henable : set_gyro_selftest K (u8 K.BMI090L_ENABLE) d w = some (K.BMI090L_OK, ws 0))
    (hnr : ∀ i, i < j → ∃ buf, get_regs K K.BMI090L_GYRO_SELF_TEST_REG [0] 1 d (ws i) =
        some (K.BMI090L_OK, buf, ws (i + 1)) ∧
      u8 (BMI090L_GET_BITS (buf.getD 0 0) K.BMI090L_GYRO_SELF_TEST_RDY_MASK
        K.BMI090L_GYRO_SELF_TEST_RDY_POS) = 0)
    (hfail : get_regs K K.BMI090L_GYRO_SELF_TEST_REG [0] 1 d (ws j) =
      some (K.BMI090L_E_COM_FAIL, bufe, w2))
    (hfuel : j < fuel)
    (hcf : K.BMI090L_E_COM_FAIL ≠ K.BMI090L_OK) :
    bmi090lg_perform_selftest K fuel (some d) w = some (K.BMI090L_E_COM_FAIL, w2) ∧
      w2.log = (ws 0).log ++ List.replicate (j + 1)
        (BusEvent.read (rd_addr K d K.BMI090L_GYRO_SELF_TEST_REG) 1) := by
  have hp := selftest_poll_fail_chain K d bufe w2 hcf j fuel ws hnr hfail hfuel
  refine ⟨?_, hp.2⟩
  simp [bmi090lg_perform_selftest, null_ptr_check_ok K d rd wr dl hrd hwr hdl, henable, hp.1, hcf]

/-- C21 exercised on the scripted transport with the register map `regmap`
whose read number 2 fails: the enable step reads and writes, the first poll
read delivers a byte that is not ready, the second poll read fails; the call
returns BMI090L_E_COM_FAIL after four transactions, none of them a soft-reset
write or a delay. -/
theorem selftest_poll_read_failure_aborts_witness :
    bmi090lg_perform_selftest regmap 5 (some (faulty_dev regmap 0 (fun _ => 0) 2 (-1)))
        { st := 0, log := [] } =
      some (-2, { st := 3, log := [BusEvent.read 0x3C 1, BusEvent.write 0x3C [0x01] 1,
        BusEvent.read 0x3C 1, BusEvent.read 0x3C 1] }) ∧
    ({ st := 3, log := [BusEvent.read 0x3C 1, BusEvent.write 0x3C [0x01] 1,
        BusEvent.read 0x3C 1, BusEvent.read 0x3C 1] } : World Nat).log =
      [BusEvent.read 0x3C 1, BusEvent.write 0x3C [0x01] 1] ++
        List.replicate (1 + 1) (BusEvent.read 0x3C 1) :=
  selftest_poll_read_failure_aborts regmap (faulty_dev regmap 0 (fun _ => 0) 2 (-1))
    { st := 0, log := [] }
    { st := 3, log := [BusEvent.read 0x3C 1, BusEvent.write 0x3C [0x01] 1,
        BusEvent.read 0x3C 1, BusEvent.read 0x3C 1] }
    (fun i => { st := 1 + i, log := [BusEvent.read 0x3C 1, BusEvent.write 0x3C [0x01] 1] ++
        List.replicate i (BusEvent.read 0x3C 1) })
    5 1 [0] _ _ _ rfl rfl rfl rfl
    (fun i hi => by
      obtain rfl : i = 0 := by omega
      exact ⟨[0], rfl, rfl⟩)
    rfl (by decide) (by decide)

/-- The status of `set_gyro_selftest` on a valid request is BMI090L_OK or
BMI090L_E_COM_FAIL. -/
theorem set_gyro_selftest_status (K : Defs) (d : bmi090l_dev σ) (w w1 : World σ) (selftest : Nat)
    (r : Int) (hst : selftest = K.BMI090L_ENABLE ∨ selftest = K.BMI090L_DISABLE)
    (h : set_gyro_selftest K selftest d w = some (r, w1)) :
    r = K.BMI090L_OK ∨ r = K.BMI090L_E_COM_FAIL := by
  simp only [set_gyro_selftest, hst, if_true] at h
  cases h1 : get_regs K K.BMI090L_GYRO_SELF_TEST_REG [0] 1 d w with
  | none => simp [h1] at h
  | some p1 =>
    obtain ⟨r1, buf1, w0⟩ := p1
    simp only [h1] at h
    by_cases e1 : r1 = K.BMI090L_OK
    · simp only [e1, if_true] at h
      exact set_regs_status K d _ _ _ _ _ _ h
    · simp only [e1, if_false, Option.some.injEq, Prod.mk.injEq] at h
      rcases get_regs_status K d _ _ _ _ _ _ _ h1 with h2 | h2
      · exact absurd h2 e1
      · exact Or.inr (h.1 ▸ h2)

/-- The status of the poll loop is BMI090L_OK or BMI090L_E_COM_FAIL. -/
theorem selftest_poll_status (K : Defs) (d : bmi090l_dev σ) :
    ∀ (fuel data : Nat) (w w1 : World σ) (r : Int) (data1 : Nat),
      selftest_poll K d fuel data w = some (r, data1, w1) →
      r = K.BMI090L_OK ∨ r = K.BMI090L_E_COM_FAIL := by
  intro fuel
  induction fuel with
  | zero => intro data w w1 r data1 h; simp [selftest_poll] at h
  | succ f ih =>
    intro data w w1 r data1 h
    simp only [selftest_poll] at h
    cases h1 : get_regs K K.BMI090L_GYRO_SELF_TEST_REG [data] 1 d w with
    | none => simp [h1] at h
    | some p1 =>
      obtain ⟨r1, buf1, w0⟩ := p1
      simp only [h1] at h
      by_cases e1 : r1 = K.BMI090L_OK
      · simp only [e1, if_true] at h
        by_cases e2 : u8 (BMI090L_GET_BITS (buf1.getD 0 0) K.BMI090L_GYRO_SELF_TEST_RDY_MASK
            K.BMI090L_GYRO_SELF_TEST_RDY_POS) = 0
        · simp only [e2, ne_eq, not_true_eq_false, if_false] at h
          exact ih _ _ _ _ _ h
        · simp only [ne_eq, e2, not_false_eq_true, if_true, Option.some.injEq, Prod.mk.injEq] at h
          exact Or.inl h.1.symm
      · simp only [e1, if_false, Option.some.injEq, Prod.mk.injEq] at h
        rcases get_regs_status K d _ _ _ _ _ _ _ h1 with h2 | h2
        · exact absurd h2 e1
        · exact Or.inr (h.1 ▸ h2)

/-- C22: with a valid context, (1) once the enable step, the poll loop and the
evaluation read of `bmi090lg_perform_selftest` have succeeded, the call writes
the soft-reset command; when that write succeeds the call issues one delay of
BMI090L_GYRO_SOFTRESET_DELAY * 1000 microseconds after it and returns the
outcome extracted from the result field of the evaluation byte, and when that
write fails the call returns BMI090L_E_COM_FAIL with the write as its last
transaction, so without a delay; (2) conversely every return of the call other
than BMI090L_E_COM_FAIL comes from a world whose last two events are the
successful soft-reset write and that one delay.  Header facts used:
BMI090L_E_COM_FAIL differs from BMI090L_OK, BMI090L_ENABLE is a byte, and the
delay in microseconds fits 32 bits. -/
theorem selftest_outcome_only_after_reset (K : Defs) (d : bmi090l_dev σ) (w : World σ)
    (fuel : Nat)
    (rd : bmi090l_read_fptr_t σ) (wr : bmi090l_write_fptr_t σ) (dl : bmi090l_delay_us_fptr_t σ)
    (hrd : d.read = some rd) (hwr : d.write = some wr) (hdl : d.delay_us = some dl)
    (hcf : K.BMI090L_E_COM_FAIL ≠ K.BMI090L_OK)
    (hen : K.BMI090L_ENABLE < 256)
    (hD : K.BMI090L_GYRO_SOFTRESET_DELAY * 1000 < 4294967296) :
    (∀ (w1 w2 w3 : World σ) (data : Nat) (buf : List Nat) (s : Int) (st4 : σ),
      set_gyro_selftest K (u8 K.BMI090L_ENABLE) d w = some (K.BMI090L_OK, w1) →
      selftest_poll K d fuel 0 w1 = some (K.BMI090L_OK, data, w2) →
      get_regs K K.BMI090L_GYRO_SELF_TEST_REG [data] 1 d w2 = some (K.BMI090L_OK, buf, w3) →
      wr (wr_addr K d K.BMI090L_GYRO_SOFTRESET_REG) [u8 K.BMI090L_SOFT_RESET_CMD] 1 w3.st = (s, st4) →
      (s = K.BMI090L_OK →
        bmi090lg_perform_selftest K fuel (some d) w =
          some (toInt8 (u8 (BMI090L_GET_BITS (buf.getD 0 0) K.BMI090L_GYRO_SELF_TEST_RESULT_MASK
              K.BMI090L_GYRO_SELF_TEST_RESULT_POS)),
            { st := dl (K.BMI090L_GYRO_SOFTRESET_DELAY * 1000) st4,
              log := w3.log ++
                [BusEvent.write (wr_addr K d K.BMI090L_GYRO_SOFTRESET_REG)
                  [u8 K.BMI090L_SOFT_RESET_CMD] 1,
                 BusEvent.delay (K.BMI090L_GYRO_SOFTRESET_DELAY * 1000)] })) ∧
      (s ≠ K.BMI090L_OK →
        bmi090lg_perform_selftest K fuel (some d) w =
          some (K.BMI090L_E_COM_FAIL,
            { st := st4,
              log := w3.log ++
                [BusEvent.write (wr_addr K d K.BMI090L_GYRO_SOFTRESET_REG)
                  [u8 K.BMI090L_SOFT_RESET_CMD] 1] }))) ∧
    (∀ (r : Int) (w5 : World σ),
      bmi090lg_perform_selftest K fuel (some d) w = some (r, w5) →
      r ≠ K.BMI090L_E_COM_FAIL →
      ∃ (w3 : World σ) (st4 : σ),
        wr (wr_addr K d K.BMI090L_GYRO_SOFTRESET_REG) [u8 K.BMI090L_SOFT_RESET_CMD] 1 w3.st =
          (K.BMI090L_OK, st4) ∧
        w5 = { st := dl (K.BMI090L_GYRO_SOFTRESET_DELAY * 1000) st4,
               log := w3.log ++
                 [BusEvent.write (wr_addr K d K.BMI090L_GYRO_SOFTRESET_REG)
                   [u8 K.BMI090L_SOFT_RESET_CMD] 1,
                  BusEvent.delay (K.BMI090L_GYRO_SOFTRESET_DELAY * 1000)] }) := by
  have hu : u32 (K.BMI090L_GYRO_SOFTRESET_DELAY * 1000) = K.BMI090L_GYRO_SOFTRESET_DELAY * 1000 :=
    Nat.mod_eq_of_lt hD
  have hnull := null_ptr_check_ok K d rd wr dl hrd hwr hdl
  refine ⟨?_, ?_⟩
  · intro w1 w2 w3 data buf s st4 henable hpoll heval hwrite
    have hs := set_regs_of_write K d w3 wr K.BMI090L_GYRO_SOFTRESET_REG 1
      [u8 K.BMI090L_SOFT_RESET_CMD] s st4 hwr hwrite
    refine ⟨?_, ?_⟩
    · intro hok
      simp [bmi090lg_perform_selftest, bmi090lg_soft_reset, call_delay_us, hnull, henable, hpoll,
        heval, hs, hdl, hok, hu]
    · intro hne
      simp [bmi090lg_perform_selftest, bmi090lg_soft_reset, call_delay_us, hnull, henable, hpoll,
        heval, hs, hdl, hne, hcf]
  · intro r w5 h hr
    have hue : u8 K.BMI090L_ENABLE = K.BMI090L_ENABLE := Nat.mod_eq_of_lt hen
    simp only [bmi090lg_perform_selftest, hnull, if_true] at h
    cases h1 : set_gyro_selftest K (u8 K.BMI090L_ENABLE) d w with
    | none => simp [h1] at h
    | some p1 =>
      obtain ⟨r1, w1⟩ := p1
      simp only [h1] at h
      by_cases e1 : r1 = K.BMI090L_OK
      · simp only [e1, if_true] at h
        cases h2 : selftest_poll K d fuel 0 w1 with
        | none => simp [h2] at h
        | some p2 =>
          obtain ⟨r2, data, w2⟩ := p2
          simp only [h2] at h
          by_cases e2 : r2 = K.BMI090L_OK
          · simp only [e2, if_true] at h
            cases h3 : get_regs K K.BMI090L_GYRO_SELF_TEST_REG [data] 1 d w2 with
            | none => simp [h3] at h
            | some p3 =>
              obtain ⟨r3, buf, w3⟩ := p3
              simp only [h3] at h
              by_cases e3 : r3 = K.BMI090L_OK
              · have hs := set_regs_of_write K d w3 wr K.BMI090L_GYRO_SOFTRESET_REG 1
                  [u8 K.BMI090L_SOFT_RESET_CMD] _ _ hwr rfl
                simp only [e3, if_true, bmi090lg_soft_reset, hnull, hs, call_delay_us, hdl, hu] at h
                by_cases e4 : (wr (wr_addr K d K.BMI090L_GYRO_SOFTRESET_REG)
                    [u8 K.BMI090L_SOFT_RESET_CMD] 1 w3.st).1 = K.BMI090L_OK
                · refine ⟨w3, (wr (wr_addr K d K.BMI090L_GYRO_SOFTRESET_REG)
                    [u8 K.BMI090L_SOFT_RESET_CMD] 1 w3.st).2, ?_, ?_⟩
                  · exact Prod.ext e4 rfl
                  · simp [e4] at h
                    exact h.2.symm
                · simp [e4, hcf] at h
                  exact absurd h.1.symm hr
              · simp only [e3, if_false, Option.some.injEq, Prod.mk.injEq] at h
                rcases get_regs_status K d _ _ _ _ _ _ _ h3 with h4 | h4
                · exact absurd h4 e3
                · exact absurd (h.1 ▸ h4) hr
          · simp only [e2, if_false, Option.some.injEq, Prod.mk.injEq] at h
            rcases selftest_poll_status K d _ _ _ _ _ _ h2 with h4 | h4
            · exact absurd h4 e2
            · exact absurd (h.1 ▸ h4) hr
      · simp only [e1, if_false, Option.some.injEq, Prod.mk.injEq] at h
        rcases set_gyro_selftest_status K d _ _ _ _ (Or.inl hue) h1 with h4 | h4
        · exact absurd h4 e1
        · exact absurd (h.1 ▸ h4) hr

/-- C22 exercised on the scripted transport with the register map `regmap` and
every read delivering a ready byte with the result bit clear (0x02): the
soft-reset write succeeds, one delay of 30000 microseconds follows it, and the
call returns the outcome 0. -/
theorem selftest_outcome_only_after_reset_witness :
    bmi090lg_perform_selftest regmap 4 (some (script_dev regmap 0 (fun _ => 0x02)))
        { st := 0, log := [] } =
      some (0,
        { st := 3,
          log := [BusEvent.read 0x3C 1, BusEvent.write 0x3C [0x03] 1, BusEvent.read 0x3C 1,
                  BusEvent.read 0x3C 1] ++
            [BusEvent.write 0x14 [0xB6] 1, BusEvent.delay 30000] }) :=
  ((selftest_outcome_only_after_reset regmap (script_dev regmap 0 (fun _ => 0x02))
    { st := 0, log := [] } 4 _ _ _ rfl rfl rfl (by decide) (by decide) (by decide)).1
    { st := 1, log := [BusEvent.read 0x3C 1, BusEvent.write 0x3C [0x03] 1] }
    { st := 2, log := [BusEvent.read 0x3C 1, BusEvent.write 0x3C [0x03] 1, BusEvent.read 0x3C 1] }
    { st := 3, log := [BusEvent.read 0x3C 1, BusEvent.write 0x3C [0x03] 1, BusEvent.read 0x3C 1,
                       BusEvent.read 0x3C 1] }
    1 [0x02] 0 3 rfl rfl rfl rfl).1 rfl

/-! ### Read-back of the measurement configuration -/

/-- The null check returns BMI090L_OK or BMI090L_E_NULL_PTR. -/
theorem null_ptr_check_status (K : Defs) (dev : Option (bmi090l_dev σ)) :
    null_ptr_check K dev = K.BMI090L_OK ∨ null_ptr_check K dev = K.BMI090L_E_NULL_PTR := by
  cases dev with
  | none => exact Or.inr rfl
  | some d =>
    simp only [null_ptr_check]
    split
    · exact Or.inr rfl
    · exact Or.inl rfl

/-- C23: for a valid context, (1) when the two-byte burst read at the range
register succeeds and delivers d0, d1, `bmi090lg_get_meas_conf` returns
BMI090L_OK after that one read and stores in the context odr = d1 masked with
BMI090L_GYRO_BW_MASK and bw = the same value (and range = d0), so bw = odr, both
from the second byte of the burst; (2) when that read fails, the call returns
BMI090L_E_COM_FAIL and the context is returned as it was, so range, odr and bw
keep their prior values; (3) for a context that fails the null check (a null
context in particular) the call returns BMI090L_E_NULL_PTR without touching the
bus and the context is returned as it was.  Header facts used:
BMI090L_E_NULL_PTR and BMI090L_E_COM_FAIL differ from BMI090L_OK. -/
theorem get_meas_conf_bw_equals_odr (K : Defs) (d : bmi090l_dev σ) (w : World σ)
    (rd : bmi090l_read_fptr_t σ) (wr : bmi090l_write_fptr_t σ) (dl : bmi090l_delay_us_fptr_t σ)
    (hrd : d.read = some rd) (hwr : d.write = some wr) (hdl : d.delay_us = some dl)
    (hnp : K.BMI090L_E_NULL_PTR ≠ K.BMI090L_OK)
    (hcf : K.BMI090L_E_COM_FAIL ≠ K.BMI090L_OK) :
    (∀ (d0 d1 : Nat) (st1 : σ),
      rd (rd_addr K d K.BMI090L_GYRO_RANGE_REG) 2 w.st = (K.BMI090L_OK, [d0, d1], st1) →
      bmi090lg_get_meas_conf K (some d) w =
        some (K.BMI090L_OK,
          some { d with gyro_cfg :=
            { power := d.gyro_cfg.power, range := d0 % 256,
              bw := u8 (d1 % 256 &&& K.BMI090L_GYRO_BW_MASK),
              odr := u8 (d1 % 256 &&& K.BMI090L_GYRO_BW_MASK) } },
          { st := st1, log := w.log ++ [BusEvent.read (rd_addr K d K.BMI090L_GYRO_RANGE_REG) 2] })) ∧
    (∀ (s : Int) (bytes : List Nat) (st1 : σ),
      rd (rd_addr K d K.BMI090L_GYRO_RANGE_REG) 2 w.st = (s, bytes, st1) →
      s ≠ K.BMI090L_OK →
      bmi090lg_get_meas_conf K (some d) w =
        some (K.BMI090L_E_COM_FAIL, some d,
          { st := st1, log := w.log ++ [BusEvent.read (rd_addr K d K.BMI090L_GYRO_RANGE_REG) 2] })) ∧
    (∀ dev0 : Option (bmi090l_dev σ), null_ptr_check K dev0 ≠ K.BMI090L_OK →
      bmi090lg_get_meas_conf K dev0 w = some (K.BMI090L_E_NULL_PTR, dev0, w)) ∧
    bmi090lg_get_meas_conf K (none : Option (bmi090l_dev σ)) w =
      some (K.BMI090L_E_NULL_PTR, none, w) := by
  have hnull := null_ptr_check_ok K d rd wr dl hrd hwr hdl
  have h3 : ∀ dev0 : Option (bmi090l_dev σ), null_ptr_check K dev0 ≠ K.BMI090L_OK →
      bmi090lg_get_meas_conf K dev0 w = some (K.BMI090L_E_NULL_PTR, dev0, w) := by
    intro dev0 hn
    rcases null_ptr_check_status K dev0 with h | h
    · exact absurd h hn
    · have hn2 : ¬ K.BMI090L_E_NULL_PTR = K.BMI090L_OK := h ▸ hn
      simp only [bmi090lg_get_meas_conf, h, if_neg hn2]
  refine ⟨?_, ?_, h3, ?_⟩
  · intro d0 d1 st1 hread
    simp only [bmi090lg_get_meas_conf, hnull,
      get_regs_of_read K d w rd _ 2 [0, 0] _ _ st1 hrd hread]
    simp [buf_fill]
  · intro s bytes st1 hread hs
    simp only [bmi090lg_get_meas_conf, hnull,
      get_regs_of_read K d w rd _ 2 [0, 0] _ _ st1 hrd hread]
    simp [hs, hcf]
  · exact h3 none hnp

/-- C23 exercised with the register map `regmap` on the register-file transport
holding 0x83 in the range register and 0xF5 in the bandwidth register, the
context holding range 1, bw 2 and odr 3 before the call: the call returns OK
after one two-byte read and leaves range 0x83 and bw = odr = 0x05. -/
theorem get_meas_conf_bw_equals_odr_witness :
    bmi090lg_get_meas_conf regmap
        (some (regfile_dev regmap 0 { power := 0, range := 1, bw := 2, odr := 3 }))
        { st := fun a => if a = 0x0F then 0x83 else 0xF5, log := [] } =
      some (0,
        some { regfile_dev regmap 0 { power := 0, range := 1, bw := 2, odr := 3 } with gyro_cfg :=
          { power := 0, range := 0x83, bw := 0x05, odr := 0x05 } },
        { st := fun a => if a = 0x0F then 0x83 else 0xF5,
          log := [] ++ [BusEvent.read 0x0F 2] }) :=
  (get_meas_conf_bw_equals_odr regmap
    (regfile_dev regmap 0 { power := 0, range := 1, bw := 2, odr := 3 })
    { st := fun a => if a = 0x0F then 0x83 else 0xF5, log := [] }
    _ _ _ rfl rfl rfl (by decide) (by decide)).1 0x83 0xF5 _ rfl

/-! ### Bytes written by the data-ready configuration -/

/-- Bits of a byte after a one-bit field at position `p` has been set. -/
theorem testBit_u8_SET_BITS_single (r p v i : Nat) (hr : r < 256) (hp : p < 8) :
    (u8 (BMI090L_SET_BITS r (2 ^ p) p v)).testBit i =
      if i = p then v.testBit 0 else r.testBit i := by
  simp only [u8, Nat.testBit_mod_two_pow _ 8, testBit_SET_BITS, Nat.testBit_two_pow,
    Nat.testBit_shiftLeft, show (256 : Nat) = 2 ^ 8 from rfl]
  by_cases hi : i = p
  · subst hi
    simp [hp]
  · have hpi : ¬ p = i := fun h => hi h.symm
    by_cases h8 : i < 8
    · simp [hi, hpi, h8]
    · have := testBit_byte_high r i hr (by omega)
      simp [hi, hpi, h8, this]

/-- Bits of a byte after the one-bit field at position 0 has been set. -/
theorem testBit_u8_SET_BITS_POS_0_single (r v i : Nat) (hr : r < 256) :
    (u8 (BMI090L_SET_BITS_POS_0 r 1 v)).testBit i =
      if i = 0 then v.testBit 0 else r.testBit i := by
  have h := testBit_u8_SET_BITS_single r 0 v i hr (by decide)
  simpa [BMI090L_SET_BITS, BMI090L_SET_BITS_POS_0] using h

/-- C24: on the register file, for every prior content of the pin-map register
and every value of enable_int_pin, a data-ready `bmi090lg_set_int_config`
succeeds and writes to the pin-map register a byte `m` such that, on channel 3,
bit 0 of `m` (the INT3 map bit) is the low bit of enable_int_pin and every
other bit of `m` is the prior bit of the register, and, on channel 4, bit
BMI090L_GYRO_INT4_DATA_POS of `m` (the INT4 map bit) is the low bit of
enable_int_pin and every other bit of `m` is the prior bit.  Header facts used:
the INT3 map mask is bit 0, the INT4 map mask is the single bit at its position
(below 8; bit 7 in `regmap`), the channel codes differ, the SPI direction bit
is bit 7, the registers are 7-bit addresses. -/
theorem drdy_map_bit_follows_enable (K : Defs) (intf : Nat) (cfg : bmi090l_cfg)
    (w : World (Nat → Nat)) (pin : bmi090l_int_pin_cfg)
    (hrdm : K.BMI090L_SPI_RD_MASK = 0x80) (hwrm : K.BMI090L_SPI_WR_MASK = 0x7F)
    (hM : K.BMI090L_GYRO_INT3_INT4_IO_MAP_REG < 128)
    (hC : K.BMI090L_GYRO_INT3_INT4_IO_CONF_REG < 128)
    (hI : K.BMI090L_GYRO_INT_CTRL_REG < 128)
    (hMC : K.BMI090L_GYRO_INT3_INT4_IO_CONF_REG ≠ K.BMI090L_GYRO_INT3_INT4_IO_MAP_REG)
    (h34 : K.BMI090L_INT_CHANNEL_4 ≠ K.BMI090L_INT_CHANNEL_3)
    (hM3 : K.BMI090L_GYRO_INT3_DATA_MASK = 1)
    (hM4 : K.BMI090L_GYRO_INT4_DATA_MASK = 2 ^ K.BMI090L_GYRO_INT4_DATA_POS)
    (hP4 : K.BMI090L_GYRO_INT4_DATA_POS < 8) :
    (∃ m c e st1,
      bmi090lg_set_int_config K
          (some { int_channel := K.BMI090L_INT_CHANNEL_3, int_type := K.BMI090L_GYRO_DATA_RDY_INT,
                  int_pin_cfg := pin })
          (some (regfile_dev K intf cfg)) w =
        some (K.BMI090L_OK,
          { st := st1,
            log := w.log ++
              [BusEvent.read (rd_addr K (regfile_dev K intf cfg) K.BMI090L_GYRO_INT3_INT4_IO_MAP_REG) 1,
               BusEvent.write (wr_addr K (regfile_dev K intf cfg) K.BMI090L_GYRO_INT3_INT4_IO_MAP_REG) [m] 1,
               BusEvent.read (rd_addr K (regfile_dev K intf cfg) K.BMI090L_GYRO_INT3_INT4_IO_CONF_REG) 1,
               BusEvent.write (wr_addr K (regfile_dev K intf cfg) K.BMI090L_GYRO_INT3_INT4_IO_CONF_REG) [c] 1,
               BusEvent.write (wr_addr K (regfile_dev K intf cfg) K.BMI090L_GYRO_INT_CTRL_REG) [e] 1] }) ∧
      m.testBit 0 = pin.enable_int_pin.testBit 0 ∧
      ∀ i, i ≠ 0 → m.testBit i = (w.st K.BMI090L_GYRO_INT3_INT4_IO_MAP_REG % 256).testBit i) ∧
    (∃ m c e st1,
      bmi090lg_set_int_config K
          (some { int_channel := K.BMI090L_INT_CHANNEL_4, int_type := K.BMI090L_GYRO_DATA_RDY_INT,
                  int_pin_cfg := pin })
          (some (regfile_dev K intf cfg)) w =
        some (K.BMI090L_OK,
          { st := st1,
            log := w.log ++
              [BusEvent.read (rd_addr K (regfile_dev K intf cfg) K.BMI090L_GYRO_INT3_INT4_IO_MAP_REG) 1,
               BusEvent.write (wr_addr K (regfile_dev K intf cfg) K.BMI090L_GYRO_INT3_INT4_IO_MAP_REG) [m] 1,
               BusEvent.read (rd_addr K (regfile_dev K intf cfg) K.BMI090L_GYRO_INT3_INT4_IO_CONF_REG) 1,
               BusEvent.write (wr_addr K (regfile_dev K intf cfg) K.BMI090L_GYRO_INT3_INT4_IO_CONF_REG) [c] 1,
               BusEvent.write (wr_addr K (regfile_dev K intf cfg) K.BMI090L_GYRO_INT_CTRL_REG) [e] 1] }) ∧
      m.testBit K.BMI090L_GYRO_INT4_DATA_POS = pin.enable_int_pin.testBit 0 ∧
      ∀ i, i ≠ K.BMI090L_GYRO_INT4_DATA_POS →
        m.testBit i = (w.st K.BMI090L_GYRO_INT3_INT4_IO_MAP_REG % 256).testBit i) := by
  have hb : ∀ n : Nat, n % 256 < 256 := fun n => Nat.mod_lt _ (by decide)
  constructor
  · refine ⟨_, _, _, _,
      set_int_config_regfile K intf cfg w _ rfl (Or.inl rfl) hrdm hwrm hM hC hI hMC, ?_, ?_⟩
    · simp only [drdy_map_byte, if_true, hM3]
      rw [testBit_u8_SET_BITS_POS_0_single _ _ _ (hb _)]
      simp
    · intro i hi
      simp only [drdy_map_byte, if_true, hM3]
      rw [testBit_u8_SET_BITS_POS_0_single _ _ _ (hb _)]
      simp [hi]
  · refine ⟨_, _, _, _,
      set_int_config_regfile K intf cfg w _ rfl (Or.inr rfl) hrdm hwrm hM hC hI hMC, ?_, ?_⟩
    · simp only [drdy_map_byte, h34, if_false, hM4]
      rw [testBit_u8_SET_BITS_single _ _ _ _ (hb _) hP4]
      simp
    · intro i hi
      simp only [drdy_map_byte, h34, if_false, hM4]
      rw [testBit_u8_SET_BITS_single _ _ _ _ (hb _) hP4]
      simp [hi]

/-- C24 exercised over SPI on channel 4 with the register map `regmap`, the
pin-map register holding 0x7E and enable_int_pin 0x03: bit 7 of the written
byte is the low bit of 0x03 and its other bits are those of 0x7E. -/
theorem drdy_map_bit_follows_enable_witness :
    ∃ m c e st1,
      bmi090lg_set_int_config regmap
          (some { int_channel := 1, int_type := 0,
                  int_pin_cfg := { lvl := 1, output_mode := 1, enable_int_pin := 0x03 } })
          (some (regfile_dev regmap 1 { power := 0, range := 0, bw := 0, odr := 0 }))
          { st := fun a => if a = 0x18 then 0x7E else if a = 0x16 then 0xF5 else 0, log := [] } =
        some (0,
          { st := st1,
            log := [] ++
              [BusEvent.read 0x98 1, BusEvent.write 0x18 [m] 1, BusEvent.read 0x96 1,
               BusEvent.write 0x16 [c] 1, BusEvent.write 0x15 [e] 1] }) ∧
      m.testBit 7 = (0x03 : Nat).testBit 0 ∧
      ∀ i, i ≠ 7 → m.testBit i = (0x7E % 256 : Nat).testBit i :=
  (drdy_map_bit_follows_enable regmap 1 { power := 0, range := 0, bw := 0, odr := 0 }
    { st := fun a => if a = 0x18 then 0x7E else if a = 0x16 then 0xF5 else 0, log := [] }
    { lvl := 1, output_mode := 1, enable_int_pin := 0x03 }
    rfl rfl (by decide) (by decide) (by decide) (by decide) (by decide)
    rfl rfl (by decide)).2

/-- C25: on the register file, for every prior content of the
pin-configuration register and every value of lvl and output_mode, a data-ready
`bmi090lg_set_int_config` succeeds and writes to the pin-configuration register
a byte `c` such that, on channel 3, bit 0 of `c` (INT3 level) is the low bit of
lvl, bit BMI090L_GYRO_INT3_OD_POS of `c` is the low bit of output_mode and
every other bit of `c` is the prior bit of the register, and, on channel 4, bit
BMI090L_GYRO_INT4_LVL_POS of `c` is the low bit of lvl, bit
BMI090L_GYRO_INT4_OD_POS of `c` is the low bit of output_mode and every other
bit of `c` is the prior bit.  Header facts used: the INT3 level mask is bit 0,
each of the other three masks is the single bit at its position (below 8), the
two positions of a channel differ, the channel codes differ, the SPI direction
bit is bit 7, the registers are 7-bit addresses. -/
theorem pin_conf_bits_follow_request (K : Defs) (intf : Nat) (cfg : bmi090l_cfg)
    (w : World (Nat → Nat)) (pin : bmi090l_int_pin_cfg)
    (hrdm : K.BMI090L_SPI_RD_MASK = 0x80) (hwrm : K.BMI090L_SPI_WR_MASK = 0x7F)
    (hM : K.BMI090L_GYRO_INT3_INT4_IO_MAP_REG < 128)
    (hC : K.BMI090L_GYRO_INT3_INT4_IO_CONF_REG < 128)
    (hI : K.BMI090L_GYRO_INT_CTRL_REG < 128)
    (hMC : K.BMI090L_GYRO_INT3_INT4_IO_CONF_REG ≠ K.BMI090L_GYRO_INT3_INT4_IO_MAP_REG)
    (h34 : K.BMI090L_INT_CHANNEL_4 ≠ K.BMI090L_INT_CHANNEL_3)
    (hL3 : K.BMI090L_GYRO_INT3_LVL_MASK = 1)
    (hO3 : K.BMI090L_GYRO_INT3_OD_MASK = 2 ^ K.BMI090L_GYRO_INT3_OD_POS)
    (hO3p : K.BMI090L_GYRO_INT3_OD_POS < 8)
    (hO3n : K.BMI090L_GYRO_INT3_OD_POS ≠ 0)
    (hL4 : K.BMI090L_GYRO_INT4_LVL_MASK = 2 ^ K.BMI090L_GYRO_INT4_LVL_POS)
    (hL4p : K.BMI090L_GYRO_INT4_LVL_POS < 8)
    (hO4 : K.BMI090L_GYRO_INT4_OD_MASK = 2 ^ K.BMI090L_GYRO_INT4_OD_POS)
    (hO4p : K.BMI090L_GYRO_INT4_OD_POS < 8)
    (hLO4 : K.BMI090L_GYRO_INT4_LVL_POS ≠ K.BMI090L_GYRO_INT4_OD_POS) :
    (∃ m c e st1,
      bmi090lg_set_int_config K
          (some { int_channel := K.BMI090L_INT_CHANNEL_3, int_type := K.BMI090L_GYRO_DATA_RDY_INT,
                  int_pin_cfg := pin })
          (some (regfile_dev K intf cfg)) w =
        some (K.BMI090L_OK,
          { st := st1,
            log := w.log ++
              [BusEvent.read (rd_addr K (regfile_dev K intf cfg) K.BMI090L_GYRO_INT3_INT4_IO_MAP_REG) 1,
               BusEvent.write (wr_addr K (regfile_dev K intf cfg) K.BMI090L_GYRO_INT3_INT4_IO_MAP_REG) [m] 1,
               BusEvent.read (rd_addr K (regfile_dev K intf cfg) K.BMI090L_GYRO_INT3_INT4_IO_CONF_REG) 1,
               BusEvent.write (wr_addr K (regfile_dev K intf cfg) K.BMI090L_GYRO_INT3_INT4_IO_CONF_REG) [c] 1,
               BusEvent.write (wr_addr K (regfile_dev K intf cfg) K.BMI090L_GYRO_INT_CTRL_REG) [e] 1] }) ∧
      c.testBit 0 = pin.lvl.testBit 0 ∧
      c.testBit K.BMI090L_GYRO_INT3_OD_POS = pin.output_mode.testBit 0 ∧
      ∀ i, i ≠ 0 → i ≠ K.BMI090L_GYRO_INT3_OD_POS →
        c.testBit i = (w.st K.BMI090L_GYRO_INT3_INT4_IO_CONF_REG % 256).testBit i) ∧
    (∃ m c e st1,
      bmi090lg_set_int_config K
          (some { int_channel := K.BMI090L_INT_CHANNEL_4, int_type := K.BMI090L_GYRO_DATA_RDY_INT,
                  int_pin_cfg := pin })
          (some (regfile_dev K intf cfg)) w =
        some (K.BMI090L_OK,
          { st := st1,
            log := w.log ++
              [BusEvent.read (rd_addr K (regfile_dev K intf cfg) K.BMI090L_GYRO_INT3_INT4_IO_MAP_REG) 1,
               BusEvent.write (wr_addr K (regfile_dev K intf cfg) K.BMI090L_GYRO_INT3_INT4_IO_MAP_REG) [m] 1,
               BusEvent.read (rd_addr K (regfile_dev K intf cfg) K.BMI090L_GYRO_INT3_INT4_IO_CONF_REG) 1,
               BusEvent.write (wr_addr K (regfile_dev K intf cfg) K.BMI090L_GYRO_INT3_INT4_IO_CONF_REG) [c] 1,
               BusEvent.write (wr_addr K (regfile_dev K intf cfg) K.BMI090L_GYRO_INT_CTRL_REG) [e] 1] }) ∧
      c.testBit K.BMI090L_GYRO_INT4_LVL_POS = pin.lvl.testBit 0 ∧
      c.testBit K.BMI090L_GYRO_INT4_OD_POS = pin.output_mode.testBit 0 ∧
      ∀ i, i ≠ K.BMI090L_GYRO_INT4_LVL_POS → i ≠ K.BMI090L_GYRO_INT4_OD_POS →
        c.testBit i = (w.st K.BMI090L_GYRO_INT3_INT4_IO_CONF_REG % 256).testBit i) := by
  have hb : ∀ n : Nat, n % 256 < 256 := fun n => Nat.mod_lt _ (by decide)
  constructor
  · refine ⟨_, _, _, _,
      set_int_config_regfile K intf cfg w _ rfl (Or.inl rfl) hrdm hwrm hM hC hI hMC, ?_, ?_, ?_⟩
    · simp only [pin_conf_byte, if_true, hL3, hO3]
      rw [testBit_u8_SET_BITS_single _ _ _ _ (u8_lt _) hO3p,
        testBit_u8_SET_BITS_POS_0_single _ _ _ (hb _)]
      simp [hO3n.symm]
    · simp only [pin_conf_byte, if_true, hL3, hO3]
      rw [testBit_u8_SET_BITS_single _ _ _ _ (u8_lt _) hO3p]
      simp
    · intro i h0 h1
      simp only [pin_conf_byte, if_true, hL3, hO3]
      rw [testBit_u8_SET_BITS_single _ _ _ _ (u8_lt _) hO3p,
        testBit_u8_SET_BITS_POS_0_single _ _ _ (hb _)]
      simp [h0, h1]
  · refine ⟨_, _, _, _,
      set_int_config_regfile K intf cfg w _ rfl (Or.inr rfl) hrdm hwrm hM hC hI hMC, ?_, ?_, ?_⟩
    · simp only [pin_conf_byte, h34, if_false, if_true, hL4, hO4]
      rw [testBit_u8_SET_BITS_single _ _ _ _ (u8_lt _) hO4p,
        testBit_u8_SET_BITS_single _ _ _ _ (hb _) hL4p]
      simp [hLO4]
    · simp only [pin_conf_byte, h34, if_false, if_true, hL4, hO4]
      rw [testBit_u8_SET_BITS_single _ _ _ _ (u8_lt _) hO4p]
      simp
    · intro i h0 h1
      simp only [pin_conf_byte, h34, if_false, if_true, hL4, hO4]
      rw [testBit_u8_SET_BITS_single _ _ _ _ (u8_lt _) hO4p,
        testBit_u8_SET_BITS_single _ _ _ _ (hb _) hL4p]
      simp [h0, h1]

/-- C25 exercised over SPI on channel 3 with the register map `regmap`, the
pin-configuration register holding 0xF5, lvl 2 and output_mode 3: bit 0 of the
written byte is the low bit of 2, bit 1 the low bit of 3, and the other bits
are those of 0xF5. -/
theorem pin_conf_bits_follow_request_witness :
    ∃ m c e st1,
      bmi090lg_set_int_config regmap
          (some { int_channel := 0, int_type := 0,
                  int_pin_cfg := { lvl := 2, output_mode := 3, enable_int_pin := 1 } })
          (some (regfile_dev regmap 1 { power := 0, range := 0, bw := 0, odr := 0 }))
          { st := fun a => if a = 0x18 then 0x7E else if a = 0x16 then 0xF5 else 0, log := [] } =
        some (0,
          { st := st1,
            log := [] ++
              [BusEvent.read 0x98 1, BusEvent.write 0x18 [m] 1, BusEvent.read 0x96 1,
               BusEvent.write 0x16 [c] 1, BusEvent.write 0x15 [e] 1] }) ∧
      c.testBit 0 = (2 : Nat).testBit 0 ∧
      c.testBit 1 = (3 : Nat).testBit 0 ∧
      ∀ i, i ≠ 0 → i ≠ 1 → c.testBit i = (0xF5 % 256 : Nat).testBit i :=
  (pin_conf_bits_follow_request regmap 1 { power := 0, range := 0, bw := 0, odr := 0 }
    { st := fun a => if a = 0x18 then 0x7E else if a = 0x16 then 0xF5 else 0, log := [] }
    { lvl := 2, output_mode := 3, enable_int_pin := 1 }
    rfl rfl (by decide) (by decide) (by decide) (by decide) (by decide)
    rfl rfl (by decide) (by decide) rfl (by decide) rfl (by decide) (by decide)).1

/-! ### Self-test outcome -/

/-- A one-bit field read with `BMI090L_GET_BITS` is 0 or 1. -/
theorem GET_BITS_single (b p : Nat) :
    BMI090L_GET_BITS b (2 ^ p) p = 0 ∨ BMI090L_GET_BITS b (2 ^ p) p = 1 := by
  have h : BMI090L_GET_BITS b (2 ^ p) p = (b.testBit p).toNat := by
    rw [BMI090L_GET_BITS, Nat.and_two_pow, Nat.shiftRight_eq_div_pow,
      Nat.mul_div_cancel _ (Nat.two_pow_pos p)]
  rw [h]
  cases b.testBit p
  · exact Or.inl rfl
  · exact Or.inr rfl

/-- C26: with a valid context, when the enable step and the poll loop of
`bmi090lg_perform_selftest` have succeeded, the read issued after the loop
succeeds and delivers the byte `b`, and the soft-reset write succeeds, the call
returns the result field of `b`, (b & RESULT mask) >> RESULT position, which is
0 or 1, whatever value `data` the poll loop left (so whatever the result bit
of the poll read that saw the ready bit); the value 0 is the code BMI090L_OK.
Header facts used: the RESULT mask is the single bit at the RESULT position,
BMI090L_OK is 0. -/
theorem selftest_returns_fresh_result_bit (K : Defs) (d : bmi090l_dev σ) (w w1 w2 : World σ)
    (fuel data b : Nat) (rest : List Nat) (st3 st4 : σ)
    (rd : bmi090l_read_fptr_t σ) (wr : bmi090l_write_fptr_t σ) (dl : bmi090l_delay_us_fptr_t σ)
    (hrd : d.read = some rd) (hwr : d.write = some wr) (hdl : d.delay_us = some dl)
    (henable : set_gyro_selftest K (u8 K.BMI090L_ENABLE) d w = some (K.BMI090L_OK, w1))
    (hpoll : selftest_poll K d fuel 0 w1 = some (K.BMI090L_OK, data, w2))
    (heval : rd (rd_addr K d K.BMI090L_GYRO_SELF_TEST_REG) 1 w2.st = (K.BMI090L_OK, b :: rest, st3))
    (hreset : wr (wr_addr K d K.BMI090L_GYRO_SOFTRESET_REG) [u8 K.BMI090L_SOFT_RESET_CMD] 1 st3 =
      (K.BMI090L_OK, st4))
    (hmask : K.BMI090L_GYRO_SELF_TEST_RESULT_MASK = 2 ^ K.BMI090L_GYRO_SELF_TEST_RESULT_POS)
    (hok0 : K.BMI090L_OK = 0) :
    ∃ w5 : World σ,
      bmi090lg_perform_selftest K fuel (some d) w =
        some (((((b % 256) &&& K.BMI090L_GYRO_SELF_TEST_RESULT_MASK) >>>
          K.BMI090L_GYRO_SELF_TEST_RESULT_POS : Nat) : Int), w5) ∧
      (((b % 256) &&& K.BMI090L_GYRO_SELF_TEST_RESULT_MASK) >>>
          K.BMI090L_GYRO_SELF_TEST_RESULT_POS = 0 ∨
        ((b % 256) &&& K.BMI090L_GYRO_SELF_TEST_RESULT_MASK) >>>
          K.BMI090L_GYRO_SELF_TEST_RESULT_POS = 1) ∧
      (((b % 256) &&& K.BMI090L_GYRO_SELF_TEST_RESULT_MASK) >>>
          K.BMI090L_GYRO_SELF_TEST_RESULT_POS = 0 →
        bmi090lg_perform_selftest K fuel (some d) w = some (K.BMI090L_OK, w5)) := by
  have hg := get_regs_of_read K d w2 rd K.BMI090L_GYRO_SELF_TEST_REG 1 [data] _ _ _ hrd heval
  have hs := set_regs_of_write K d
    { st := st3, log := w2.log ++ [BusEvent.read (rd_addr K d K.BMI090L_GYRO_SELF_TEST_REG) 1] }
    wr K.BMI090L_GYRO_SOFTRESET_REG 1 [u8 K.BMI090L_SOFT_RESET_CMD] _ _ hwr hreset
  have h01 := GET_BITS_single (b % 256) K.BMI090L_GYRO_SELF_TEST_RESULT_POS
  rw [← hmask] at h01
  simp only [BMI090L_GET_BITS] at h01
  have hres : bmi090lg_perform_selftest K fuel (some d) w =
      some (toInt8 (u8 (((b % 256) &&& K.BMI090L_GYRO_SELF_TEST_RESULT_MASK) >>>
          K.BMI090L_GYRO_SELF_TEST_RESULT_POS)),
        { st := dl (u32 (K.BMI090L_GYRO_SOFTRESET_DELAY * 1000)) st4,
          log := w2.log ++ [BusEvent.read (rd_addr K d K.BMI090L_GYRO_SELF_TEST_REG) 1] ++
            [BusEvent.write (wr_addr K d K.BMI090L_GYRO_SOFTRESET_REG)
              [u8 K.BMI090L_SOFT_RESET_CMD] 1] ++
            [BusEvent.delay (u32 (K.BMI090L_GYRO_SOFTRESET_DELAY * 1000))] }) := by
    simp [bmi090lg_perform_selftest, bmi090lg_soft_reset, call_delay_us,
      null_ptr_check_ok K d rd wr dl hrd hwr hdl, henable, hpoll, hg, hs, hdl, buf_fill,
      BMI090L_GET_BITS]
  have hv : toInt8 (u8 (((b % 256) &&& K.BMI090L_GYRO_SELF_TEST_RESULT_MASK) >>>
      K.BMI090L_GYRO_SELF_TEST_RESULT_POS)) =
      ((((b % 256) &&& K.BMI090L_GYRO_SELF_TEST_RESULT_MASK) >>>
        K.BMI090L_GYRO_SELF_TEST_RESULT_POS : Nat) : Int) := by
    rcases h01 with h | h <;> rw [h] <;> rfl
  rw [hres, hv]
  refine ⟨_, rfl, h01, ?_⟩
  intro h
  rw [h, hok0]
  rfl

/-- C26 exercised on the scripted transport with the register map `regmap`: the
poll read delivers 0x02 (ready, result bit clear) and the read after the loop
delivers 0x06 (result bit set); the call returns 1, the result bit of the later
read. -/
theorem selftest_returns_fresh_result_bit_witness :
    ∃ w5 : World Nat,
      bmi090lg_perform_selftest regmap 4
          (some (script_dev regmap 0 (fun n => if n = 1 then 0x02 else if n = 2 then 0x06 else 0)))
          { st := 0, log := [] } =
        some (((((0x06 % 256) &&& regmap.BMI090L_GYRO_SELF_TEST_RESULT_MASK) >>>
          regmap.BMI090L_GYRO_SELF_TEST_RESULT_POS : Nat) : Int), w5) ∧
      (((0x06 % 256) &&& regmap.BMI090L_GYRO_SELF_TEST_RESULT_MASK) >>>
          regmap.BMI090L_GYRO_SELF_TEST_RESULT_POS = 0 ∨
        ((0x06 % 256) &&& regmap.BMI090L_GYRO_SELF_TEST_RESULT_MASK) >>>
          regmap.BMI090L_GYRO_SELF_TEST_RESULT_POS = 1) ∧
      (((0x06 % 256) &&& regmap.BMI090L_GYRO_SELF_TEST_RESULT_MASK) >>>
          regmap.BMI090L_GYRO_SELF_TEST_RESULT_POS = 0 →
        bmi090lg_perform_selftest regmap 4
          (some (script_dev regmap 0 (fun n => if n = 1 then 0x02 else if n = 2 then 0x06 else 0)))
          { st := 0, log := [] } = some (regmap.BMI090L_OK, w5)) :=
  selftest_returns_fresh_result_bit regmap
    (script_dev regmap 0 (fun n => if n = 1 then 0x02 else if n = 2 then 0x06 else 0))
    { st := 0, log := [] }
    { st := 1, log := [BusEvent.read 0x3C 1, BusEvent.write 0x3C [0x01] 1] }
    { st := 2, log := [BusEvent.read 0x3C 1, BusEvent.write 0x3C [0x01] 1, BusEvent.read 0x3C 1] }
    4 1 0x06 [] 3 3 _ _ _ rfl rfl rfl rfl rfl rfl rfl rfl rfl

/-! ### Round trips on the register file -/

/-- The byte after a read-modify-write at shift 0 with a value that fits the
mask is the prior byte outside the mask, or-ed with the value. -/
theorem SET_BITS_POS_0_fit (b m v : Nat) (hb : b < 256) (hv : v &&& m = v) (hv8 : v < 256) :
    u8 (BMI090L_SET_BITS_POS_0 b m v) = andNot b m ||| v := by
  apply Nat.eq_of_testBit_eq
  intro i
  have h1 : (v &&& m).testBit i = v.testBit i := by rw [hv]
  rw [Nat.testBit_and] at h1
  simp only [u8, Nat.testBit_mod_two_pow _ 8, testBit_SET_BITS_POS_0, Nat.testBit_or,
    testBit_andNot, show (256 : Nat) = 2 ^ 8 from rfl]
  by_cases hi : i < 8
  · cases hm : m.testBit i <;> cases hvi : v.testBit i <;> cases hbi : b.testBit i <;> simp_all
  · have h2 := testBit_byte_high v i hv8 (by omega)
    have h3 := testBit_byte_high b i hb (by omega)
    simp [hi, h2, h3]

/-- Or-ing the prior bits outside the mask into a value that fits the mask
gives the value back exactly when there are no such prior bits. -/
theorem outside_or_eq_iff (b m v : Nat) (hv : v &&& m = v) :
    andNot b m ||| v = v ↔ andNot b m = 0 := by
  constructor
  · intro h
    apply Nat.eq_of_testBit_eq
    intro i
    have h1 : (v &&& m).testBit i = v.testBit i := by rw [hv]
    have h2 : (andNot b m ||| v).testBit i = v.testBit i := by rw [h]
    rw [Nat.testBit_and] at h1
    rw [Nat.testBit_or, testBit_andNot] at h2
    rw [testBit_andNot, Nat.zero_testBit]
    cases hm : m.testBit i <;> cases hvi : v.testBit i <;> cases hbi : b.testBit i <;> simp_all
  · intro h
    rw [h, Nat.zero_or]

/-- C27: on the register file, for every valid configuration and every prior
content of the bandwidth and range registers, `bmi090lg_set_meas_conf` followed
by `bmi090lg_get_meas_conf` returns OK twice and leaves a configuration whose
odr is the ODR set and whose range is (prior & ~mask) | range, where prior is
the prior byte of the range register and mask is BMI090L_GYRO_RANGE_MASK; hence
the range read back equals the range set if and only if the prior range byte
has no bit set outside the mask.  Header facts used: the SPI direction bit is
bit 7, the bandwidth register follows the range register, the enumerated codes
are bytes that fit their field masks. -/
theorem meas_conf_readback_relation (K : Defs) (intf : Nat) (cfg : bmi090l_cfg)
    (w : World (Nat → Nat))
    (hodr : cfg.odr ≤ K.BMI090L_GYRO_BW_32_ODR_100_HZ)
    (hrange : cfg.range ≤ K.BMI090L_GYRO_RANGE_125_DPS)
    (hrdm : K.BMI090L_SPI_RD_MASK = 0x80) (hwrm : K.BMI090L_SPI_WR_MASK = 0x7F)
    (hreg : K.BMI090L_GYRO_RANGE_REG + 1 < 128)
    (hbw : K.BMI090L_GYRO_BANDWIDTH_REG = K.BMI090L_GYRO_RANGE_REG + 1)
    (hofit : ∀ o, o ≤ K.BMI090L_GYRO_BW_32_ODR_100_HZ → o &&& K.BMI090L_GYRO_BW_MASK = o)
    (hrfit : ∀ r, r ≤ K.BMI090L_GYRO_RANGE_125_DPS → r &&& K.BMI090L_GYRO_RANGE_MASK = r)
    (ho8 : K.BMI090L_GYRO_BW_32_ODR_100_HZ < 256) (hr8 : K.BMI090L_GYRO_RANGE_125_DPS < 256) :
    ∃ rb : bmi090l_cfg,
      (set_then_get_meas_conf K (some (regfile_dev K intf cfg)) w).map
          (fun r => (r.1, r.2.1, cfg_of r.2.2.1)) = some (K.BMI090L_OK, K.BMI090L_OK, rb) ∧
      rb.odr = cfg.odr ∧
      rb.range =
        andNot (w.st K.BMI090L_GYRO_RANGE_REG % 256) K.BMI090L_GYRO_RANGE_MASK ||| cfg.range ∧
      (rb.range = cfg.range ↔
        andNot (w.st K.BMI090L_GYRO_RANGE_REG % 256) K.BMI090L_GYRO_RANGE_MASK = 0) := by
  have hfit := SET_BITS_POS_0_fit (w.st K.BMI090L_GYRO_RANGE_REG % 256) K.BMI090L_GYRO_RANGE_MASK
    cfg.range (Nat.mod_lt _ (by decide)) (hrfit _ hrange) (by omega)
  refine ⟨_, set_then_get_meas_conf_regfile K intf cfg w hodr hrange hrdm hwrm hreg hbw
    (hofit _ hodr) (by omega), rfl, hfit, ?_⟩
  show u8 (BMI090L_SET_BITS_POS_0 (w.st K.BMI090L_GYRO_RANGE_REG % 256)
    K.BMI090L_GYRO_RANGE_MASK cfg.range) = cfg.range ↔ _
  rw [hfit]
  exact outside_or_eq_iff _ _ _ (hrfit _ hrange)

/-- C27 exercised on the SPI interface with the register map `regmap`, range
0x02 and ODR 0x03 set over a range register that holds 0x08 and a bandwidth
register that holds 0x80. -/
theorem meas_conf_readback_relation_witness :
    ∃ rb : bmi090l_cfg,
      (set_then_get_meas_conf regmap
          (some (regfile_dev regmap 1 { power := 0, range := 0x02, bw := 0, odr := 0x03 }))
          { st := fun a => if a = 0x10 then 0x80 else if a = 0x0F then 0x08 else 0, log := [] }).map
          (fun r => (r.1, r.2.1, cfg_of r.2.2.1)) = some (0, 0, rb) ∧
      rb.odr = 0x03 ∧
      rb.range = andNot (0x08 % 256) 0x07 ||| 0x02 ∧
      (rb.range = 0x02 ↔ andNot (0x08 % 256) 0x07 = 0) :=
  meas_conf_readback_relation regmap 1 { power := 0, range := 0x02, bw := 0, odr := 0x03 }
    { st := fun a => if a = 0x10 then 0x80 else if a = 0x0F then 0x08 else 0, log := [] }
    (by decide) (by decide) rfl rfl (by decide) rfl (by decide) (by decide)
    (by decide) (by decide)

/-- C28: on the register file, for every requested power byte `cfg.power`
(enumerated mode or not) and every power-mode register byte such that the pair
(requested, current) is not (Suspend, DeepSuspend) or (DeepSuspend, Suspend):
(1) `bmi090lg_set_power_mode` followed by `bmi090lg_get_power_mode` on the same
context returns OK twice, the bus sees the read of the power-mode register, the
write of the requested byte whole, the delay and the read back, the register
holds the requested byte and gyro_cfg.power equals it, the other fields
unchanged; (2) the value comes from the register: `bmi090lg_set_power_mode`
returns OK, and `bmi090lg_get_power_mode` called after it on the context with
gyro_cfg.power overwritten by any value `q` reads the register once and leaves
gyro_cfg.power equal to the requested byte, whole and unmasked.  Header facts
used: the SPI direction bit is bit 7 and the power-mode register is a 7-bit
address. -/
theorem power_mode_roundtrip (K : Defs) (intf : Nat) (cfg : bmi090l_cfg) (w : World (Nat → Nat))
    (hp : cfg.power < 256)
    (hlegal : ¬ ((cfg.power = K.BMI090L_GYRO_PM_SUSPEND ∧
        w.st K.BMI090L_GYRO_LPM1_REG % 256 = K.BMI090L_GYRO_PM_DEEP_SUSPEND) ∨
      (cfg.power = K.BMI090L_GYRO_PM_DEEP_SUSPEND ∧
        w.st K.BMI090L_GYRO_LPM1_REG % 256 = K.BMI090L_GYRO_PM_SUSPEND)))
    (hrdm : K.BMI090L_SPI_RD_MASK = 0x80) (hwrm : K.BMI090L_SPI_WR_MASK = 0x7F)
    (hL : K.BMI090L_GYRO_LPM1_REG < 128) :
    (set_then_get_power_mode K (some (regfile_dev K intf cfg)) w).map
        (fun r => (r.1, r.2.1, cfg_of r.2.2.1, r.2.2.2.log, r.2.2.2.st K.BMI090L_GYRO_LPM1_REG)) =
      some (K.BMI090L_OK, K.BMI090L_OK,
        { power := cfg.power, range := cfg.range, bw := cfg.bw, odr := cfg.odr },
        w.log ++
          [BusEvent.read (rd_addr K (regfile_dev K intf cfg) K.BMI090L_GYRO_LPM1_REG) 1,
           BusEvent.write (wr_addr K (regfile_dev K intf cfg) K.BMI090L_GYRO_LPM1_REG) [cfg.power] 1,
           BusEvent.delay (u32 (K.BMI090L_GYRO_POWER_MODE_CONFIG_DELAY * 1000)),
           BusEvent.read (rd_addr K (regfile_dev K intf cfg) K.BMI090L_GYRO_LPM1_REG) 1],
        cfg.power) ∧
    (∀ q : Nat, ∃ w1 : World (Nat → Nat),
      bmi090lg_set_power_mode K (some (regfile_dev K intf cfg)) w = some (K.BMI090L_OK, w1) ∧
      w1.st K.BMI090L_GYRO_LPM1_REG = cfg.power ∧
      (bmi090lg_get_power_mode K
          (some (regfile_dev K intf { power := q, range := cfg.range, bw := cfg.bw, odr := cfg.odr }))
          w1).map (fun r => (r.1, cfg_of r.2.1, r.2.2.log)) =
        some (K.BMI090L_OK,
          { power := cfg.power, range := cfg.range, bw := cfg.bw, odr := cfg.odr },
          w1.log ++
            [BusEvent.read (rd_addr K (regfile_dev K intf cfg) K.BMI090L_GYRO_LPM1_REG) 1])) := by
  have hv := (switch_valid_iff cfg.power (w.st K.BMI090L_GYRO_LPM1_REG % 256)
    K.BMI090L_GYRO_PM_SUSPEND K.BMI090L_GYRO_PM_DEEP_SUSPEND).2 hlegal
  have hpow : (regfile_dev K intf cfg).gyro_cfg.power = cfg.power := rfl
  have hset : bmi090lg_set_power_mode K (some (regfile_dev K intf cfg)) w =
      some (K.BMI090L_OK,
        { st := Function.update w.st K.BMI090L_GYRO_LPM1_REG cfg.power,
          log := w.log ++
            [BusEvent.read (rd_addr K (regfile_dev K intf cfg) K.BMI090L_GYRO_LPM1_REG) 1,
             BusEvent.write (wr_addr K (regfile_dev K intf cfg) K.BMI090L_GYRO_LPM1_REG)
               [cfg.power] 1,
             BusEvent.delay (u32 (K.BMI090L_GYRO_POWER_MODE_CONFIG_DELAY * 1000))] }) := by
    simp only [bmi090lg_set_power_mode,
      null_ptr_check_ok K (regfile_dev K intf cfg) _ _ _ rfl rfl rfl,
      get_regs_regfile_one K intf cfg _ _ _ hL hrdm, set_regs_regfile_one K intf cfg _ _ _ hL hwrm,
      call_delay_us, if_true, List.getD_cons_zero, hpow, hv]
    simp [regfile_dev, regfile_delay]
  have hget : ∀ (c2 : bmi090l_cfg) (w1 : World (Nat → Nat)),
      bmi090lg_get_power_mode K (some (regfile_dev K intf c2)) w1 =
        some (K.BMI090L_OK,
          some { regfile_dev K intf c2 with gyro_cfg :=
            { power := w1.st K.BMI090L_GYRO_LPM1_REG % 256, range := c2.range, bw := c2.bw,
              odr := c2.odr } },
          { st := w1.st,
            log := w1.log ++
              [BusEvent.read (rd_addr K (regfile_dev K intf c2) K.BMI090L_GYRO_LPM1_REG) 1] }) := by
    intro c2 w1
    simp only [bmi090lg_get_power_mode,
      null_ptr_check_ok K (regfile_dev K intf c2) _ _ _ rfl rfl rfl,
      get_regs_regfile_one K intf c2 _ _ _ hL hrdm, if_true, List.getD_cons_zero]
    rfl
  constructor
  · simp only [set_then_get_power_mode, hset, hget, Option.map_some', cfg_of,
      Function.update_same, Nat.mod_eq_of_lt hp]
    simp
  · intro q
    refine ⟨_, hset, ?_, ?_⟩
    · simp
    · simp only [hget, Option.map_some', cfg_of, Function.update_same, Nat.mod_eq_of_lt hp]
      rfl

/-- C28 exercised on the SPI interface with the register map `regmap`: the
byte 0x5A, which is none of the three enumerated modes, is requested while the
power-mode register holds 0x80 (Suspend); it is written whole, the register
holds it, and the read back stores it in the context. -/
theorem power_mode_roundtrip_witness :
    (set_then_get_power_mode regmap
        (some (regfile_dev regmap 1 { power := 0x5A, range := 1, bw := 2, odr := 3 }))
        { st := fun a => if a = 0x11 then 0x80 else 0, log := [] }).map
        (fun r => (r.1, r.2.1, cfg_of r.2.2.1, r.2.2.2.log, r.2.2.2.st 0x11)) =
      some (0, 0, { power := 0x5A, range := 1, bw := 2, odr := 3 },
        [BusEvent.read 0x91 1, BusEvent.write 0x11 [0x5A] 1, BusEvent.delay 30000,
         BusEvent.read 0x91 1],
        0x5A) ∧
    ∃ w1 : World (Nat → Nat),
      bmi090lg_set_power_mode regmap
          (some (regfile_dev regmap 1 { power := 0x5A, range := 1, bw := 2, odr := 3 }))
          { st := fun a => if a = 0x11 then 0x80 else 0, log := [] } = some (0, w1) ∧
      w1.st 0x11 = 0x5A ∧
      (bmi090lg_get_power_mode regmap
          (some (regfile_dev regmap 1 { power := 0, range := 1, bw := 2, odr := 3 }))
          w1).map (fun r => (r.1, cfg_of r.2.1, r.2.2.log)) =
        some (0, { power := 0x5A, range := 1, bw := 2, odr := 3 },
          w1.log ++ [BusEvent.read 0x91 1]) :=
  ⟨(power_mode_roundtrip regmap 1 { power := 0x5A, range := 1, bw := 2, odr := 3 }
      { st := fun a => if a = 0x11 then 0x80 else 0, log := [] }
      (by decide) (by decide) rfl rfl (by decide)).1,
   (power_mode_roundtrip regmap 1 { power := 0x5A, range := 1, bw := 2, odr := 3 }
      { st := fun a => if a = 0x11 then 0x80 else 0, log := [] }
      (by decide) (by decide) rfl rfl (by decide)).2 0⟩

end BMI090LG
